import Mathlib

/-!
# libatsha204: CRC-16, packet framing and argument validation

A shallow embedding of `src/libatsha204/tools.c` and of the argument checks of
`src/libatsha204/api.c`.

Conventions of the embedding.
* A C byte buffer (`unsigned char *`) is a `List Nat`; `buf.getD i 0` is the read
  `buf[i]`.  Reads past the end of the list are outside the C semantics; every
  theorem below either assumes or establishes that the reads it depends on are in
  bounds.
* Machine integers are `Nat` with the reduction modulo `2^8` / `2^16` written
  where the C type truncates.  A function reduces its own scalar parameters, so a
  caller may pass the untruncated value of the argument expression.
* A two byte array `unsigned char crc[2]` is a pair `(crc[0], crc[1])`.
* `calloc` is taken to succeed in the packet builders and the operations (the `NULL`
  branches return before any byte is written); in the open functions its result is
  one of the answers of the system.
-/

namespace Atsha204

/-! ## tools.c -/

/-- The constant `POLYNOM` of tools.c. -/
def POLYNOM : Nat := 0x8005

/-- The values taken by the `unsigned char shift_register` in the inner loop
`for (shift_register = 0x01; shift_register > 0x00; shift_register <<= 1)`:
eight values, after which the shift wraps to zero and the loop ends. -/
def shift_register_values : List Nat :=
  List.iterate (fun s => (s <<< 1) % 256) 0x01 8

/-- The body of the inner loop of `calculate_crc` for one value of
`shift_register` (`crc_register` is a `uint16_t`). -/
def crc_bit_step (byte : Nat) (crc_register shift_register : Nat) : Nat :=
  let data_bit := if byte &&& shift_register ≠ 0 then 1 else 0
  let crc_bit := crc_register >>> 15
  let crc_register := (crc_register <<< 1) % 65536
  if data_bit ≠ crc_bit then crc_register ^^^ POLYNOM else crc_register

/-- The inner loop of `calculate_crc`: all eight masks applied to `data[counter]`. -/
def crc_byte (crc_register byte : Nat) : Nat :=
  shift_register_values.foldl (crc_bit_step byte) crc_register

/-- The outer loop of `calculate_crc`: `counter` runs over `0 .. length-1`. -/
def crc_loop (length : Nat) (data : List Nat) : Nat :=
  (List.range length).foldl (fun crc_register counter => crc_byte crc_register (data.getD counter 0)) 0

/-- The function `calculate_crc(uint16_t length, unsigned char *data, unsigned char *crc)`
of libatsha204/tools.c; the result is `(crc[0], crc[1])`. -/
def calculate_crc (length : Nat) (data : List Nat) : Nat × Nat :=
  let crc_register := crc_loop (length % 65536) data
  ((crc_register &&& 0x00FF) % 256, (crc_register >>> 8) % 256)

/-- The function `check_crc(unsigned char length, unsigned char *data, unsigned char *crc)`. -/
def check_crc (length : Nat) (data : List Nat) (crc : Nat × Nat) : Bool :=
  let rcrc := calculate_crc (length % 256) data
  if crc.1 ≠ rcrc.1 ∨ crc.2 ≠ rcrc.2 then false else true

/-- The read `buf[i]` for an index computed in `int` arithmetic. -/
def peek (buf : List Nat) (i : Int) : Nat :=
  if 0 ≤ i then buf.getD i.toNat 0 else 0

/-- The function `check_packet(unsigned char *packet)`. -/
def check_packet (packet : List Nat) : Bool :=
  let packet_size := packet.getD 0 0 % 256
  let crc := (peek packet ((packet_size : Int) - 2), peek packet ((packet_size : Int) - 1))
  if !check_crc (((packet_size : Int) - 2) % 256).toNat packet crc then false else true

/-- The call `memcpy(dst + off, src, n)` on byte buffers. -/
def memcpy (dst : List Nat) (off : Nat) (src : List Nat) : Nat → List Nat
  | 0 => dst
  | n + 1 => (memcpy dst off src n).set (off + n) (src.getD n 0)

/-- The function `generate_command_packet(opcode, param1, param2, data, data_count)`. -/
def generate_command_packet (opcode param1 param2 : Nat) (data : List Nat) (data_count : Nat) :
    List Nat :=
  let data_count := data_count % 256
  let packet_size := (1 + 1 + 1 + 2 + data_count + 2) % 256
  let packet := List.replicate packet_size 0
  let packet := packet.set 0 packet_size
  let packet := packet.set 1 (opcode % 256)
  let packet := packet.set 2 (param1 % 256)
  let packet := packet.set 3 ((param2 % 65536) &&& 0x00FF)
  let packet := packet.set 4 (((param2 % 65536) &&& 0xFF00) >>> 8)
  let packet := memcpy packet 5 data data_count
  let crc := calculate_crc (((packet_size : Int) - 2) % 65536).toNat packet
  let packet := packet.set (5 + data_count) crc.1
  let packet := packet.set (5 + data_count + 1) crc.2
  packet

/-- The function `generate_answer_packet(data, data_count)`. -/
def generate_answer_packet (data : List Nat) (data_count : Nat) : List Nat :=
  let data_count := data_count % 256
  let packet_size := (1 + data_count + 2) % 256
  let packet := List.replicate packet_size 0
  let packet := packet.set 0 packet_size
  let packet := memcpy packet 1 data data_count
  let crc := calculate_crc (((packet_size : Int) - 2) % 65536).toNat packet
  let packet := packet.set (1 + data_count) crc.1
  let packet := packet.set (1 + data_count + 1) crc.2
  packet

/-! ## atsha204consts.h -/

/-- The constant `ATSHA204_STATUS_SUCCES`. -/
def ATSHA204_STATUS_SUCCES : Nat := 0x00

/-- The constant `ATSHA204_OPCODE_DEV_REV`. -/
def ATSHA204_OPCODE_DEV_REV : Nat := 0x30

/-- The constant `ATSHA204_OPCODE_READ`. -/
def ATSHA204_OPCODE_READ : Nat := 0x02

/-- The constant `ATSHA204_OPCODE_WRITE`. -/
def ATSHA204_OPCODE_WRITE : Nat := 0x12

/-- The constant `ATSHA204_OPCODE_NONCE`. -/
def ATSHA204_OPCODE_NONCE : Nat := 0x16

/-- The constant `ATSHA204_OPCODE_HMAC`. -/
def ATSHA204_OPCODE_HMAC : Nat := 0x11

/-- The constant `ATSHA204_OPCODE_MAC`. -/
def ATSHA204_OPCODE_MAC : Nat := 0x08

/-! ## Auxiliary definitions used to state and prove the properties -/

/-- The register after the bytes of `l` have been shifted in, starting from `crc_register`. -/
def crc_bytes (crc_register : Nat) (l : List Nat) : Nat :=
  l.foldl crc_byte crc_register

/-- The five header bytes written by `generate_command_packet`. -/
def command_header (opcode param1 param2 N : Nat) : List Nat :=
  [7 + N, opcode % 256, param1 % 256, (param2 % 65536) &&& 0x00FF,
    ((param2 % 65536) &&& 0xFF00) >>> 8]

/-- The register update of `calculate_crc` for one message bit. -/
def crc_shift (crc_register : Nat) (data_bit : Bool) : Nat :=
  crc_bit_step (if data_bit then 1 else 0) crc_register 1

/-- The bits of one byte, least significant first. -/
def byte_bits (byte : Nat) : List Bool :=
  (List.range 8).map (fun i => byte.testBit i)

/-- The message bits in processing order: first byte first, least significant bit of each byte first. -/
def message_bits (data : List Nat) : List Bool :=
  data.flatMap byte_bits

/-- The polynomial over GF(2) whose coefficients are `bits`, the first bit being the
coefficient of the highest degree; bit `i` of the result is the coefficient of `x^i`. -/
def message_poly (bits : List Bool) : Nat :=
  bits.foldl (fun m b => 2 * m + (if b then 1 else 0)) 0

/-- The recursion of `gf2_mul`: the lowest coefficient of `a` selects `b`, and the remaining
coefficients select multiples of `x * b`.  The first argument bounds the number of steps. -/
def gf2_mul_loop : Nat → Nat → Nat → Nat
  | 0, _, _ => 0
  | fuel + 1, a, b =>
    if a = 0 then 0 else (if a % 2 = 1 then b else 0) ^^^ 2 * gf2_mul_loop fuel (a / 2) b

/-- Product of two polynomials over GF(2), each encoded by the number whose bit `i` is the
coefficient of `x^i`: the sum (exclusive or) of `b * x^i` over the set bits `i` of `a`.
The recursion halves `a` in every step, so `a` steps are more than enough. -/
def gf2_mul (a b : Nat) : Nat :=
  gf2_mul_loop a a b

/-- The generator `x^16 + x^15 + x^2 + 1`. -/
def CRC16_GENERATOR : Nat := 2 ^ 16 + 2 ^ 15 + 2 ^ 2 + 1

/-- The 16 bit value `crc[0] + 256 * crc[1]` of the two bytes written by `calculate_crc`. -/
def crc_value (crc : Nat × Nat) : Nat := crc.1 + 256 * crc.2

/-! ## api.c

The functions below follow api.c statement by statement.  The handle is represented by its
transport and by the record of the calls made on it so far; every call of `wake`, `command`
or `idle` in the source appends one entry to that record.  `log_message` and `free` have no
effect on the results and are left out. -/

/-- Modelled from the spec: the status codes `ATSHA_ERR_*` of atsha204.h, which is not under
src/; section 7 lists them as the error kinds.  There is one constructor for each constant
that api.c and error.c name; the constants are distinct integers. -/
inductive Status where
  | ATSHA_ERR_OK
  | ATSHA_ERR_MEMORY_ALLOCATION_ERROR
  | ATSHA_ERR_INVALID_INPUT
  | ATSHA_ERR_COMMUNICATION
  | ATSHA_ERR_BAD_COMMUNICATION_STATUS
  | ATSHA_ERR_NOT_IMPLEMENTED
  | ATSHA_ERR_WAKE_NOT_CONFIRMED
  | ATSHA_ERR_DNS_GET_KEY
  deriving DecidableEq

/-- Modelled from the spec: the type `atsha_big_int` of atsha204.h, which is not under src/:
a byte buffer `data` paired with the used length `bytes`. -/
structure atsha_big_int where
  bytes : Nat
  data : List Nat
  deriving DecidableEq

/-- Modelled from the spec: the constant `ATSHA204_MAX_SLOT_NUMBER`, whose definition is not
under src/; slots are numbered 0..15. -/
def ATSHA204_MAX_SLOT_NUMBER : Nat := 15

/-- A call made on the transport of a handle. -/
inductive Call where
  | wake
  | command (packet : List Nat)
  | idle
  deriving DecidableEq

/-- The functions `wake`, `command` and `idle` of communication.c, which is not under src/,
taken as parameters.  Each receives the calls made before it on the handle, so that its
result may depend on everything sent so far; `command` returns its status together with
the buffer it stores through `answer`. -/
structure Transport where
  wake : List Call → Status
  command : List Call → List Nat → Status × List Nat
  idle : List Call → Status

/-- The packet encoders and decoders of operations.c and the zone constants they are called
with, none of which is under src/, taken as parameters.  An encoder returns `none` for the
`NULL` packet; a decoder that fills a buffer returns the byte count together with the buffer
contents it leaves. -/
structure Operations where
  IO_MEM_CONFIG : Nat
  IO_MEM_OTP : Nat
  IO_MEM_DATA : Nat
  IO_RW_NON_ENC : Nat
  IO_RW_4_BYTES : Nat
  IO_RW_32_BYTES : Nat
  get_zone_config : Nat → Nat → Nat → Nat
  get_slot_address : Nat → Nat
  op_raw_read : Nat → Nat → Option (List Nat)
  op_raw_read_recv : List Nat → List Nat → Nat × List Nat
  op_raw_write : Nat → Nat → Nat → List Nat → Option (List Nat)
  op_raw_write_recv : List Nat → Status
  op_nonce : Nat → List Nat → Option (List Nat)
  op_nonce_recv : List Nat → Status
  op_hmac : Nat → Bool → Option (List Nat)
  op_hmac_recv : List Nat → List Nat → Nat × List Nat
  op_mac : Nat → Nat → List Nat → Bool → Option (List Nat)
  op_mac_recv : List Nat → List Nat → Nat × List Nat

/-- The function `atsha_raw_slot_read(handle, slot_number, number)`.  The result is the
returned status, the contents of `*number` and the calls made on the transport. -/
def atsha_raw_slot_read (ops : Operations) (t : Transport) (trace : List Call)
    (slot_number : Nat) (number : atsha_big_int) : Status × atsha_big_int × List Call :=
  let slot_number := slot_number % 256
  if slot_number > ATSHA204_MAX_SLOT_NUMBER then
    (Status.ATSHA_ERR_INVALID_INPUT, number, trace)
  else
    let status := t.wake trace
    let trace := trace ++ [Call.wake]
    if status ≠ Status.ATSHA_ERR_OK then (status, number, trace)
    else
      match ops.op_raw_read
          (ops.get_zone_config ops.IO_MEM_DATA ops.IO_RW_NON_ENC ops.IO_RW_32_BYTES)
          (ops.get_slot_address slot_number) with
      | none => (Status.ATSHA_ERR_MEMORY_ALLOCATION_ERROR, number, trace)
      | some packet =>
        let result := t.command trace packet
        let trace := trace ++ [Call.command packet]
        if result.1 ≠ Status.ATSHA_ERR_OK then (result.1, number, trace)
        else
          let received := ops.op_raw_read_recv result.2 number.data
          let number : atsha_big_int := { bytes := received.1, data := received.2 }
          if number.bytes = 0 then (Status.ATSHA_ERR_MEMORY_ALLOCATION_ERROR, number, trace)
          else
            let _status := t.idle trace
            let trace := trace ++ [Call.idle]
            (Status.ATSHA_ERR_OK, number, trace)

/-- The function `atsha_raw_slot_write(handle, slot_number, number)`.  The result is the
returned status and the calls made on the transport. -/
def atsha_raw_slot_write (ops : Operations) (t : Transport) (trace : List Call)
    (slot_number : Nat) (number : atsha_big_int) : Status × List Call :=
  let slot_number := slot_number % 256
  if slot_number > ATSHA204_MAX_SLOT_NUMBER then
    (Status.ATSHA_ERR_INVALID_INPUT, trace)
  else
    let status := t.wake trace
    let trace := trace ++ [Call.wake]
    if status ≠ Status.ATSHA_ERR_OK then (status, trace)
    else
      match ops.op_raw_write
          (ops.get_zone_config ops.IO_MEM_DATA ops.IO_RW_NON_ENC ops.IO_RW_32_BYTES)
          (ops.get_slot_address slot_number) number.bytes number.data with
      | none => (Status.ATSHA_ERR_MEMORY_ALLOCATION_ERROR, trace)
      | some packet =>
        let result := t.command trace packet
        let trace := trace ++ [Call.command packet]
        if result.1 ≠ Status.ATSHA_ERR_OK then (result.1, trace)
        else
          let status := ops.op_raw_write_recv result.2
          if status ≠ Status.ATSHA_ERR_OK then (status, trace)
          else
            let _status := t.idle trace
            let trace := trace ++ [Call.idle]
            (Status.ATSHA_ERR_OK, trace)

/-- The function `atsha_low_challenge_response(handle, slot_number, challenge, response,
use_sn_in_digest)`. -/
def atsha_low_challenge_response (ops : Operations) (t : Transport) (trace : List Call)
    (slot_number : Nat) (challenge : atsha_big_int) (response : atsha_big_int)
    (use_sn_in_digest : Bool) : Status × atsha_big_int × List Call :=
  let slot_number := slot_number % 256
  if slot_number > ATSHA204_MAX_SLOT_NUMBER then
    (Status.ATSHA_ERR_INVALID_INPUT, response, trace)
  else if challenge.bytes ≠ 32 then
    (Status.ATSHA_ERR_INVALID_INPUT, response, trace)
  else
    let status := t.wake trace
    let trace := trace ++ [Call.wake]
    if status ≠ Status.ATSHA_ERR_OK then (status, response, trace)
    else
      match ops.op_nonce challenge.bytes challenge.data with
      | none => (Status.ATSHA_ERR_MEMORY_ALLOCATION_ERROR, response, trace)
      | some packet =>
        let result := t.command trace packet
        let trace := trace ++ [Call.command packet]
        if result.1 ≠ Status.ATSHA_ERR_OK then (result.1, response, trace)
        else
          let status := ops.op_nonce_recv result.2
          if status ≠ Status.ATSHA_ERR_OK then (status, response, trace)
          else
            match ops.op_hmac slot_number use_sn_in_digest with
            | none => (Status.ATSHA_ERR_MEMORY_ALLOCATION_ERROR, response, trace)
            | some packet =>
              let result := t.command trace packet
              let trace := trace ++ [Call.command packet]
              if result.1 ≠ Status.ATSHA_ERR_OK then (result.1, response, trace)
              else
                let received := ops.op_hmac_recv result.2 response.data
                let response : atsha_big_int := { bytes := received.1, data := received.2 }
                if response.bytes = 0 then
                  (Status.ATSHA_ERR_MEMORY_ALLOCATION_ERROR, response, trace)
                else
                  let _status := t.idle trace
                  let trace := trace ++ [Call.idle]
                  (Status.ATSHA_ERR_OK, response, trace)

/-- The function `atsha_low_challenge_response_mac(handle, slot_number, challenge, response,
use_sn_in_digest)`. -/
def atsha_low_challenge_response_mac (ops : Operations) (t : Transport) (trace : List Call)
    (slot_number : Nat) (challenge : atsha_big_int) (response : atsha_big_int)
    (use_sn_in_digest : Bool) : Status × atsha_big_int × List Call :=
  let slot_number := slot_number % 256
  if slot_number > ATSHA204_MAX_SLOT_NUMBER then
    (Status.ATSHA_ERR_INVALID_INPUT, response, trace)
  else if challenge.bytes ≠ 32 then
    (Status.ATSHA_ERR_INVALID_INPUT, response, trace)
  else
    let status := t.wake trace
    let trace := trace ++ [Call.wake]
    if status ≠ Status.ATSHA_ERR_OK then (status, response, trace)
    else
      match ops.op_mac slot_number challenge.bytes challenge.data use_sn_in_digest with
      | none => (Status.ATSHA_ERR_MEMORY_ALLOCATION_ERROR, response, trace)
      | some packet =>
        let result := t.command trace packet
        let trace := trace ++ [Call.command packet]
        if result.1 ≠ Status.ATSHA_ERR_OK then (result.1, response, trace)
        else
          let received := ops.op_mac_recv result.2 response.data
          let response : atsha_big_int := { bytes := received.1, data := received.2 }
          if response.bytes = 0 then
            (Status.ATSHA_ERR_MEMORY_ALLOCATION_ERROR, response, trace)
          else
            let _status := t.idle trace
            let trace := trace ++ [Call.idle]
            (Status.ATSHA_ERR_OK, response, trace)

/-- The function `atsha_raw_conf_read(handle, address, data)`. -/
def atsha_raw_conf_read (ops : Operations) (t : Transport) (trace : List Call)
    (address : Nat) (data : atsha_big_int) : Status × atsha_big_int × List Call :=
  let address := address % 256
  let status := t.wake trace
  let trace := trace ++ [Call.wake]
  if status ≠ Status.ATSHA_ERR_OK then (status, data, trace)
  else
    match ops.op_raw_read
        (ops.get_zone_config ops.IO_MEM_CONFIG ops.IO_RW_NON_ENC ops.IO_RW_4_BYTES)
        address with
    | none => (Status.ATSHA_ERR_MEMORY_ALLOCATION_ERROR, data, trace)
    | some packet =>
      let result := t.command trace packet
      let trace := trace ++ [Call.command packet]
      if result.1 ≠ Status.ATSHA_ERR_OK then (result.1, data, trace)
      else
        let received := ops.op_raw_read_recv result.2 data.data
        let data : atsha_big_int := { bytes := received.1, data := received.2 }
        if data.bytes = 0 then (Status.ATSHA_ERR_MEMORY_ALLOCATION_ERROR, data, trace)
        else
          let _status := t.idle trace
          let trace := trace ++ [Call.idle]
          (Status.ATSHA_ERR_OK, data, trace)

/-- The function `atsha_raw_conf_write(handle, address, data)`. -/
def atsha_raw_conf_write (ops : Operations) (t : Transport) (trace : List Call)
    (address : Nat) (data : atsha_big_int) : Status × List Call :=
  let address := address % 256
  let status := t.wake trace
  let trace := trace ++ [Call.wake]
  if status ≠ Status.ATSHA_ERR_OK then (status, trace)
  else
    match ops.op_raw_write
        (ops.get_zone_config ops.IO_MEM_CONFIG ops.IO_RW_NON_ENC ops.IO_RW_4_BYTES)
        address data.bytes data.data with
    | none => (Status.ATSHA_ERR_MEMORY_ALLOCATION_ERROR, trace)
    | some packet =>
      let result := t.command trace packet
      let trace := trace ++ [Call.command packet]
      if result.1 ≠ Status.ATSHA_ERR_OK then (result.1, trace)
      else
        let status := ops.op_raw_write_recv result.2
        if status ≠ Status.ATSHA_ERR_OK then (status, trace)
        else
          let _status := t.idle trace
          let trace := trace ++ [Call.idle]
          (Status.ATSHA_ERR_OK, trace)


/-! ## A concrete device, used to evaluate the API functions -/

/-- Modelled from the spec: the encoders and decoders of operations.c, which is not under
src/, after the opcode table of section 4.3 and the frame layouts of section 4.2.  A request
is the command frame of its opcode, param1, param2 and payload; a response with a longer
body yields that body and its length; a response with a one byte body is a status code,
`0x00` being success.  The zone selector combines the zone id (config 0, OTP 1, data 2) with
the size flag, and a slot address is the slot index shifted left by three.  The spec leaves
the bit positions of the flags and the values of the mode bytes open; the values chosen
below only fix the bytes of the example packets. -/
def table_operations : Operations where
  IO_MEM_CONFIG := 0
  IO_MEM_OTP := 1
  IO_MEM_DATA := 2
  IO_RW_NON_ENC := 0
  IO_RW_4_BYTES := 0
  IO_RW_32_BYTES := 1
  get_zone_config := fun io_mem io_enc io_cnt => io_mem + 64 * io_enc + 128 * io_cnt
  get_slot_address := fun slot_number => slot_number <<< 3
  op_raw_read := fun zone_config address =>
    some (generate_command_packet ATSHA204_OPCODE_READ zone_config address [] 0)
  op_raw_read_recv := fun packet _ =>
    (packet.getD 0 0 - 3, (packet.drop 1).take (packet.getD 0 0 - 3))
  op_raw_write := fun zone_config address cnt data =>
    some (generate_command_packet ATSHA204_OPCODE_WRITE zone_config address data cnt)
  op_raw_write_recv := fun packet =>
    if packet.getD 1 0 = ATSHA204_STATUS_SUCCES then Status.ATSHA_ERR_OK
    else Status.ATSHA_ERR_BAD_COMMUNICATION_STATUS
  op_nonce := fun cnt data =>
    some (generate_command_packet ATSHA204_OPCODE_NONCE 0 0 data cnt)
  op_nonce_recv := fun packet =>
    if packet.getD 1 0 = ATSHA204_STATUS_SUCCES then Status.ATSHA_ERR_OK
    else Status.ATSHA_ERR_BAD_COMMUNICATION_STATUS
  op_hmac := fun slot_number use_sn_in_digest =>
    some (generate_command_packet ATSHA204_OPCODE_HMAC (if use_sn_in_digest then 1 else 0)
      slot_number [] 0)
  op_hmac_recv := fun packet _ =>
    (packet.getD 0 0 - 3, (packet.drop 1).take (packet.getD 0 0 - 3))
  op_mac := fun slot_number cnt data use_sn_in_digest =>
    some (generate_command_packet ATSHA204_OPCODE_MAC (if use_sn_in_digest then 1 else 0)
      slot_number data cnt)
  op_mac_recv := fun packet _ =>
    (packet.getD 0 0 - 3, (packet.drop 1).take (packet.getD 0 0 - 3))

/-- A device that confirms every wake and every idle, acknowledges a Write command with the
success status and answers every other command with a four byte word of zeros. -/
def zero_word_transport : Transport where
  wake := fun _ => Status.ATSHA_ERR_OK
  command := fun _ packet =>
    if packet.getD 1 0 = ATSHA204_OPCODE_WRITE then
      (Status.ATSHA_ERR_OK, generate_answer_packet [ATSHA204_STATUS_SUCCES] 1)
    else (Status.ATSHA_ERR_OK, generate_answer_packet [0, 0, 0, 0] 4)
  idle := fun _ => Status.ATSHA_ERR_OK

/-- A device that does not confirm the wake. -/
def silent_transport : Transport where
  wake := fun _ => Status.ATSHA_ERR_WAKE_NOT_CONFIRMED
  command := fun _ _ => (Status.ATSHA_ERR_COMMUNICATION, [])
  idle := fun _ => Status.ATSHA_ERR_COMMUNICATION

/-- The fields of a command frame as the frame layout reads them: opcode, param1, the
little-endian param2 and the payload, whose length is the length byte minus seven. -/
def decode_command_packet (F : List Nat) : Nat × Nat × Nat × List Nat :=
  (F.getD 1 0, F.getD 2 0, F.getD 3 0 + 256 * F.getD 4 0, (F.drop 5).take (F.getD 0 0 - 7))

/-! ## api.c, the remaining operations -/

/-- The encoders, decoders and constants that the remaining operations of api.c use and that
are not under src/ either (operations.c and the headers), taken as parameters in addition to
those of `Operations`.  `op_dev_rev_recv` returns the `uint32_t` revision; the two OTP
addresses are the constants `ATSHA204_OTP_MEMORY_MAP_REV_NUMBER` and
`ATSHA204_OTP_MEMORY_MAP_SERIAL_NUMBER`. -/
structure DeviceOperations extends Operations where
  LOCK_CONFIG : Nat
  LOCK_DATA : Nat
  get_lock_config : Nat → Nat
  op_dev_rev : Option (List Nat)
  op_dev_rev_recv : List Nat → Nat
  op_random : Option (List Nat)
  op_random_recv : List Nat → List Nat → Nat × List Nat
  op_serial_number : Option (List Nat)
  op_serial_number_recv : List Nat → List Nat → Nat × List Nat
  op_lock : Nat → Nat × Nat → Option (List Nat)
  op_lock_recv : List Nat → Status
  ATSHA204_OTP_MEMORY_MAP_REV_NUMBER : Nat
  ATSHA204_OTP_MEMORY_MAP_SERIAL_NUMBER : Nat

/-- The function `atsha_dev_rev(handle, revision)`.  The result is the returned status, the
contents of `*revision` and the calls made on the transport. -/
def atsha_dev_rev (ops : DeviceOperations) (t : Transport) (trace : List Call)
    (revision : Nat) : Status × Nat × List Call :=
  let status := t.wake trace
  let trace := trace ++ [Call.wake]
  if status ≠ Status.ATSHA_ERR_OK then (status, revision, trace)
  else
    match ops.op_dev_rev with
    | none => (Status.ATSHA_ERR_MEMORY_ALLOCATION_ERROR, revision, trace)
    | some packet =>
      let result := t.command trace packet
      let trace := trace ++ [Call.command packet]
      if result.1 ≠ Status.ATSHA_ERR_OK then (result.1, revision, trace)
      else
        let revision := ops.op_dev_rev_recv result.2
        let _status := t.idle trace
        let trace := trace ++ [Call.idle]
        (Status.ATSHA_ERR_OK, revision, trace)

/-- The function `atsha_random(handle, number)`. -/
def atsha_random (ops : DeviceOperations) (t : Transport) (trace : List Call)
    (number : atsha_big_int) : Status × atsha_big_int × List Call :=
  let status := t.wake trace
  let trace := trace ++ [Call.wake]
  if status ≠ Status.ATSHA_ERR_OK then (status, number, trace)
  else
    match ops.op_random with
    | none => (Status.ATSHA_ERR_MEMORY_ALLOCATION_ERROR, number, trace)
    | some packet =>
      let result := t.command trace packet
      let trace := trace ++ [Call.command packet]
      if result.1 ≠ Status.ATSHA_ERR_OK then (result.1, number, trace)
      else
        let received := ops.op_random_recv result.2 number.data
        let number : atsha_big_int := { bytes := received.1, data := received.2 }
        if number.bytes = 0 then (Status.ATSHA_ERR_MEMORY_ALLOCATION_ERROR, number, trace)
        else
          let _status := t.idle trace
          let trace := trace ++ [Call.idle]
          (Status.ATSHA_ERR_OK, number, trace)

/-- The function `atsha_chip_serial_number(handle, number)`. -/
def atsha_chip_serial_number (ops : DeviceOperations) (t : Transport) (trace : List Call)
    (number : atsha_big_int) : Status × atsha_big_int × List Call :=
  let status := t.wake trace
  let trace := trace ++ [Call.wake]
  if status ≠ Status.ATSHA_ERR_OK then (status, number, trace)
  else
    match ops.op_serial_number with
    | none => (Status.ATSHA_ERR_MEMORY_ALLOCATION_ERROR, number, trace)
    | some packet =>
      let result := t.command trace packet
      let trace := trace ++ [Call.command packet]
      if result.1 ≠ Status.ATSHA_ERR_OK then (result.1, number, trace)
      else
        let received := ops.op_serial_number_recv result.2 number.data
        let number : atsha_big_int := { bytes := received.1, data := received.2 }
        if number.bytes = 0 then (Status.ATSHA_ERR_MEMORY_ALLOCATION_ERROR, number, trace)
        else
          let _status := t.idle trace
          let trace := trace ++ [Call.idle]
          (Status.ATSHA_ERR_OK, number, trace)

/-- The function `atsha_raw_otp_read(handle, address, data)`. -/
def atsha_raw_otp_read (ops : DeviceOperations) (t : Transport) (trace : List Call)
    (address : Nat) (data : atsha_big_int) : Status × atsha_big_int × List Call :=
  let address := address % 256
  let status := t.wake trace
  let trace := trace ++ [Call.wake]
  if status ≠ Status.ATSHA_ERR_OK then (status, data, trace)
  else
    match ops.op_raw_read
        (ops.get_zone_config ops.IO_MEM_OTP ops.IO_RW_NON_ENC ops.IO_RW_4_BYTES)
        address with
    | none => (Status.ATSHA_ERR_MEMORY_ALLOCATION_ERROR, data, trace)
    | some packet =>
      let result := t.command trace packet
      let trace := trace ++ [Call.command packet]
      if result.1 ≠ Status.ATSHA_ERR_OK then (result.1, data, trace)
      else
        let received := ops.op_raw_read_recv result.2 data.data
        let data : atsha_big_int := { bytes := received.1, data := received.2 }
        if data.bytes = 0 then (Status.ATSHA_ERR_MEMORY_ALLOCATION_ERROR, data, trace)
        else
          let _status := t.idle trace
          let trace := trace ++ [Call.idle]
          (Status.ATSHA_ERR_OK, data, trace)

/-- The function `atsha_raw_otp_write(handle, address, data)`. -/
def atsha_raw_otp_write (ops : DeviceOperations) (t : Transport) (trace : List Call)
    (address : Nat) (data : atsha_big_int) : Status × List Call :=
  let address := address % 256
  let status := t.wake trace
  let trace := trace ++ [Call.wake]
  if status ≠ Status.ATSHA_ERR_OK then (status, trace)
  else
    match ops.op_raw_write
        (ops.get_zone_config ops.IO_MEM_OTP ops.IO_RW_NON_ENC ops.IO_RW_4_BYTES)
        address data.bytes data.data with
    | none => (Status.ATSHA_ERR_MEMORY_ALLOCATION_ERROR, trace)
    | some packet =>
      let result := t.command trace packet
      let trace := trace ++ [Call.command packet]
      if result.1 ≠ Status.ATSHA_ERR_OK then (result.1, trace)
      else
        let status := ops.op_raw_write_recv result.2
        if status ≠ Status.ATSHA_ERR_OK then (status, trace)
        else
          let _status := t.idle trace
          let trace := trace ++ [Call.idle]
          (Status.ATSHA_ERR_OK, trace)

/-- The function `atsha_lock_config(handle, crc)`. -/
def atsha_lock_config (ops : DeviceOperations) (t : Transport) (trace : List Call)
    (crc : Nat × Nat) : Status × List Call :=
  let status := t.wake trace
  let trace := trace ++ [Call.wake]
  if status ≠ Status.ATSHA_ERR_OK then (status, trace)
  else
    match ops.op_lock (ops.get_lock_config ops.LOCK_CONFIG) crc with
    | none => (Status.ATSHA_ERR_MEMORY_ALLOCATION_ERROR, trace)
    | some packet =>
      let result := t.command trace packet
      let trace := trace ++ [Call.command packet]
      if result.1 ≠ Status.ATSHA_ERR_OK then (result.1, trace)
      else
        let status := ops.op_lock_recv result.2
        if status ≠ Status.ATSHA_ERR_OK then (status, trace)
        else
          let _status := t.idle trace
          let trace := trace ++ [Call.idle]
          (Status.ATSHA_ERR_OK, trace)

/-- The function `atsha_lock_data(handle, crc)`. -/
def atsha_lock_data (ops : DeviceOperations) (t : Transport) (trace : List Call)
    (crc : Nat × Nat) : Status × List Call :=
  let status := t.wake trace
  let trace := trace ++ [Call.wake]
  if status ≠ Status.ATSHA_ERR_OK then (status, trace)
  else
    match ops.op_lock (ops.get_lock_config ops.LOCK_DATA) crc with
    | none => (Status.ATSHA_ERR_MEMORY_ALLOCATION_ERROR, trace)
    | some packet =>
      let result := t.command trace packet
      let trace := trace ++ [Call.command packet]
      if result.1 ≠ Status.ATSHA_ERR_OK then (result.1, trace)
      else
        let status := ops.op_lock_recv result.2
        if status ≠ Status.ATSHA_ERR_OK then (status, trace)
        else
          let _status := t.idle trace
          let trace := trace ++ [Call.idle]
          (Status.ATSHA_ERR_OK, trace)

/-- The function `atsha_serial_number(handle, number)`.  `USE_OUR_SN` is a macro of
configuration.h, which is not under src/, and is taken as a parameter; `part` is the
uninitialised local `atsha_big_int part`. -/
def atsha_serial_number (USE_OUR_SN : Bool) (ops : DeviceOperations) (t : Transport)
    (trace : List Call) (part : atsha_big_int) (number : atsha_big_int) :
    Status × atsha_big_int × List Call :=
  if USE_OUR_SN then
    let first := atsha_raw_otp_read ops t trace ops.ATSHA204_OTP_MEMORY_MAP_REV_NUMBER part
    let part := first.2.1
    let trace := first.2.2
    if first.1 ≠ Status.ATSHA_ERR_OK then (first.1, number, trace)
    else
      let data := number.data.set 0 (part.data.getD 0 0)
      let data := data.set 1 (part.data.getD 1 0)
      let data := data.set 2 (part.data.getD 2 0)
      let data := data.set 3 (part.data.getD 3 0)
      let second :=
        atsha_raw_otp_read ops t trace ops.ATSHA204_OTP_MEMORY_MAP_SERIAL_NUMBER part
      let part := second.2.1
      let trace := second.2.2
      if second.1 ≠ Status.ATSHA_ERR_OK then
        (second.1, { bytes := number.bytes, data := data }, trace)
      else
        let data := data.set 4 (part.data.getD 0 0)
        let data := data.set 5 (part.data.getD 1 0)
        let data := data.set 6 (part.data.getD 2 0)
        let data := data.set 7 (part.data.getD 3 0)
        (Status.ATSHA_ERR_OK, { bytes := 8, data := data }, trace)
  else
    atsha_chip_serial_number ops t trace number

/-- Modelled from the spec: the remaining encoders and decoders of operations.c, which is
not under src/, after the opcode table of section 4.3: DevRev (0x30) and Random (0x1B)
without parameters, Lock (0x17) with the zone in param1 (config 0, data 1) and the CRC-16 in
param2.  The chip serial number is read as a 32 byte word of the config zone.  The spec does
not give the layout of the revision word nor the two OTP addresses; the values chosen below
only fix the bytes of the example packets. -/
def table_device_operations : DeviceOperations where
  toOperations := table_operations
  LOCK_CONFIG := 0
  LOCK_DATA := 1
  get_lock_config := fun zone => zone
  op_dev_rev := some (generate_command_packet ATSHA204_OPCODE_DEV_REV 0 0 [] 0)
  op_dev_rev_recv := fun packet =>
    ((packet.getD 1 0 * 256 + packet.getD 2 0) * 256 + packet.getD 3 0) * 256 + packet.getD 4 0
  op_random := some (generate_command_packet 0x1B 0 0 [] 0)
  op_random_recv := fun packet _ =>
    (packet.getD 0 0 - 3, (packet.drop 1).take (packet.getD 0 0 - 3))
  op_serial_number := some (generate_command_packet ATSHA204_OPCODE_READ 128 0 [] 0)
  op_serial_number_recv := fun packet _ =>
    (packet.getD 0 0 - 3, (packet.drop 1).take (packet.getD 0 0 - 3))
  op_lock := fun zone crc =>
    some (generate_command_packet 0x17 zone (crc.1 + 256 * crc.2) [] 0)
  op_lock_recv := fun packet =>
    if packet.getD 1 0 = ATSHA204_STATUS_SUCCES then Status.ATSHA_ERR_OK
    else Status.ATSHA_ERR_BAD_COMMUNICATION_STATUS
  ATSHA204_OTP_MEMORY_MAP_REV_NUMBER := 0x00
  ATSHA204_OTP_MEMORY_MAP_SERIAL_NUMBER := 0x01

/-- A device like `zero_word_transport` on which every idle fails. -/
def idle_failing_transport : Transport where
  wake := zero_word_transport.wake
  command := zero_word_transport.command
  idle := fun _ => Status.ATSHA_ERR_COMMUNICATION

/-- A device that confirms the wake and fails every command with a communication error. -/
def command_failing_transport : Transport where
  wake := fun _ => Status.ATSHA_ERR_OK
  command := fun _ _ => (Status.ATSHA_ERR_COMMUNICATION, [])
  idle := fun _ => Status.ATSHA_ERR_OK

/-- A device like `zero_word_transport` that fails every command sent after another command
of the same wake. -/
def second_command_failing_transport : Transport where
  wake := fun _ => Status.ATSHA_ERR_OK
  command := fun trace packet =>
    match trace.getLast? with
    | some (Call.command _) => (Status.ATSHA_ERR_COMMUNICATION, [])
    | _ => zero_word_transport.command trace packet
  idle := fun _ => Status.ATSHA_ERR_OK

/-- The first OTP read of `atsha_serial_number` under `USE_OUR_SN`: the word at
`ATSHA204_OTP_MEMORY_MAP_REV_NUMBER`, read into `part`. -/
def serial_first_read (ops : DeviceOperations) (t : Transport) (trace : List Call)
    (part : atsha_big_int) : Status × atsha_big_int × List Call :=
  atsha_raw_otp_read ops t trace ops.ATSHA204_OTP_MEMORY_MAP_REV_NUMBER part

/-- The second OTP read of `atsha_serial_number` under `USE_OUR_SN`: the word at
`ATSHA204_OTP_MEMORY_MAP_SERIAL_NUMBER`, read into `part` after the first read. -/
def serial_second_read (ops : DeviceOperations) (t : Transport) (trace : List Call)
    (part : atsha_big_int) : Status × atsha_big_int × List Call :=
  atsha_raw_otp_read ops t (serial_first_read ops t trace part).2.2
    ops.ATSHA204_OTP_MEMORY_MAP_SERIAL_NUMBER (serial_first_read ops t trace part).2.1

/-- The first four bytes of a buffer: the 4 byte OTP word that a read left in it. -/
def otp_word (data : atsha_big_int) : List Nat :=
  [data.data.getD 0 0, data.data.getD 1 0, data.data.getD 2 0, data.data.getD 3 0]

/-- A device like `zero_word_transport` that answers a read of address `a` with the word
`a, 0xA1, 0xA2, 0xA3`. -/
def address_word_transport : Transport where
  wake := fun _ => Status.ATSHA_ERR_OK
  command := fun _ packet =>
    (Status.ATSHA_ERR_OK, generate_answer_packet [packet.getD 3 0, 0xA1, 0xA2, 0xA3] 4)
  idle := fun _ => Status.ATSHA_ERR_OK

/-- A device like `address_word_transport` that can be woken only once. -/
def single_wake_transport : Transport where
  wake := fun calls =>
    match calls with
    | [] => Status.ATSHA_ERR_OK
    | _ :: _ => Status.ATSHA_ERR_WAKE_NOT_CONFIRMED
  command := address_word_transport.command
  idle := fun _ => Status.ATSHA_ERR_OK

/-! ## The C library functions used by the parser

Characters are their codes.  A C string is the list of its characters up to the first NUL.
`strtol`, `fgets` and `strlen` are functions of the C library, described here after the C
standard. -/

/-- The function `isspace` in the C locale: space, `\t`, `\n`, `\v`, `\f`, `\r`. -/
def isspace (c : Nat) : Bool :=
  c = 32 || (9 ≤ c && c ≤ 13)

/-- The value of a character as a digit of `strtol`: `0`-`9`, then the letters of either
case from 10 on; `none` for every other character. -/
def digit_value (c : Nat) : Option Nat :=
  if 48 ≤ c ∧ c ≤ 57 then some (c - 48)
  else if 97 ≤ c ∧ c ≤ 122 then some (c - 97 + 10)
  else if 65 ≤ c ∧ c ≤ 90 then some (c - 65 + 10)
  else none

/-- The digit loop of `strtol`: the longest run of digits below `base` is accumulated. -/
def strtol_digits (base : Nat) : List Nat → Nat → Nat
  | [], acc => acc
  | c :: s, acc =>
    match digit_value c with
    | some d => if d < base then strtol_digits base s (acc * base + d) else acc
    | none => acc

/-- The call `strtol(str, NULL, 16)`: leading white space is skipped, then an optional sign
and an optional `0x` or `0X` in front of a hexadecimal digit, then the hexadecimal digits
are read; without digits the result is 0.  The clamping to `LONG_MAX` is left out, the
strings passed here have two characters. -/
def strtol_16 (str : List Nat) : Int :=
  let s := str.takeWhile (fun c => c ≠ 0)
  let s := s.dropWhile isspace
  let negative := s.head? = some 45
  let s := if s.head? = some 45 ∨ s.head? = some 43 then s.drop 1 else s
  let s :=
    match s with
    | 48 :: x :: d :: rest =>
      if (x = 120 ∨ x = 88) ∧ (∃ v, digit_value d = some v ∧ v < 16) then d :: rest else s
    | _ => s
  let value : Int := strtol_digits 16 s 0
  if negative then -value else value

/-- The call `fgets(line, size, conf)` while characters remain: at most `size - 1` characters
are copied, the copy stops after a newline or at the end of the file.  The result is the
characters stored (a NUL follows them in the buffer) and the rest of the file. -/
def fgets_loop : Nat → List Nat → List Nat × List Nat
  | 0, conf => ([], conf)
  | _ + 1, [] => ([], [])
  | n + 1, c :: conf =>
    if c = 10 then ([c], conf)
    else (c :: (fgets_loop n conf).1, (fgets_loop n conf).2)

/-- The call `fgets(line, size, conf)`: `none` is the `NULL` returned at the end of the file. -/
def fgets (size : Nat) (conf : List Nat) : Option (List Nat × List Nat) :=
  if conf = [] then none else some (fgets_loop (size - 1) conf)

/-- The function `strlen`: the number of characters before the first NUL. -/
def strlen (line : List Nat) : Nat :=
  (line.takeWhile (fun c => c ≠ 0)).length

/-! ## tools.c: hexadecimal characters -/

/-- The function `get_number_from_hex_char(high, low)`: the string `high low NUL` is given to
`strtol` and the result is converted to `unsigned char`. -/
def get_number_from_hex_char (high low : Nat) : Nat :=
  (strtol_16 [high % 256, low % 256, 0] % 256).toNat

/-! ## chipinit/main.c: reading the configuration file -/

/-- The constant `BUFFSIZE_LINE`. -/
def BUFFSIZE_LINE : Nat := 128

/-- The constant `SLOT_CNT`. -/
def SLOT_CNT : Nat := 16

/-- The test of the `if` in the scanning loop of `read_config`: space, tab, semicolon, comma
or colon. -/
def is_separator (c : Nat) : Bool :=
  c = 32 || c = 9 || c = 59 || c = 44 || c = 58

/-- The loop `while (i < line_cnt)` of `read_config` for one line.  `line` holds the
characters that `fgets` stored, `line.getD k 0` is `line[k]` (the terminating NUL at
`k = line.length`; the bytes behind it are only read as the second character of a string
that starts with NUL), `line_p` and `line_end_p` are offsets into `line`.  The result is
`none` when the fuel runs out, `some (false, data)` for `return false` and
`some (true, data)` when the loop ends. -/
def scan_line (line_cnt item : Nat) (line : List Nat) (line_end_p : Nat) :
    Nat → Nat → Nat → List Nat → Option (Bool × List Nat)
  | 0, _, _, _ => none
  | fuel + 1, line_p, i, data =>
    if i < line_cnt then
      if is_separator (line.getD line_p 0) then
        scan_line line_cnt item line line_end_p fuel (line_p + 1) i data
      else
        let data := data.set (line_cnt * item + i)
          (get_number_from_hex_char (line.getD line_p 0) (line.getD (line_p + 1) 0))
        let i := i + 1
        let line_p := line_p + 2
        if line_p ≥ line_end_p then some (false, data)
        else scan_line line_cnt item line line_end_p fuel line_p i data
    else some (true, data)

/-- The loop `for (item = 0; item < SLOT_CNT; item++)` of `read_config`, with the number of
items left.  The scanning loop is given more steps than a line has characters. The result
is the returned value, the contents of `data` and the rest of the file. -/
def read_config_items (line_cnt : Nat) :
    Nat → Nat → List Nat → List Nat → Option (Bool × List Nat × List Nat)
  | 0, _, conf, data => some (true, data, conf)
  | n + 1, item, conf, data =>
    match fgets BUFFSIZE_LINE conf with
    | none => some (false, data, conf)
    | some (line, conf) =>
      match scan_line line_cnt item line (strlen line) (line.length + 2) 0 0 data with
      | none => none
      | some (false, data) => some (false, data, conf)
      | some (true, data) => read_config_items line_cnt n (item + 1) conf data

/-- The function `read_config(conf, data, line_cnt)`. -/
def read_config (conf : List Nat) (data : List Nat) (line_cnt : Nat) :
    Option (Bool × List Nat × List Nat) :=
  read_config_items line_cnt SLOT_CNT 0 conf data

/-! ## The format of a configuration line -/

/-- The value of a hexadecimal digit: `0`-`9`, `a`-`f`, `A`-`F`. -/
def hex_value (c : Nat) : Option Nat :=
  [('0', 0), ('1', 1), ('2', 2), ('3', 3), ('4', 4), ('5', 5), ('6', 6), ('7', 7), ('8', 8),
    ('9', 9), ('a', 10), ('b', 11), ('c', 12), ('d', 13), ('e', 14), ('f', 15), ('A', 10),
    ('B', 11), ('C', 12), ('D', 13), ('E', 14), ('F', 15)].lookup (Char.ofNat c)

/-- The ASCII hexadecimal digits. -/
def hex_digits : List Nat :=
  "0123456789abcdefABCDEF".toList.map Char.toNat

/-- The separators of the configuration format: space, tab, comma, semicolon, colon. -/
def separators : List Nat :=
  [' ', '\t', ',', ';', ':'].map Char.toNat

/-- The value `16 * value(h) + value(l)` of a pair of hexadecimal digits. -/
def hex_pair_value (h l : Nat) : Nat :=
  16 * (hex_value h).getD 0 + (hex_value l).getD 0

/-- A piece of a configuration line: one separator or one byte of two hexadecimal digits. -/
inductive ConfigToken where
  | sep (c : Nat)
  | byte (high low : Nat)

/-- The characters of a token. -/
def ConfigToken.chars : ConfigToken → List Nat
  | ConfigToken.sep c => [c]
  | ConfigToken.byte high low => [high, low]

/-- A token is valid when its separator is one of the five separators and its digits are
hexadecimal digits. -/
def ConfigToken.valid : ConfigToken → Prop
  | ConfigToken.sep c => c ∈ separators
  | ConfigToken.byte high low => high ∈ hex_digits ∧ low ∈ hex_digits

/-- The characters of a line without its newline. -/
def render (toks : List ConfigToken) : List Nat :=
  toks.flatMap ConfigToken.chars

/-- The values of the bytes of a line, in order. -/
def token_bytes : List ConfigToken → List Nat
  | [] => []
  | ConfigToken.sep _ :: toks => token_bytes toks
  | ConfigToken.byte high low :: toks => hex_pair_value high low :: token_bytes toks

/-- The characters of a file made of the given lines, each followed by a newline. -/
def file_of_lines (lines : List (List Nat)) : List Nat :=
  lines.flatMap (fun line => line ++ [10])

/-- Validity of a token can be computed. -/
instance ConfigToken.decidable_valid (tok : ConfigToken) : Decidable tok.valid := by
  cases tok <;> unfold ConfigToken.valid <;> infer_instance

/-- The same line with one space less: 126 characters before its newline. -/
def line_of_126 : List ConfigToken :=
  List.replicate 118 (ConfigToken.sep 32) ++
    [ConfigToken.byte 65 65, ConfigToken.byte 66 66, ConfigToken.byte 67 67,
      ConfigToken.byte 68 68]

/-- A file of two lines.  The first line has 1907 characters before its newline: fifteen
times the byte `AA` followed by 125 spaces, then the byte `AA`.  The second line is empty. -/
def long_line_file : List Nat :=
  file_of_lines [(List.replicate 15 ([65, 65] ++ List.replicate 125 32)).flatten ++ [65, 65], []]

/-! ## chipinit/main.c: provisioning

The functions of chipinit call the library through a handle.  They are given here over the
six library functions they call, `ChipApi`, with the state of the handle passed along;
`library_api` is the library of api.c itself.  An uninitialised local (`record`, `number`,
`config`) is a parameter that gives its contents at entry. -/

/-- The constant `BYTESIZE_KEY`. -/
def BYTESIZE_KEY : Nat := 32

/-- The constant `BYTESIZE_OTP`. -/
def BYTESIZE_OTP : Nat := 4

/-- The constant `BYTESIZE_CNF`. -/
def BYTESIZE_CNF : Nat := 4

/-- The constant `CONFIG_CNT`. -/
def CONFIG_CNT : Nat := 22

/-- The constant `SLOT_CONFIG_READ`. -/
def SLOT_CONFIG_READ : Nat := 0x80

/-- The constant `SLOT_CONFIG_WRITE`. -/
def SLOT_CONFIG_WRITE : Nat := 0x80

/-- The library functions that chipinit calls, on a handle with state `σ`: each takes the
state and the arguments after `handle` and returns the status, the output buffer where
there is one, and the new state. -/
structure ChipApi (σ : Type) where
  atsha_raw_conf_read : σ → Nat → atsha_big_int → Status × atsha_big_int × σ
  atsha_raw_conf_write : σ → Nat → atsha_big_int → Status × σ
  atsha_raw_slot_write : σ → Nat → atsha_big_int → Status × σ
  atsha_raw_otp_write : σ → Nat → atsha_big_int → Status × σ
  atsha_lock_config : σ → Nat × Nat → Status × σ
  atsha_lock_data : σ → Nat × Nat → Status × σ

/-- The functions of api.c on the transport `t`; the state of the handle is the record of the
calls made on the transport. -/
def library_api (ops : DeviceOperations) (t : Transport) : ChipApi (List Call) where
  atsha_raw_conf_read := fun trace address data =>
    atsha_raw_conf_read ops.toOperations t trace address data
  atsha_raw_conf_write := fun trace address data =>
    atsha_raw_conf_write ops.toOperations t trace address data
  atsha_raw_slot_write := fun trace slot_number number =>
    atsha_raw_slot_write ops.toOperations t trace slot_number number
  atsha_raw_otp_write := fun trace address data => atsha_raw_otp_write ops t trace address data
  atsha_lock_config := fun trace crc => atsha_lock_config ops t trace crc
  atsha_lock_data := fun trace crc => atsha_lock_data ops t trace crc

/-- The function `set_otp_mode(handle, config)`.  `ATSHA204_CONFIG_OTPMODE_READONLY` is a
constant of a header that is not under src/ and is taken as a parameter.  The result is the
returned value, the contents of `config` and the state of the handle. -/
def set_otp_mode {σ : Type} (api : ChipApi σ) (ATSHA204_CONFIG_OTPMODE_READONLY : Nat)
    (handle : σ) (config : List Nat) (record : atsha_big_int) : Bool × List Nat × σ :=
  let r := api.atsha_raw_conf_read handle 0x04 record
  if r.1 ≠ Status.ATSHA_ERR_OK then (false, config, r.2.2)
  else
    let record : atsha_big_int :=
      { bytes := r.2.1.bytes, data := r.2.1.data.set 2 (ATSHA204_CONFIG_OTPMODE_READONLY % 256) }
    let w := api.atsha_raw_conf_write r.2.2 0x04 record
    if w.1 ≠ Status.ATSHA_ERR_OK then (false, config, w.2)
    else
      let config := config.set (0x04 * BYTESIZE_CNF + 2) (ATSHA204_CONFIG_OTPMODE_READONLY % 256)
      (true, config, w.2)

/-- The loop `for (addr = 0x05; addr <= 0x0C; addr++)` of `set_slot_config`, with the number
of rounds left. -/
def set_slot_config_loop {σ : Type} (api : ChipApi σ) :
    Nat → Nat → σ → List Nat → atsha_big_int → Bool × List Nat × σ
  | 0, _, handle, config, _ => (true, config, handle)
  | n + 1, addr, handle, config, record =>
    let r := api.atsha_raw_conf_read handle addr record
    if r.1 ≠ Status.ATSHA_ERR_OK then (false, config, r.2.2)
    else
      let record : atsha_big_int :=
        { bytes := r.2.1.bytes,
          data := (((r.2.1.data.set 0 SLOT_CONFIG_READ).set 1 SLOT_CONFIG_WRITE).set 2
            SLOT_CONFIG_READ).set 3 SLOT_CONFIG_WRITE }
      let w := api.atsha_raw_conf_write r.2.2 addr record
      if w.1 ≠ Status.ATSHA_ERR_OK then (false, config, w.2)
      else
        let config := config.set (addr * BYTESIZE_CNF + 0) SLOT_CONFIG_READ
        let config := config.set (addr * BYTESIZE_CNF + 1) SLOT_CONFIG_WRITE
        let config := config.set (addr * BYTESIZE_CNF + 2) SLOT_CONFIG_READ
        let config := config.set (addr * BYTESIZE_CNF + 3) SLOT_CONFIG_WRITE
        set_slot_config_loop api n (addr + 1) w.2 config record

/-- The function `set_slot_config(handle, config)`: eight rounds, from address 0x05. -/
def set_slot_config {σ : Type} (api : ChipApi σ) (handle : σ) (config : List Nat)
    (record : atsha_big_int) : Bool × List Nat × σ :=
  set_slot_config_loop api 8 0x05 handle config record

/-- The loop `for (addr = 0x00; addr <= 0x15; addr++)` of `create_and_lock_config`, with the
number of rounds left. -/
def read_config_zone_loop {σ : Type} (api : ChipApi σ) :
    Nat → Nat → Nat → σ → List Nat → atsha_big_int → Bool × List Nat × σ
  | 0, _, _, handle, config, _ => (true, config, handle)
  | n + 1, addr, item, handle, config, record =>
    let r := api.atsha_raw_conf_read handle addr record
    if r.1 ≠ Status.ATSHA_ERR_OK then (false, config, r.2.2)
    else
      let record := r.2.1
      let config := memcpy config (item * BYTESIZE_CNF) record.data record.bytes
      read_config_zone_loop api n (addr + 1) (item + 1) r.2.2 config record

/-- The function `create_and_lock_config(handle)`.  `record`, `otp_record` and `slot_record`
are the locals `record` of this function, of `set_otp_mode` and of `set_slot_config`.  The
result is the returned value, the contents of the local `config` at the return and the
state of the handle. -/
def create_and_lock_config {σ : Type} (api : ChipApi σ) (ATSHA204_CONFIG_OTPMODE_READONLY : Nat)
    (handle : σ) (config : List Nat) (record otp_record slot_record : atsha_big_int) :
    Bool × List Nat × σ :=
  let record : atsha_big_int := { bytes := BYTESIZE_CNF, data := record.data }
  let r := read_config_zone_loop api CONFIG_CNT 0x00 0 handle config record
  if r.1 = false then (false, r.2.1, r.2.2)
  else
    let o := set_otp_mode api ATSHA204_CONFIG_OTPMODE_READONLY r.2.2 r.2.1 otp_record
    if o.1 = false then (false, o.2.1, o.2.2)
    else
      let s := set_slot_config api o.2.2 o.2.1 slot_record
      if s.1 = false then (false, s.2.1, s.2.2)
      else
        let crc := calculate_crc (CONFIG_CNT * BYTESIZE_CNF) s.2.1
        let l := api.atsha_lock_config s.2.2 crc
        if l.1 ≠ Status.ATSHA_ERR_OK then (false, s.2.1, l.2)
        else (true, s.2.1, l.2)

/-- The loop `for (item = 0; item < SLOT_CNT; item++)` of `write_and_lock_data`, with the
number of rounds left.  The result is the value `false` when the function returns in the
loop, the contents of `number` and the state of the handle. -/
def write_keys_loop {σ : Type} (api : ChipApi σ) (data : List Nat) :
    Nat → Nat → σ → atsha_big_int → Bool × atsha_big_int × σ
  | 0, _, handle, number => (true, number, handle)
  | n + 1, item, handle, number =>
    let number : atsha_big_int :=
      { bytes := number.bytes,
        data := memcpy number.data 0 (data.drop (item * BYTESIZE_KEY)) number.bytes }
    let w := api.atsha_raw_slot_write handle item number
    if w.1 ≠ Status.ATSHA_ERR_OK then (false, number, w.2)
    else write_keys_loop api data n (item + 1) w.2 number

/-- The loop `for (addr = 0x00; addr <= 0x0F; addr++)` of `write_and_lock_data`, with the
number of rounds left. -/
def write_otp_loop {σ : Type} (api : ChipApi σ) (otp : List Nat) :
    Nat → Nat → Nat → σ → atsha_big_int → Bool × atsha_big_int × σ
  | 0, _, _, handle, number => (true, number, handle)
  | n + 1, addr, item, handle, number =>
    let number : atsha_big_int :=
      { bytes := number.bytes,
        data := memcpy number.data 0 (otp.drop (item * BYTESIZE_OTP)) number.bytes }
    let item := item + 1
    let w := api.atsha_raw_otp_write handle addr number
    if w.1 ≠ Status.ATSHA_ERR_OK then (false, number, w.2)
    else write_otp_loop api otp n (addr + 1) item w.2 number

/-- The function `write_and_lock_data(handle, data, otp)`.  `number` is the local `number`;
the local `both` is written in full before it is read.  The result is the returned value
and the state of the handle. -/
def write_and_lock_data {σ : Type} (api : ChipApi σ) (handle : σ) (data otp : List Nat)
    (number : atsha_big_int) : Bool × σ :=
  let number : atsha_big_int := { bytes := BYTESIZE_KEY, data := number.data }
  let k := write_keys_loop api data SLOT_CNT 0 handle number
  if k.1 = false then (false, k.2.2)
  else
    let number : atsha_big_int := { bytes := BYTESIZE_OTP, data := k.2.1.data }
    let o := write_otp_loop api otp SLOT_CNT 0x00 0 k.2.2 number
    if o.1 = false then (false, o.2.2)
    else
      let both := List.replicate (SLOT_CNT * BYTESIZE_KEY + SLOT_CNT * BYTESIZE_OTP) 0
      let both := memcpy both 0 data (SLOT_CNT * BYTESIZE_KEY)
      let both := memcpy both (SLOT_CNT * BYTESIZE_KEY) otp (SLOT_CNT * BYTESIZE_OTP)
      let crc := calculate_crc (SLOT_CNT * BYTESIZE_KEY + SLOT_CNT * BYTESIZE_OTP) both
      let l := api.atsha_lock_data o.2.2 crc
      if l.1 ≠ Status.ATSHA_ERR_OK then (false, l.2)
      else (true, l.2)

/-! ## Observing the provisioning -/

/-- A call of one of the library functions of `ChipApi`, with its arguments. -/
inductive ApiCall where
  | raw_conf_read (address : Nat) (data : atsha_big_int)
  | raw_conf_write (address : Nat) (data : atsha_big_int)
  | raw_slot_write (slot_number : Nat) (number : atsha_big_int)
  | raw_otp_write (address : Nat) (data : atsha_big_int)
  | lock_config (crc : Nat × Nat)
  | lock_data (crc : Nat × Nat)

/-- The library `api` with a log: every call is passed on unchanged, and the call and the
status it returned are added to the log. -/
def recorded {σ : Type} (api : ChipApi σ) : ChipApi (σ × List (ApiCall × Status)) where
  atsha_raw_conf_read := fun s address data =>
    let r := api.atsha_raw_conf_read s.1 address data
    (r.1, r.2.1, r.2.2, s.2 ++ [(ApiCall.raw_conf_read address data, r.1)])
  atsha_raw_conf_write := fun s address data =>
    let r := api.atsha_raw_conf_write s.1 address data
    (r.1, r.2, s.2 ++ [(ApiCall.raw_conf_write address data, r.1)])
  atsha_raw_slot_write := fun s slot_number number =>
    let r := api.atsha_raw_slot_write s.1 slot_number number
    (r.1, r.2, s.2 ++ [(ApiCall.raw_slot_write slot_number number, r.1)])
  atsha_raw_otp_write := fun s address data =>
    let r := api.atsha_raw_otp_write s.1 address data
    (r.1, r.2, s.2 ++ [(ApiCall.raw_otp_write address data, r.1)])
  atsha_lock_config := fun s crc =>
    let r := api.atsha_lock_config s.1 crc
    (r.1, r.2, s.2 ++ [(ApiCall.lock_config crc, r.1)])
  atsha_lock_data := fun s crc =>
    let r := api.atsha_lock_data s.1 crc
    (r.1, r.2, s.2 ++ [(ApiCall.lock_data crc, r.1)])

/-- The bytes that a call writes to the device: the first `bytes` bytes of the buffer of a
write, nothing for the other calls. -/
def ApiCall.written : ApiCall → List Nat
  | ApiCall.raw_slot_write _ number => number.data.take number.bytes
  | ApiCall.raw_otp_write _ data => data.data.take data.bytes
  | ApiCall.raw_conf_write _ data => data.data.take data.bytes
  | _ => []

/-- Whether a call is a write of a slot or of an OTP word. -/
def ApiCall.is_write : ApiCall → Bool
  | ApiCall.raw_slot_write _ _ => true
  | ApiCall.raw_otp_write _ _ => true
  | _ => false

/-- The slot writes of a log: slot number and value written, in order. -/
def slot_writes : List (ApiCall × Status) → List (Nat × List Nat)
  | [] => []
  | (ApiCall.raw_slot_write slot_number number, _) :: log =>
    (slot_number, number.data.take number.bytes) :: slot_writes log
  | _ :: log => slot_writes log

/-- The OTP writes of a log: address and word written, in order. -/
def otp_writes : List (ApiCall × Status) → List (Nat × List Nat)
  | [] => []
  | (ApiCall.raw_otp_write address data, _) :: log =>
    (address, data.data.take data.bytes) :: otp_writes log
  | _ :: log => otp_writes log

/-- Keys for a provisioning run: 512 bytes, byte `i` is `i mod 256`. -/
def example_keys : List Nat :=
  (List.range 512).map (fun i => i % 256)

/-- OTP words for a provisioning run: 64 bytes, byte `i` is `255 - i`. -/
def example_otp : List Nat :=
  (List.range 64).map (fun i => 255 - i)

/-- The device of the config-zone model: the bytes of the config zone, the number of library
calls made so far, and for every `atsha_lock_config` the CRC it was given with the zone at
that moment. -/
structure ConfigDevice where
  zone : List Nat
  calls : Nat
  locks : List ((Nat × Nat) × List Nat)

/-- Modelled from the spec: the library on a device whose config zone is an array of four
byte words.  The status of call number `n` is `status n`; a successful read of a word stores
its four bytes in the buffer and sets `bytes` to 4, a successful write replaces the word by
the first four bytes of the buffer, a call that fails changes nothing.  The other calls leave
the zone alone; `atsha_lock_config` notes its CRC and the zone. -/
def config_zone_api (status : Nat → Status) : ChipApi ConfigDevice where
  atsha_raw_conf_read := fun dev address data =>
    if status dev.calls = Status.ATSHA_ERR_OK then
      (Status.ATSHA_ERR_OK,
        { bytes := 4, data := memcpy data.data 0 (dev.zone.drop (4 * (address % 256))) 4 },
        { zone := dev.zone, calls := dev.calls + 1, locks := dev.locks })
    else (status dev.calls, data, { zone := dev.zone, calls := dev.calls + 1, locks := dev.locks })
  atsha_raw_conf_write := fun dev address data =>
    if status dev.calls = Status.ATSHA_ERR_OK then
      (Status.ATSHA_ERR_OK,
        { zone := memcpy dev.zone (4 * (address % 256)) data.data 4, calls := dev.calls + 1,
          locks := dev.locks })
    else (status dev.calls, { zone := dev.zone, calls := dev.calls + 1, locks := dev.locks })
  atsha_raw_slot_write := fun dev _ _ =>
    (status dev.calls, { zone := dev.zone, calls := dev.calls + 1, locks := dev.locks })
  atsha_raw_otp_write := fun dev _ _ =>
    (status dev.calls, { zone := dev.zone, calls := dev.calls + 1, locks := dev.locks })
  atsha_lock_config := fun dev crc =>
    (status dev.calls,
      { zone := dev.zone, calls := dev.calls + 1, locks := dev.locks ++ [(crc, dev.zone)] })
  atsha_lock_data := fun dev _ =>
    (status dev.calls, { zone := dev.zone, calls := dev.calls + 1, locks := dev.locks })

/-- A config zone for a provisioning run: 88 bytes, byte `i` is `i`. -/
def example_zone : List Nat :=
  List.range 88

/-! ## api.c: closing a handle -/

/-- The constant `BOTTOM_LAYER_EMULATION` of api.h. -/
def BOTTOM_LAYER_EMULATION : Int := 0

/-- The constant `BOTTOM_LAYER_NI2C` of api.h. -/
def BOTTOM_LAYER_NI2C : Int := 1

/-- The constant `BOTTOM_LAYER_I2C` of api.h. -/
def BOTTOM_LAYER_I2C : Int := 2

/-- The constant `BOTTOM_LAYER_USB` of api.h. -/
def BOTTOM_LAYER_USB : Int := 3

/-- The structure `struct atsha_handle` of api.h.  A pointer is `none` when it is `NULL`;
`file` and `i2c` are otherwise a name for the object, `sn` and `key` the bytes that the
heap block holds. -/
structure atsha_handle where
  bottom_layer : Int
  is_srv_emulation : Bool
  fd : Int
  file : Option Nat
  lockfile : Int
  i2c : Option Nat
  sn : Option (List Nat)
  key : Option (List Nat)
  key_origin : Nat
  key_origin_cached : Bool
  slot_id : Nat
  nonce : List Nat

/-- The calls that the open functions and `atsha_close` make to the system and to other
libraries, with their results where the code reads them: `close(fd)`, `fclose(file)`,
`Close(i2c)` of libmpsse, the failure of `assert(0)`, `flock(lockfile, LOCK_UN)`, `free` of
a buffer, with the bytes that the buffer holds when it is freed (`none` for `free(NULL)`),
`free(handle)`, `open(LOCK_FILE, O_RDWR | O_CREAT, 0600)`,
`flock(lockfile, LOCK_EX | LOCK_NB)`, `open(path, O_RDWR)`,
`ioctl(fd, I2C_SLAVE, ATSHA204_NI2C_ADDRESS)` and the `calloc` of a handle. -/
inductive SysCall where
  | close (fd : Int)
  | fclose (file : Nat)
  | mpsse_Close (i2c : Nat)
  | assert_failure
  | flock_unlock (lockfile : Int)
  | free (contents : Option (List Nat))
  | free_handle
  | open_lock_file (result : Int)
  | flock_exclusive (lockfile : Int) (result : Int)
  | open_device (path : Option Nat) (result : Int)
  | ioctl_slave (fd : Int) (result : Int)
  | calloc_handle (succeeds : Bool)
  deriving DecidableEq

/-- The function `atsha_unlock(lockfile)`. -/
def atsha_unlock (lockfile : Int) : List SysCall :=
  [SysCall.flock_unlock lockfile]

/-- The function `atsha_close(handle)`; the result is the calls made, in order.
`USE_LAYER_I2C` tells whether the macro `USE_LAYER` of configuration.h, which is not
under src/, selects the I2C layer; the failed `assert(0)` ends the program. -/
def atsha_close (USE_LAYER_I2C : Bool) (handle : Option atsha_handle) : List SysCall :=
  match handle with
  | none => []
  | some handle =>
    let calls : List SysCall :=
      if handle.bottom_layer = BOTTOM_LAYER_USB ∨ handle.bottom_layer = BOTTOM_LAYER_NI2C then
        [SysCall.close handle.fd]
      else []
    let calls :=
      match handle.file with
      | some file => calls ++ [SysCall.fclose file]
      | none => calls
    let after_i2c : Option (List SysCall) :=
      match handle.i2c with
      | some i2c => if USE_LAYER_I2C then some (calls ++ [SysCall.mpsse_Close i2c]) else none
      | none => some calls
    match after_i2c with
    | none => calls ++ [SysCall.assert_failure]
    | some calls =>
      let calls :=
        if handle.lockfile ≠ -1 then
          calls ++ atsha_unlock handle.lockfile ++ [SysCall.close handle.lockfile]
        else calls
      calls ++ [SysCall.free handle.sn, SysCall.free handle.key, SysCall.free_handle]

/-- Whether a call is a `free` of a buffer. -/
def SysCall.is_free : SysCall → Bool
  | SysCall.free _ => true
  | _ => false

/-- A handle of the USB layer that holds the lock, a serial number and a key. -/
def example_handle : atsha_handle where
  bottom_layer := BOTTOM_LAYER_USB
  is_srv_emulation := false
  fd := 5
  file := none
  lockfile := 6
  i2c := none
  sn := some [0x01, 0x23, 0x45, 0x67, 0x89, 0xAB, 0xCD, 0xEF, 0xEE]
  key := some (List.replicate 32 0xA5)
  key_origin := 0
  key_origin_cached := false
  slot_id := 0
  nonce := List.replicate 32 0

/-! ## api.c: opening a device -/

/-- The answers of the system to the calls of an open function: the result of the `open` of
the lock file, for every attempt of `flock` its result and whether the time spent is above
`LOCK_TRY_MAX` when it failed, the result of the `open` of the device, the result of the
`ioctl`, and whether `calloc` gives a handle. -/
structure SystemAnswers where
  open_lock_file : Int
  flock : List (Int × Bool)
  open_device : Int
  ioctl : Int
  calloc : Bool

/-- The function `atsha_try_lock_file()`: the descriptor and the call made. -/
def atsha_try_lock_file (sys : SystemAnswers) : Int × List SysCall :=
  (sys.open_lock_file, [SysCall.open_lock_file sys.open_lock_file])

/-- The function `atsha_lock(lockfile)`, one round of `while (1)` for every answer of
`flock`.  The result is `none` when the answers end before the function returns. -/
def atsha_lock (lockfile : Int) : List (Int × Bool) → Option Bool × List SysCall
  | [] => (none, [])
  | (lock, expired) :: attempts =>
    if lock = -1 then
      if expired then (some false, [SysCall.flock_exclusive lockfile lock])
      else
        ((atsha_lock lockfile attempts).1,
          SysCall.flock_exclusive lockfile lock :: (atsha_lock lockfile attempts).2)
    else (some true, [SysCall.flock_exclusive lockfile lock])

/-- The function `atsha_open_usb_dev(path)`.  The result is `none` when `atsha_lock` does
not return, `some none` for `NULL` and otherwise the handle, with the calls made. -/
def atsha_open_usb_dev (sys : SystemAnswers) (path : Option Nat) :
    Option (Option atsha_handle) × List SysCall :=
  match path with
  | none => (some none, [])
  | some path =>
    let try_lockfile := (atsha_try_lock_file sys).1
    let calls := (atsha_try_lock_file sys).2
    if try_lockfile = -1 then (some none, calls)
    else
      let locked := atsha_lock try_lockfile sys.flock
      let calls := calls ++ locked.2
      match locked.1 with
      | none => (none, calls)
      | some false => (some none, calls ++ [SysCall.close try_lockfile])
      | some true =>
        let try_fd := sys.open_device
        let calls := calls ++ [SysCall.open_device (some path) try_fd]
        if try_fd = -1 then (some none, calls)
        else
          let calls := calls ++ [SysCall.calloc_handle sys.calloc]
          if sys.calloc = false then (some none, calls)
          else
            (some (some
              { bottom_layer := BOTTOM_LAYER_USB, is_srv_emulation := false, fd := try_fd,
                file := none, lockfile := try_lockfile, i2c := none, sn := none, key := none,
                key_origin := 0, key_origin_cached := false, slot_id := 0,
                nonce := List.replicate 32 0 }), calls)

/-- The function `atsha_open_ni2c_dev(path)`, with the result as for
`atsha_open_usb_dev`. -/
def atsha_open_ni2c_dev (sys : SystemAnswers) (path : Option Nat) :
    Option (Option atsha_handle) × List SysCall :=
  let try_lockfile := (atsha_try_lock_file sys).1
  let calls := (atsha_try_lock_file sys).2
  if try_lockfile = -1 then (some none, calls)
  else
    let locked := atsha_lock try_lockfile sys.flock
    let calls := calls ++ locked.2
    match locked.1 with
    | none => (none, calls)
    | some false => (some none, calls ++ [SysCall.close try_lockfile])
    | some true =>
      let try_fd := sys.open_device
      let calls := calls ++ [SysCall.open_device path try_fd]
      if try_fd = -1 then (some none, calls)
      else
        let calls := calls ++ [SysCall.ioctl_slave try_fd sys.ioctl]
        if sys.ioctl < 0 then (some none, calls)
        else
          let calls := calls ++ [SysCall.calloc_handle sys.calloc]
          if sys.calloc = false then (some none, calls)
          else
            (some (some
              { bottom_layer := BOTTOM_LAYER_NI2C, is_srv_emulation := false, fd := try_fd,
                file := none, lockfile := try_lockfile, i2c := none, sn := none, key := none,
                key_origin := 0, key_origin_cached := false, slot_id := 0,
                nonce := List.replicate 32 0 }), calls)

/-- The effect of one call on the lock taken through the descriptor `lockfile`: a `flock`
with `LOCK_EX` that succeeds takes it, a `flock` with `LOCK_UN` and the `close` of the
descriptor release it. -/
def lock_step (lockfile : Int) (held : Bool) (call : SysCall) : Bool :=
  match call with
  | SysCall.flock_exclusive fd result => if fd = lockfile ∧ result ≠ -1 then true else held
  | SysCall.flock_unlock fd => if fd = lockfile then false else held
  | SysCall.close fd => if fd = lockfile then false else held
  | _ => held

/-- Whether the lock taken through the descriptor `lockfile` is held after the calls. -/
def lock_held (lockfile : Int) (calls : List SysCall) : Bool :=
  calls.foldl (lock_step lockfile) false

/-- Whether a call releases a lock or closes a descriptor. -/
def SysCall.is_release : SysCall → Bool
  | SysCall.flock_unlock _ => true
  | SysCall.close _ => true
  | _ => false

/-- Whether a call opens the device. -/
def SysCall.is_open_device : SysCall → Bool
  | SysCall.open_device _ _ => true
  | _ => false

/-- Answers of a system on which the lock is free and the device cannot be opened. -/
def no_device_answers : SystemAnswers where
  open_lock_file := 6
  flock := [(0, false)]
  open_device := -1
  ioctl := 0
  calloc := true

/-- Answers of a system on which the lock is free and the device is opened as descriptor
7, but the address cannot be bound. -/
def no_binding_answers : SystemAnswers where
  open_lock_file := 6
  flock := [(0, false)]
  open_device := 7
  ioctl := -1
  calloc := true

/-- Answers of a system on which the lock is free at the second attempt and the device is
opened as descriptor 7. -/
def device_answers : SystemAnswers where
  open_lock_file := 6
  flock := [(-1, false), (0, false)]
  open_device := 7
  ioctl := 0
  calloc := true

/-! ## error.c and the functions that find their slot -/

/-- The function `atsha_error_name(err)` for the status codes of atsha204.h. -/
def atsha_error_name (err : Status) : String :=
  if err = Status.ATSHA_ERR_OK then
    "OK"
  else if err = Status.ATSHA_ERR_MEMORY_ALLOCATION_ERROR then
    "Memory allocation error. Some memory allocation failed."
  else if err = Status.ATSHA_ERR_INVALID_INPUT then
    "Invalid input parameter."
  else if err = Status.ATSHA_ERR_COMMUNICATION then
    "Communication error: is not possible to send packet to the device, receive packet from the device, or multiple times was delivered/received malformed packet."
  else if err = Status.ATSHA_ERR_BAD_COMMUNICATION_STATUS then
    "Communication crashed due to bad status code from ATSHA204 device. Please, use verbose mode for more information."
  else if err = Status.ATSHA_ERR_NOT_IMPLEMENTED then
    "Operation not implemented. Requested function or feature in not implemented in applicable layer (yet)."
  else if err = Status.ATSHA_ERR_WAKE_NOT_CONFIRMED then
    "Is not confirmed if device is wake up or not."
  else
    "Error code is not in the list"

/-- The constant `DNS_ERR_CONST` of api.h. -/
def DNS_ERR_CONST : Nat := 255

/-- The function `atsha_slot_read(handle, number)`.  The function
`atsha_find_slot_number` is not under src/; `found` is the value it returns. -/
def atsha_slot_read (ops : Operations) (t : Transport) (trace : List Call) (found : Nat)
    (number : atsha_big_int) : Status × atsha_big_int × List Call :=
  let slot_number := found % 256
  if slot_number = DNS_ERR_CONST then (Status.ATSHA_ERR_DNS_GET_KEY, number, trace)
  else atsha_raw_slot_read ops t trace slot_number number

/-- The function `atsha_slot_write(handle, number)`, with `found` as in `atsha_slot_read`. -/
def atsha_slot_write (ops : Operations) (t : Transport) (trace : List Call) (found : Nat)
    (number : atsha_big_int) : Status × List Call :=
  let slot_number := found % 256
  if slot_number = DNS_ERR_CONST then (Status.ATSHA_ERR_DNS_GET_KEY, trace)
  else atsha_raw_slot_write ops t trace slot_number number

/-- The function `atsha_challenge_response(handle, challenge, response)`, with `found` as
in `atsha_slot_read`; `DEFAULT_USE_SN_IN_DIGEST` is a macro of configuration.h, which is
not under src/. -/
def atsha_challenge_response (DEFAULT_USE_SN_IN_DIGEST : Bool) (ops : Operations)
    (t : Transport) (trace : List Call) (found : Nat) (challenge response : atsha_big_int) :
    Status × atsha_big_int × List Call :=
  let slot_number := found % 256
  if slot_number = DNS_ERR_CONST then (Status.ATSHA_ERR_DNS_GET_KEY, response, trace)
  else
    atsha_low_challenge_response ops t trace slot_number challenge response
      DEFAULT_USE_SN_IN_DIGEST

/-- The function `atsha_challenge_response_mac(handle, challenge, response)`, as
`atsha_challenge_response`. -/
def atsha_challenge_response_mac (DEFAULT_USE_SN_IN_DIGEST : Bool) (ops : Operations)
    (t : Transport) (trace : List Call) (found : Nat) (challenge response : atsha_big_int) :
    Status × atsha_big_int × List Call :=
  let slot_number := found % 256
  if slot_number = DNS_ERR_CONST then (Status.ATSHA_ERR_DNS_GET_KEY, response, trace)
  else
    atsha_low_challenge_response_mac ops t trace slot_number challenge response
      DEFAULT_USE_SN_IN_DIGEST

/-! ## src/tools.c, the copy with the 8 bit length -/

/-- The constant `POLYNOM` of src/tools.c. -/
def SrcTools.POLYNOM : Nat := 0x8005

/-- The function `calculate_crc(unsigned char length, unsigned char *data,
unsigned char *crc)` of src/tools.c; the result is `(crc[0], crc[1])`.  `counter` is an
`unsigned char` that runs over `0 .. length-1`, `shift_register` takes its eight values
before the shift wraps to zero. -/
def SrcTools.calculate_crc (length : Nat) (data : List Nat) : Nat × Nat :=
  let length := length % 256
  let crc_register := (List.range length).foldl (fun crc_register counter =>
    (List.iterate (fun s => (s <<< 1) % 256) 0x01 8).foldl
      (fun crc_register shift_register =>
        let data_bit := if data.getD counter 0 &&& shift_register ≠ 0 then 1 else 0
        let crc_bit := crc_register >>> 15
        let crc_register := (crc_register <<< 1) % 65536
        if data_bit ≠ crc_bit then crc_register ^^^ SrcTools.POLYNOM else crc_register)
      crc_register) 0
  ((crc_register &&& 0x00FF) % 256, (crc_register >>> 8) % 256)

/-- The function `check_crc` of src/tools.c. -/
def SrcTools.check_crc (length : Nat) (data : List Nat) (crc : Nat × Nat) : Bool :=
  let rcrc := SrcTools.calculate_crc (length % 256) data
  if crc.1 ≠ rcrc.1 ∨ crc.2 ≠ rcrc.2 then false else true

/-! ## tools.c: a word from four bytes -/

/-- The function `uint32_from_4_bytes(data)`; `res` is a `uint32_t`. -/
def uint32_from_4_bytes (data : List Nat) : Nat :=
  let res := 0
  let res := res ||| data.getD 0 0
  let res := (res <<< (3 * 8)) % 4294967296
  let res := res ||| data.getD 1 0
  let res := (res <<< (2 * 8)) % 4294967296
  let res := res ||| data.getD 2 0
  let res := (res <<< (1 * 8)) % 4294967296
  let res := res ||| data.getD 3 0
  res

/-! # Lemmas -/

/-! ## Lists as buffers -/

theorem getD_set_eq (l : List Nat) (i j v : Nat) :
    (l.set i v).getD j 0 = if i = j ∧ i < l.length then v else l.getD j 0 := by
  simp only [List.getD_eq_getElem?_getD, List.getElem?_set]
  by_cases h : i = j
  · subst h
    by_cases h2 : i < l.length
    · simp [h2]
    · simp [h2, List.getElem?_eq_none (Nat.le_of_not_lt h2)]
  · simp [h]

theorem memcpy_length (dst : List Nat) (off : Nat) (src : List Nat) (n : Nat) :
    (memcpy dst off src n).length = dst.length := by
  induction n with
  | zero => rfl
  | succ n ih => simp [memcpy, ih]

theorem memcpy_getD (dst : List Nat) (off : Nat) (src : List Nat) (n i : Nat) :
    (memcpy dst off src n).getD i 0 =
      if off ≤ i ∧ i < off + n ∧ i < dst.length then src.getD (i - off) 0 else dst.getD i 0 := by
  induction n with
  | zero =>
    have h : ¬ (off ≤ i ∧ i < off + 0 ∧ i < dst.length) := by omega
    simp only [memcpy, if_neg h]
  | succ n ih =>
    rw [memcpy, getD_set_eq, memcpy_length, ih]
    by_cases h1 : off + n = i
    · subst h1
      by_cases h2 : off + n < dst.length
      · simp [h2]
      · have h3 : ¬ (off + n < off + (n + 1) ∧ off + n < dst.length) := fun h => h2 h.2
        simp [h2]
    · by_cases h2 : off ≤ i ∧ i < off + n ∧ i < dst.length
      · have h3 : off ≤ i ∧ i < off + (n + 1) ∧ i < dst.length := ⟨h2.1, by omega, h2.2.2⟩
        simp [h1, h2, h3]
      · have h3 : ¬ (off ≤ i ∧ i < off + (n + 1) ∧ i < dst.length) := by
          intro h; apply h2; exact ⟨h.1, by omega, h.2.2⟩
        simp [h1, h2, h3]

theorem eq_of_getD_eq (l1 l2 : List Nat) (hlen : l1.length = l2.length)
    (h : ∀ i, i < l1.length → l1.getD i 0 = l2.getD i 0) : l1 = l2 := by
  apply List.ext_getElem hlen
  intro i h1 h2
  have := h i h1
  simpa [List.getD_eq_getElem?_getD, List.getElem?_eq_getElem h1, List.getElem?_eq_getElem h2] using this

/-! ## The CRC loops as folds over the bytes read -/

theorem crc_loop_eq_crc_bytes (n : Nat) (data : List Nat) :
    crc_loop n data = crc_bytes 0 ((List.range n).map (fun c => data.getD c 0)) := by
  simp [crc_loop, crc_bytes, List.foldl_map]

theorem crc_loop_congr (n : Nat) (d1 d2 : List Nat)
    (h : ∀ i, i < n → d1.getD i 0 = d2.getD i 0) : crc_loop n d1 = crc_loop n d2 := by
  rw [crc_loop_eq_crc_bytes, crc_loop_eq_crc_bytes]
  congr 1
  apply List.map_congr_left
  intro i hi
  exact h i (List.mem_range.mp hi)

theorem map_getD_range (data : List Nat) :
    (List.range data.length).map (fun c => data.getD c 0) = data := by
  apply List.ext_getElem
  · simp
  · intro i h1 h2
    simp [List.getElem?_eq_getElem h2]

theorem crc_loop_length (data : List Nat) : crc_loop data.length data = crc_bytes 0 data := by
  rw [crc_loop_eq_crc_bytes, map_getD_range]

theorem crc_loop_take (n : Nat) (data : List Nat) :
    crc_loop n (data.take n) = crc_loop n data := by
  apply crc_loop_congr
  intro i hi
  simp [List.getD_eq_getElem?_getD, List.getElem?_take, hi]

theorem calculate_crc_take (n : Nat) (data : List Nat) (h : n < 65536) :
    calculate_crc n (data.take n) = calculate_crc n data := by
  simp only [calculate_crc, Nat.mod_eq_of_lt h, crc_loop_take]

theorem calculate_crc_congr (n : Nat) (d1 d2 : List Nat) (hn : n < 65536)
    (h : ∀ i, i < n → d1.getD i 0 = d2.getD i 0) : calculate_crc n d1 = calculate_crc n d2 := by
  simp only [calculate_crc, Nat.mod_eq_of_lt hn, crc_loop_congr n d1 d2 h]

/-! ## Closed forms of the two packet builders -/

theorem memcpy_zeros (hdr data tail : List Nat) (N : Nat) (hlen : data.length = N) :
    memcpy (hdr ++ (List.replicate N 0 ++ tail)) hdr.length data N = hdr ++ (data ++ tail) := by
  apply eq_of_getD_eq
  · simp [memcpy_length, hlen]
  · intro i _
    rw [memcpy_getD]
    by_cases h1 : i < hdr.length
    · have hc : ¬ (hdr.length ≤ i ∧ i < hdr.length + N ∧
          i < (hdr ++ (List.replicate N 0 ++ tail)).length) := by omega
      rw [if_neg hc, List.getD_append _ _ _ _ h1, List.getD_append _ _ _ _ h1]
    · have h1 : hdr.length ≤ i := Nat.le_of_not_lt h1
      by_cases h2 : i < hdr.length + N
      · have hc : hdr.length ≤ i ∧ i < hdr.length + N ∧
            i < (hdr ++ (List.replicate N 0 ++ tail)).length := by
          simp only [List.length_append, List.length_replicate]
          omega
        rw [if_pos hc, List.getD_append_right _ _ _ _ h1,
          List.getD_append _ _ _ _ (by omega)]
      · have hc : ¬ (hdr.length ≤ i ∧ i < hdr.length + N ∧
            i < (hdr ++ (List.replicate N 0 ++ tail)).length) := by omega
        rw [if_neg hc, List.getD_append_right _ _ _ _ h1, List.getD_append_right _ _ _ _ h1,
          List.getD_append_right _ _ _ _ (by simp; omega),
          List.getD_append_right _ _ _ _ (by omega)]
        simp [hlen]

theorem set_crc_slot (pre : List Nat) (a b c1 c2 n : Nat) (h : pre.length = n) :
    ((pre ++ [a, b]).set n c1).set (n + 1) c2 = pre ++ [c1, c2] := by
  subst h
  rw [List.set_append_right _ _ (Nat.le_refl _), List.set_append_right _ _ (Nat.le_succ _)]
  simp

theorem getD_append_crc_slot (pre : List Nat) (a b i n : Nat) (h : pre.length = n) (hi : i < n) :
    (pre ++ [a, b]).getD i 0 = pre.getD i 0 := by
  subst h
  exact List.getD_append _ _ _ _ hi

theorem replicate_zero_split (k N : Nat) :
    List.replicate (k + N + 2) 0 = List.replicate k 0 ++ (List.replicate N 0 ++ [0, 0]) := by
  rw [show k + N + 2 = k + (N + 2) by omega, List.replicate_add, List.replicate_add]
  rfl

theorem command_packet_eq (opcode param1 param2 : Nat) (data : List Nat) (N : Nat)
    (hN : N ≤ 248) (hlen : data.length = N) :
    generate_command_packet opcode param1 param2 data N =
      (command_header opcode param1 param2 N ++ data) ++
        [(calculate_crc (5 + N) (command_header opcode param1 param2 N ++ data)).1,
         (calculate_crc (5 + N) (command_header opcode param1 param2 N ++ data)).2] := by
  have e1 : N % 256 = N := Nat.mod_eq_of_lt (by omega)
  have e2 : (1 + 1 + 1 + 2 + N + 2) % 256 = 7 + N := by omega
  have e3 : ((((7 + N : Nat) : Int) - 2) % 65536).toNat = 5 + N := by omega
  have e4 : List.replicate (7 + N) 0 = [0, 0, 0, 0, 0] ++ (List.replicate N 0 ++ [0, 0]) := by
    rw [show 7 + N = 5 + N + 2 by omega, replicate_zero_split]
    rfl
  have e5 := memcpy_zeros (command_header opcode param1 param2 N) data [0, 0] N hlen
  have e6 : (command_header opcode param1 param2 N).length = 5 := rfl
  rw [e6] at e5
  have hl : (command_header opcode param1 param2 N ++ data).length = 5 + N := by
    simp [e6, hlen]
  unfold generate_command_packet
  simp only [e1, e2, e3, e4]
  simp only [List.cons_append, List.nil_append, List.set_cons_zero, List.set_cons_succ]
  have e7 : (7 + N) :: (opcode % 256) :: (param1 % 256) :: ((param2 % 65536) &&& 0x00FF) ::
      (((param2 % 65536) &&& 0xFF00) >>> 8) :: (List.replicate N 0 ++ [0, 0]) =
      command_header opcode param1 param2 N ++ (List.replicate N 0 ++ [0, 0]) := rfl
  rw [e7, e5, ← List.append_assoc]
  have e8 : calculate_crc (5 + N) (command_header opcode param1 param2 N ++ data ++ [0, 0]) =
      calculate_crc (5 + N) (command_header opcode param1 param2 N ++ data) := by
    apply calculate_crc_congr _ _ _ (by omega)
    intro i hi
    exact getD_append_crc_slot _ _ _ _ _ hl hi
  rw [e8]
  exact set_crc_slot _ _ _ _ _ _ hl

theorem answer_packet_eq (data : List Nat) (N : Nat) (hN : N ≤ 252) (hlen : data.length = N) :
    generate_answer_packet data N =
      ((N + 3) :: data) ++
        [(calculate_crc (N + 1) ((N + 3) :: data)).1, (calculate_crc (N + 1) ((N + 3) :: data)).2] := by
  have e1 : N % 256 = N := Nat.mod_eq_of_lt (by omega)
  have e2 : (1 + N + 2) % 256 = N + 3 := by omega
  have e3 : ((((N + 3 : Nat) : Int) - 2) % 65536).toNat = N + 1 := by omega
  have e4 : List.replicate (N + 3) 0 = [0] ++ (List.replicate N 0 ++ [0, 0]) := by
    rw [show N + 3 = 1 + N + 2 by omega, replicate_zero_split]
    rfl
  have e5 := memcpy_zeros [N + 3] data [0, 0] N hlen
  have e6 : [N + 3].length = 1 := rfl
  rw [e6] at e5
  have hl : ((N + 3) :: data).length = 1 + N := by
    simp [hlen]; omega
  unfold generate_answer_packet
  simp only [e1, e2, e3, e4]
  simp only [List.cons_append, List.nil_append, List.set_cons_zero]
  have e7 : (N + 3) :: (List.replicate N 0 ++ [0, 0]) =
      [N + 3] ++ (List.replicate N 0 ++ [0, 0]) := rfl
  rw [e7, e5, ← List.append_assoc]
  have e9 : [N + 3] ++ data = (N + 3) :: data := rfl
  rw [e9]
  have e8 : calculate_crc (N + 1) ((N + 3) :: data ++ [0, 0]) =
      calculate_crc (N + 1) ((N + 3) :: data) := by
    apply calculate_crc_congr _ _ _ (by omega)
    intro i hi
    exact getD_append_crc_slot _ _ _ _ _ hl (by omega)
  rw [e8]
  exact set_crc_slot _ _ _ _ _ _ hl

/-! ## Byte splitting of 16 bit values -/

theorem and_ff (p : Nat) : p &&& 0x00FF = p % 256 :=
  Nat.and_pow_two_sub_one_eq_mod p 8

theorem and_ff00_shift (p : Nat) : (p &&& 0xFF00) >>> 8 = (p / 256) % 256 := by
  apply Nat.eq_of_testBit_eq
  intro i
  have h1 : (0xFF00 : Nat) = (2 ^ 8 - 1) <<< 8 := by decide
  have h2 : p / 256 % 256 = (p >>> 8) % 2 ^ 8 := by
    rw [Nat.shiftRight_eq_div_pow]
    rfl
  rw [h2, Nat.testBit_shiftRight, Nat.testBit_and, h1, Nat.testBit_shiftLeft,
    Nat.testBit_mod_two_pow, Nat.testBit_shiftRight, Nat.testBit_two_pow_sub_one]
  by_cases hi : i < 8
  · simp [hi, Bool.and_comm]
  · simp [hi]

/-! ## check_packet in closed form -/

theorem check_crc_eq (length : Nat) (data : List Nat) (crc : Nat × Nat) :
    check_crc length data crc = decide (crc = calculate_crc (length % 256) data) := by
  unfold check_crc
  generalize calculate_crc (length % 256) data = c
  rcases c with ⟨c1, c2⟩
  rcases crc with ⟨a, b⟩
  by_cases h1 : a = c1 <;> by_cases h2 : b = c2 <;> simp [h1, h2]

theorem check_packet_eq (packet : List Nat) (n : Nat) (h0 : packet.getD 0 0 % 256 = n)
    (h2 : 2 ≤ n) :
    check_packet packet =
      decide ((packet.getD (n - 2) 0, packet.getD (n - 1) 0) = calculate_crc (n - 2) packet) := by
  have hn : n < 256 := by rw [← h0]; exact Nat.mod_lt _ (by decide)
  have e1 : (((n : Int) - 2) % 256).toNat = n - 2 := by omega
  have e2 : ((n : Int) - 2).toNat = n - 2 := by omega
  have e3 : ((n : Int) - 1).toNat = n - 1 := by omega
  have e4 : (0 : Int) ≤ (n : Int) - 2 := by omega
  have e5 : (0 : Int) ≤ (n : Int) - 1 := by omega
  have e6 : (n - 2) % 256 = n - 2 := Nat.mod_eq_of_lt (by omega)
  unfold check_packet peek
  simp only [h0, e1, e2, e3, e4, e5, if_true, check_crc_eq, e6]
  generalize decide ((packet.getD (n - 2) 0, packet.getD (n - 1) 0) =
    calculate_crc (n - 2) packet) = d
  cases d <;> rfl

/-- The eight values of `shift_register` are positive and the ninth is zero, which ends
the inner loop. -/
theorem shift_register_loop_exit :
    (∀ s ∈ shift_register_values, s > 0x00) ∧
      List.iterate (fun s => (s <<< 1) % 256) 0x01 9 = shift_register_values ++ [0x00] := by
  decide

theorem shift_register_values_eq :
    shift_register_values = [2 ^ 0, 2 ^ 1, 2 ^ 2, 2 ^ 3, 2 ^ 4, 2 ^ 5, 2 ^ 6, 2 ^ 7] := by
  decide

theorem and_two_pow_ne_zero (byte i : Nat) : decide (byte &&& 2 ^ i ≠ 0) = byte.testBit i := by
  have h : byte &&& 2 ^ i = if byte.testBit i then 2 ^ i else 0 := by
    apply Nat.eq_of_testBit_eq
    intro j
    rw [Nat.testBit_and, Nat.testBit_two_pow]
    by_cases hij : i = j
    · subst hij
      cases hb : byte.testBit i <;> simp [Nat.testBit_two_pow_self]
    · cases hb : byte.testBit i <;> simp [hij, Nat.testBit_two_pow_of_ne hij]
  rw [h]
  cases hb : byte.testBit i
  · simp
  · have : 2 ^ i ≠ 0 := by positivity
    simp [this]

theorem crc_bit_step_eq (byte r i : Nat) :
    crc_bit_step byte r (2 ^ i) = crc_shift r (byte.testBit i) := by
  have h := and_two_pow_ne_zero byte i
  unfold crc_shift crc_bit_step
  cases hb : byte.testBit i
  · rw [hb] at h
    have h' : byte &&& 2 ^ i = 0 := by simpa using h
    simp [h']
  · rw [hb] at h
    have h' : byte &&& 2 ^ i ≠ 0 := by simpa using h
    simp [h']

theorem crc_byte_eq (r byte : Nat) : crc_byte r byte = (byte_bits byte).foldl crc_shift r := by
  unfold crc_byte byte_bits
  rw [shift_register_values_eq]
  simp only [List.foldl_cons, List.foldl_nil, crc_bit_step_eq, List.range, List.range.loop,
    List.map_cons, List.map_nil]

theorem crc_bytes_eq (r : Nat) (l : List Nat) :
    crc_bytes r l = (message_bits l).foldl crc_shift r := by
  induction l generalizing r with
  | nil => rfl
  | cons x t ih =>
    simp only [crc_bytes, List.foldl_cons, message_bits, List.flatMap_cons, List.foldl_append]
    rw [← crc_byte_eq]
    exact ih _


/-! ## One register update, bit by bit -/

theorem crc_shift_def (r : Nat) (b : Bool) :
    crc_shift r b =
      if (if b then 1 else 0) ≠ r >>> 15 then (r <<< 1) % 65536 ^^^ POLYNOM
      else (r <<< 1) % 65536 := by
  unfold crc_shift crc_bit_step
  cases b <;> simp

theorem crc_shift_lt (r : Nat) (b : Bool) : crc_shift r b < 65536 := by
  rw [crc_shift_def]
  have h1 : (r <<< 1) % 65536 < 2 ^ 16 := Nat.mod_lt _ (by decide)
  have h2 : POLYNOM < 2 ^ 16 := by decide
  have h3 : (r <<< 1) % 65536 ^^^ POLYNOM < 2 ^ 16 := Nat.xor_lt_two_pow h1 h2
  by_cases hc : (if b then 1 else 0) ≠ r >>> 15
  · rw [if_pos hc]; exact h3
  · rw [if_neg hc]; exact h1

theorem shiftRight_15 (r : Nat) (h : r < 65536) :
    r >>> 15 = if r.testBit 15 then 1 else 0 := by
  rw [Nat.shiftRight_eq_div_pow, Nat.testBit_to_div_mod]
  have : r / 2 ^ 15 < 2 := by
    rw [Nat.div_lt_iff_lt_mul (by decide)]
    omega
  by_cases h1 : r / 2 ^ 15 % 2 = 1
  · simp only [h1, decide_True, if_true]; omega
  · simp only [h1, decide_False]; simp; omega

/-- The register update as a shift followed by a conditional exclusive or. -/
theorem crc_shift_eq (r : Nat) (b : Bool) (h : r < 65536) :
    crc_shift r b = (2 * r) % 65536 ^^^ (if (b ^^ r.testBit 15) then POLYNOM else 0) := by
  rw [crc_shift_def, shiftRight_15 r h, Nat.shiftLeft_eq, Nat.pow_one, Nat.mul_comm r 2]
  cases b <;> cases r.testBit 15 <;> simp

theorem mul_add_eq_xor (a b i : Nat) (hb : b < 2 ^ i) : 2 ^ i * a + b = 2 ^ i * a ^^^ b := by
  apply Nat.eq_of_testBit_eq
  intro j
  rw [Nat.testBit_mul_pow_two_add a hb, Nat.testBit_xor, Nat.testBit_mul_pow_two]
  by_cases hj : j < i
  · have : ¬ (i ≤ j) := by omega
    simp [hj, this]
  · have h1 : i ≤ j := by omega
    have h2 : b.testBit j = false :=
      Nat.testBit_lt_two_pow (Nat.lt_of_lt_of_le hb (Nat.pow_le_pow_right (by decide) h1))
    simp [hj, h1, h2]

theorem two_mul_xor (a b : Nat) : 2 * (a ^^^ b) = 2 * a ^^^ 2 * b := by
  have h1 : (2 * a ^^^ 2 * b) / 2 = a ^^^ b := by
    rw [Nat.xor_div_two]
    simp
  have h2 : (2 * a ^^^ 2 * b) % 2 = 0 := by
    rw [Nat.xor_mod_two_eq]
    omega
  omega

theorem two_mul_eq_xor (r : Nat) (h : r < 65536) :
    2 * r = (2 * r) % 65536 ^^^ (if r.testBit 15 then 65536 else 0) := by
  have ht : r.testBit 15 = decide (r / 2 ^ 15 % 2 = 1) := Nat.testBit_to_div_mod
  by_cases h1 : r < 32768
  · have h2 : r.testBit 15 = false := Nat.testBit_lt_two_pow h1
    rw [h2, Nat.mod_eq_of_lt (by omega)]
    simp
  · have h2 : r.testBit 15 = true := by
      rw [ht]
      have : r / 2 ^ 15 = 1 := by
        have := Nat.div_add_mod r (2 ^ 15)
        have := Nat.mod_lt r (show 0 < 2 ^ 15 by decide)
        omega
      rw [this]
      rfl
    rw [h2]
    have h3 : (2 * r) % 65536 = 2 * r - 65536 := by omega
    have h4 := mul_add_eq_xor 1 (2 * r - 65536) 16 (by omega)
    simp only [if_true, h3]
    rw [Nat.xor_comm]
    have : 2 ^ 16 * 1 = 65536 := by decide
    rw [this] at h4
    omega


/-! ## Polynomials over GF(2) -/

theorem gf2_mul_loop_fuel (b : Nat) (fuel1 fuel2 a : Nat) (h1 : a ≤ fuel1) (h2 : a ≤ fuel2) :
    gf2_mul_loop fuel1 a b = gf2_mul_loop fuel2 a b := by
  induction fuel1 generalizing fuel2 a with
  | zero =>
    have ha : a = 0 := by omega
    subst ha
    cases fuel2 <;> simp [gf2_mul_loop]
  | succ n ih =>
    cases fuel2 with
    | zero =>
      have ha : a = 0 := by omega
      subst ha
      simp [gf2_mul_loop]
    | succ m =>
      by_cases ha : a = 0
      · simp [gf2_mul_loop, ha]
      · simp only [gf2_mul_loop, if_neg ha]
        rw [ih m (a / 2) (by omega) (by omega)]

theorem gf2_mul_zero_left (g : Nat) : gf2_mul 0 g = 0 := rfl

theorem gf2_mul_unfold (a g : Nat) :
    gf2_mul a g = (if a % 2 = 1 then g else 0) ^^^ 2 * gf2_mul (a / 2) g := by
  cases a with
  | zero => simp [gf2_mul_zero_left]
  | succ n =>
    unfold gf2_mul
    simp only [gf2_mul_loop, if_neg (Nat.succ_ne_zero n)]
    rw [gf2_mul_loop_fuel g n ((n + 1) / 2) ((n + 1) / 2) (by omega) (Nat.le_refl _)]

theorem gf2_mul_double (q g : Nat) : gf2_mul (2 * q) g = 2 * gf2_mul q g := by
  rw [gf2_mul_unfold]
  have h1 : 2 * q % 2 = 0 := by omega
  have h2 : 2 * q / 2 = q := by omega
  simp [h1, h2]

theorem gf2_mul_double_succ (q g : Nat) : gf2_mul (2 * q + 1) g = g ^^^ 2 * gf2_mul q g := by
  rw [gf2_mul_unfold]
  have h1 : (2 * q + 1) % 2 = 1 := by omega
  have h2 : (2 * q + 1) / 2 = q := by omega
  simp [h1, h2]

theorem gf2_mul_xor (a b g : Nat) : gf2_mul (a ^^^ b) g = gf2_mul a g ^^^ gf2_mul b g := by
  induction a using Nat.strong_induction_on generalizing b with
  | _ a ih =>
    by_cases ha : a = 0
    · subst ha
      simp [gf2_mul_zero_left]
    · rw [gf2_mul_unfold (a ^^^ b), gf2_mul_unfold a, gf2_mul_unfold b, Nat.xor_div_two,
        ih (a / 2) (by omega) (b / 2), two_mul_xor]
      have hm : (a ^^^ b) % 2 = (a + b) % 2 := Nat.xor_mod_two_eq
      have hsel : (if (a ^^^ b) % 2 = 1 then g else 0) =
          (if a % 2 = 1 then g else 0) ^^^ (if b % 2 = 1 then g else 0) := by
        rcases Nat.mod_two_eq_zero_or_one a with h1 | h1 <;>
          rcases Nat.mod_two_eq_zero_or_one b with h2 | h2
        · have h3 : (a ^^^ b) % 2 = 0 := by omega
          simp [h1, h2, h3]
        · have h3 : (a ^^^ b) % 2 = 1 := by omega
          simp [h1, h2, h3]
        · have h3 : (a ^^^ b) % 2 = 1 := by omega
          simp [h1, h2, h3]
        · have h3 : (a ^^^ b) % 2 = 0 := by omega
          simp [h1, h2, h3]
      rw [hsel]
      apply Nat.eq_of_testBit_eq
      intro i
      simp only [Nat.testBit_xor]
      generalize (if a % 2 = 1 then g else 0).testBit i = x
      generalize (if b % 2 = 1 then g else 0).testBit i = y
      generalize (2 * gf2_mul (a / 2) g).testBit i = z
      generalize (2 * gf2_mul (b / 2) g).testBit i = w
      cases x <;> cases y <;> cases z <;> cases w <;> rfl

theorem gf2_mul_two_pow (a k : Nat) : gf2_mul a (2 ^ k) = a * 2 ^ k := by
  induction a using Nat.strong_induction_on with
  | _ a ih =>
    by_cases ha : a = 0
    · subst ha
      simp [gf2_mul_zero_left]
    · rw [gf2_mul_unfold, ih (a / 2) (by omega)]
      have hpos : 0 < 2 ^ k := by positivity
      have hx := mul_add_eq_xor (a / 2) (2 ^ k) (k + 1)
        (Nat.pow_lt_pow_right (by decide) (Nat.lt_succ_self k))
      have e1 : 2 * (a / 2 * 2 ^ k) = 2 ^ (k + 1) * (a / 2) := by
        rw [Nat.pow_succ]; ring
      rcases Nat.mod_two_eq_zero_or_one a with h1 | h1
      · simp only [h1]
        have : a * 2 ^ k = 2 * (a / 2 * 2 ^ k) := by
          have : a = 2 * (a / 2) := by omega
          conv_lhs => rw [this]
          ring
        simp [this]
      · simp only [h1, if_true]
        rw [e1, Nat.xor_comm, ← hx]
        have : a = 2 * (a / 2) + 1 := by omega
        conv_rhs => rw [this]
        rw [Nat.pow_succ]
        ring


theorem generator_eq : CRC16_GENERATOR = 65536 ^^^ POLYNOM := by decide

theorem generator_testBit_high (i : Nat) (h : 17 ≤ i) : CRC16_GENERATOR.testBit i = false := by
  apply Nat.testBit_lt_two_pow
  have h1 : CRC16_GENERATOR < 2 ^ 17 := by decide
  exact Nat.lt_of_lt_of_le h1 (Nat.pow_le_pow_right (by decide) h)

theorem testBit_two_mul_succ (x i : Nat) : (2 * x).testBit (i + 1) = x.testBit i := by
  rw [Nat.testBit_succ]
  congr 1
  omega

theorem gf2_mul_high_bit (q : Nat) (hq : q ≠ 0) :
    ∃ i, 16 ≤ i ∧ (gf2_mul q CRC16_GENERATOR).testBit i = true := by
  induction q using Nat.strong_induction_on with
  | _ q ih =>
    by_cases h1 : q / 2 = 0
    · have hq1 : q = 1 := by omega
      subst hq1
      refine ⟨16, Nat.le_refl _, ?_⟩
      have e : gf2_mul 1 CRC16_GENERATOR = CRC16_GENERATOR := by
        have := gf2_mul_double_succ 0 CRC16_GENERATOR
        simpa [gf2_mul_zero_left] using this
      rw [e]
      decide
    · obtain ⟨i, hi, hbit⟩ := ih (q / 2) (by omega) h1
      refine ⟨i + 1, by omega, ?_⟩
      rw [gf2_mul_unfold, Nat.testBit_xor, testBit_two_mul_succ, hbit]
      have : (if q % 2 = 1 then CRC16_GENERATOR else 0).testBit (i + 1) = false := by
        split
        · exact generator_testBit_high _ (by omega)
        · simp
      rw [this]
      rfl

theorem xor_cancel_of_eq (a r a' r' : Nat) (h : a ^^^ r = a' ^^^ r') : a ^^^ a' = r ^^^ r' := by
  apply Nat.eq_of_testBit_eq
  intro i
  have hi := congrArg (fun x => x.testBit i) h
  simp only [Nat.testBit_xor] at hi ⊢
  revert hi
  cases a.testBit i <;> cases r.testBit i <;> cases a'.testBit i <;> cases r'.testBit i <;> simp

theorem xor_eq_zero_imp (a b : Nat) (h : a ^^^ b = 0) : a = b := by
  apply Nat.eq_of_testBit_eq
  intro i
  have hi := congrArg (fun x => x.testBit i) h
  simp only [Nat.testBit_xor, Nat.zero_testBit] at hi
  revert hi
  cases a.testBit i <;> cases b.testBit i <;> simp

/-- The remainder modulo the generator is unique. -/
theorem gf2_remainder_unique (q r q' r' : Nat) (hr : r < 2 ^ 16) (hr' : r' < 2 ^ 16)
    (h : gf2_mul q CRC16_GENERATOR ^^^ r = gf2_mul q' CRC16_GENERATOR ^^^ r') : r = r' := by
  have h1 := xor_cancel_of_eq _ _ _ _ h
  rw [← gf2_mul_xor] at h1
  have h2 : r ^^^ r' < 2 ^ 16 := Nat.xor_lt_two_pow hr hr'
  by_cases hq : q ^^^ q' = 0
  · rw [hq, gf2_mul_zero_left] at h1
    exact xor_eq_zero_imp _ _ h1.symm
  · obtain ⟨i, hi, hbit⟩ := gf2_mul_high_bit _ hq
    rw [h1] at hbit
    have : (r ^^^ r').testBit i = false :=
      Nat.testBit_lt_two_pow (Nat.lt_of_lt_of_le h2 (Nat.pow_le_pow_right (by decide) hi))
    rw [this] at hbit
    cases hbit

theorem message_poly_append (l : List Bool) (b : Bool) :
    message_poly (l ++ [b]) = 2 * message_poly l + (if b then 1 else 0) := by
  simp [message_poly, List.foldl_append]

/-- The register is congruent to `M(x) * x^16` modulo the generator after every bit. -/
theorem crc_register_invariant (bits : List Bool) :
    bits.foldl crc_shift 0 < 65536 ∧
      ∃ q, gf2_mul q CRC16_GENERATOR ^^^ bits.foldl crc_shift 0 = message_poly bits * 2 ^ 16 := by
  induction bits using List.reverseRecOn with
  | nil => exact ⟨by decide, 0, by simp [gf2_mul_zero_left, message_poly]⟩
  | append_singleton l b ih =>
    obtain ⟨hlt, q, hq⟩ := ih
    rw [List.foldl_append, List.foldl_cons, List.foldl_nil]
    refine ⟨crc_shift_lt _ _, ?_⟩
    generalize l.foldl crc_shift 0 = r at hlt hq
    have hm : message_poly (l ++ [b]) * 2 ^ 16 =
        2 * (message_poly l * 2 ^ 16) ^^^ (if b then 65536 else 0) := by
      rw [message_poly_append]
      cases b
      · simp; ring
      · have := mul_add_eq_xor (message_poly l) (2 ^ 16) 17 (by decide)
        simp only [if_true]
        have e : 2 * (message_poly l * 2 ^ 16) = 2 ^ 17 * message_poly l := by ring
        rw [e, show (65536 : Nat) = 2 ^ 16 by rfl, ← this]
        ring
    rw [hm, ← hq, two_mul_xor, two_mul_eq_xor r hlt, crc_shift_eq r b hlt]
    generalize (2 * r) % 65536 = r0
    by_cases hx : (b ^^ r.testBit 15) = true
    · refine ⟨2 * q + 1, ?_⟩
      rw [gf2_mul_double_succ, generator_eq, if_pos hx]
      apply Nat.eq_of_testBit_eq
      intro i
      simp only [Nat.testBit_xor]
      have hs : (if b = true then (65536 : Nat) else 0).testBit i =
          ((if r.testBit 15 = true then (65536 : Nat) else 0).testBit i ^^ Nat.testBit 65536 i) := by
        revert hx
        cases b <;> cases r.testBit 15 <;> simp
      rw [hs]
      generalize (if r.testBit 15 = true then (65536 : Nat) else 0).testBit i = t
      generalize Nat.testBit 65536 i = s
      generalize POLYNOM.testBit i = p
      generalize (2 * gf2_mul q (65536 ^^^ POLYNOM)).testBit i = x
      generalize r0.testBit i = y
      cases t <;> cases s <;> cases p <;> cases x <;> cases y <;> rfl
    · refine ⟨2 * q, ?_⟩
      rw [gf2_mul_double, if_neg hx]
      have hs : (if b = true then (65536 : Nat) else 0) =
          (if r.testBit 15 = true then (65536 : Nat) else 0) := by
        revert hx
        cases b <;> cases r.testBit 15 <;> simp
      rw [hs]
      apply Nat.eq_of_testBit_eq
      intro i
      simp only [Nat.testBit_xor, Nat.xor_zero]
      generalize (if r.testBit 15 = true then (65536 : Nat) else 0).testBit i = t
      generalize (2 * gf2_mul q CRC16_GENERATOR).testBit i = x
      generalize r0.testBit i = y
      cases t <;> cases x <;> cases y <;> rfl


/-! ## The register update is injective -/

theorem testBit_15_iff (r : Nat) (h : r < 65536) : r.testBit 15 = true ↔ 32768 ≤ r := by
  constructor
  · intro ht
    exact Nat.testBit_implies_ge ht
  · intro hge
    by_contra hf
    have hf' : r.testBit 15 = false := by simpa using hf
    have h1 := two_mul_eq_xor r h
    rw [hf'] at h1
    simp only [Bool.false_eq_true, if_false, Nat.xor_zero] at h1
    omega

theorem polynom_odd : POLYNOM % 2 = 1 := by decide

theorem crc_shift_parity (r : Nat) (b : Bool) (h : r < 65536) :
    crc_shift r b % 2 = if (b ^^ r.testBit 15) then 1 else 0 := by
  rw [crc_shift_eq r b h, Nat.xor_mod_two_eq]
  have := polynom_odd
  split <;> omega

theorem crc_shift_flip (r : Nat) (b : Bool) (h : r < 65536) :
    crc_shift r (!b) ≠ crc_shift r b := by
  intro he
  have h1 := crc_shift_parity r (!b) h
  have h2 := crc_shift_parity r b h
  rw [he] at h1
  rw [h1] at h2
  revert h2
  cases b <;> cases r.testBit 15 <;> simp

theorem crc_shift_inj (r1 r2 : Nat) (b : Bool) (h1 : r1 < 65536) (h2 : r2 < 65536)
    (he : crc_shift r1 b = crc_shift r2 b) : r1 = r2 := by
  have p1 := crc_shift_parity r1 b h1
  have p2 := crc_shift_parity r2 b h2
  rw [he, p2] at p1
  have ht : r1.testBit 15 = r2.testBit 15 := by
    revert p1
    cases b <;> cases r1.testBit 15 <;> cases r2.testBit 15 <;> simp
  rw [crc_shift_eq r1 b h1, crc_shift_eq r2 b h2, ht] at he
  have hx := xor_eq_zero_imp _ _ (by
    have := xor_cancel_of_eq _ _ _ _ he
    rwa [Nat.xor_self] at this)
  have i1 := testBit_15_iff r1 h1
  have i2 := testBit_15_iff r2 h2
  rw [ht] at i1
  by_cases hh : r2.testBit 15 = true
  · have := i1.mp hh
    have := i2.mp hh
    omega
  · have a1 : ¬ 32768 ≤ r1 := fun h => hh (i1.mpr h)
    have a2 : ¬ 32768 ≤ r2 := fun h => hh (i2.mpr h)
    omega

theorem crc_bits_lt (bits : List Bool) (r : Nat) (h : r < 65536) :
    bits.foldl crc_shift r < 65536 := by
  induction bits generalizing r with
  | nil => exact h
  | cons b t ih => exact ih _ (crc_shift_lt r b)

theorem crc_bits_inj (bits : List Bool) (r1 r2 : Nat) (h1 : r1 < 65536) (h2 : r2 < 65536)
    (he : bits.foldl crc_shift r1 = bits.foldl crc_shift r2) : r1 = r2 := by
  induction bits generalizing r1 r2 with
  | nil => exact he
  | cons b t ih =>
    exact crc_shift_inj r1 r2 b h1 h2 (ih _ _ (crc_shift_lt r1 b) (crc_shift_lt r2 b) he)

theorem crc_bits_flip (pre post : List Bool) (b : Bool) (r : Nat) (h : r < 65536) :
    (pre ++ (!b) :: post).foldl crc_shift r ≠ (pre ++ b :: post).foldl crc_shift r := by
  intro he
  rw [List.foldl_append, List.foldl_append, List.foldl_cons, List.foldl_cons] at he
  have := crc_bits_inj post _ _ (crc_shift_lt _ _) (crc_shift_lt _ _) he
  exact crc_shift_flip _ b (crc_bits_lt pre r h) this

theorem byte_bits_flip (x j : Nat) (hj : j < 8) :
    ∃ pre post, byte_bits x = pre ++ x.testBit j :: post ∧
      byte_bits (x ^^^ 2 ^ j) = pre ++ (!x.testBit j) :: post := by
  have hb : ∀ y : Nat, byte_bits y = [y.testBit 0, y.testBit 1, y.testBit 2, y.testBit 3,
      y.testBit 4, y.testBit 5, y.testBit 6, y.testBit 7] := fun y => rfl
  rw [hb, hb]
  simp only [Nat.testBit_xor, Nat.testBit_two_pow]
  interval_cases j
  · exact ⟨[], _, rfl, by simp⟩
  · exact ⟨[_], _, rfl, by simp⟩
  · exact ⟨[_, _], _, rfl, by simp⟩
  · exact ⟨[_, _, _], _, rfl, by simp⟩
  · exact ⟨[_, _, _, _], _, rfl, by simp⟩
  · exact ⟨[_, _, _, _, _], _, rfl, by simp⟩
  · exact ⟨[_, _, _, _, _, _], _, rfl, by simp⟩
  · exact ⟨[_, _, _, _, _, _, _], _, rfl, by simp⟩

theorem crc_byte_flip (r x j : Nat) (h : r < 65536) (hj : j < 8) :
    crc_byte r (x ^^^ 2 ^ j) ≠ crc_byte r x := by
  obtain ⟨pre, post, e1, e2⟩ := byte_bits_flip x j hj
  rw [crc_byte_eq, crc_byte_eq, e1, e2]
  exact crc_bits_flip pre post _ r h

theorem crc_bytes_lt (l : List Nat) (r : Nat) (h : r < 65536) : crc_bytes r l < 65536 := by
  rw [crc_bytes_eq]
  exact crc_bits_lt _ r h

theorem crc_bytes_inj (l : List Nat) (r1 r2 : Nat) (h1 : r1 < 65536) (h2 : r2 < 65536)
    (he : crc_bytes r1 l = crc_bytes r2 l) : r1 = r2 := by
  rw [crc_bytes_eq, crc_bytes_eq] at he
  exact crc_bits_inj _ r1 r2 h1 h2 he

theorem crc_bytes_flip (pre post : List Nat) (x j : Nat) (hj : j < 8) :
    crc_bytes 0 (pre ++ (x ^^^ 2 ^ j) :: post) ≠ crc_bytes 0 (pre ++ x :: post) := by
  intro he
  simp only [crc_bytes, List.foldl_append, List.foldl_cons] at he
  have hr : crc_bytes 0 pre < 65536 := crc_bytes_lt pre 0 (by decide)
  have h1 : crc_byte (crc_bytes 0 pre) (x ^^^ 2 ^ j) < 65536 := by
    rw [crc_byte_eq]; exact crc_bits_lt _ _ hr
  have h2 : crc_byte (crc_bytes 0 pre) x < 65536 := by
    rw [crc_byte_eq]; exact crc_bits_lt _ _ hr
  have := crc_bytes_inj post _ _ h1 h2 he
  exact crc_byte_flip _ x j hr hj this


/-! ## The output of calculate_crc and the register -/

theorem calculate_crc_register (data : List Nat) (hlen : data.length < 65536) :
    calculate_crc data.length data = (crc_bytes 0 data % 256, crc_bytes 0 data / 256) := by
  have hr : crc_bytes 0 data < 65536 := crc_bytes_lt data 0 (by decide)
  unfold calculate_crc
  simp only [Nat.mod_eq_of_lt hlen, crc_loop_length, and_ff, Nat.mod_mod]
  rw [Nat.shiftRight_eq_div_pow]
  have : crc_bytes 0 data / 2 ^ 8 < 256 := by
    rw [Nat.div_lt_iff_lt_mul (by decide)]
    omega
  rw [Nat.mod_eq_of_lt this]
  rfl

theorem crc_value_calculate_crc (data : List Nat) (hlen : data.length < 65536) :
    crc_value (calculate_crc data.length data) = (message_bits data).foldl crc_shift 0 := by
  rw [calculate_crc_register data hlen, ← crc_bytes_eq]
  unfold crc_value
  simp only
  omega

theorem set_eq_split (B : List Nat) (k v : Nat) (hk : k < B.length) :
    B = B.take k ++ B.getD k 0 :: B.drop (k + 1) ∧
      B.set k v = B.take k ++ v :: B.drop (k + 1) := by
  constructor
  · have h1 : B.getD k 0 = B[k] := by
      simp [List.getD_eq_getElem?_getD, List.getElem?_eq_getElem hk]
    rw [h1, ← List.drop_eq_getElem_cons hk, List.take_append_drop]
  · exact List.set_eq_take_cons_drop v hk

theorem frame_parts (pre : List Nat) (c1 c2 n : Nat) (h : pre.length = n) :
    (pre ++ [c1, c2]).length = n + 2 ∧ (pre ++ [c1, c2]).take n = pre ∧
      (pre ++ [c1, c2]).getD n 0 = c1 ∧ (pre ++ [c1, c2]).getD (n + 1) 0 = c2 := by
  subst h
  refine ⟨by simp, List.take_left _ _, ?_, ?_⟩
  · rw [List.getD_append_right _ _ _ _ (Nat.le_refl _)]
    simp
  · rw [List.getD_append_right _ _ _ _ (Nat.le_succ _)]
    simp

theorem split_16 (p : Nat) (h : p < 65536) :
    (p % 65536 &&& 0x00FF) + 256 * ((p % 65536 &&& 0xFF00) >>> 8) = p := by
  rw [and_ff, and_ff00_shift, Nat.mod_eq_of_lt h]
  omega

theorem decode_generate (opcode param1 param2 : Nat) (data : List Nat) (N : Nat)
    (hop : opcode < 256) (hp1 : param1 < 256) (hp2 : param2 < 65536) (hN : N ≤ 248)
    (hlen : data.length = N) :
    decode_command_packet (generate_command_packet opcode param1 param2 data N) =
      (opcode, param1, param2, data) := by
  rw [command_packet_eq opcode param1 param2 data N hN hlen]
  unfold decode_command_packet command_header
  simp only [List.cons_append, List.nil_append, List.getD_cons_zero, List.getD_cons_succ,
    List.drop_succ_cons, List.drop_zero, Nat.mod_eq_of_lt hop, Nat.mod_eq_of_lt hp1,
    split_16 param2 hp2, Nat.add_sub_cancel_left]
  rw [List.take_left' hlen]

/-! # Properties of the specification -/

/-- C1: CRC round trip. For every byte sequence `B` of at most 128 bytes, `check_crc` called
with the length of `B`, with `B` and with the two bytes that `calculate_crc` produced for `B`
returns true. -/
theorem crc_round_trip (B : List Nat) (h : B.length ≤ 128) :
    check_crc B.length B (calculate_crc B.length B) = true := by
  rw [check_crc_eq, Nat.mod_eq_of_lt (by omega)]
  simp

theorem crc_round_trip_witness :
    [0x07, 0x30, 0x00, 0x00, 0x00].length ≤ 128 ∧
      check_crc [0x07, 0x30, 0x00, 0x00, 0x00].length [0x07, 0x30, 0x00, 0x00, 0x00]
        (calculate_crc [0x07, 0x30, 0x00, 0x00, 0x00].length [0x07, 0x30, 0x00, 0x00, 0x00])
        = true :=
  ⟨by decide, crc_round_trip [0x07, 0x30, 0x00, 0x00, 0x00] (by decide)⟩

/-- C2: command frame layout. For an opcode and a param1 that are bytes, a 16 bit param2 and
a payload of `N ≤ 248` bytes, `generate_command_packet` returns a frame of exactly `7 + N`
bytes: byte 0 is `7 + N`, byte 1 the opcode, byte 2 param1, byte 3 the low byte of param2,
byte 4 its high byte, bytes `5 .. 5 + N - 1` the payload unchanged, and the last two bytes
are the output of `calculate_crc` (low byte, then high byte) over the first `5 + N` bytes. -/
theorem command_packet_layout (opcode param1 param2 : Nat) (data : List Nat) (N : Nat)
    (hop : opcode < 256) (hp1 : param1 < 256) (hp2 : param2 < 65536) (hN : N ≤ 248)
    (hlen : data.length = N) :
    (generate_command_packet opcode param1 param2 data N).length = 7 + N ∧
    (generate_command_packet opcode param1 param2 data N).getD 0 0 = 7 + N ∧
    (generate_command_packet opcode param1 param2 data N).getD 1 0 = opcode ∧
    (generate_command_packet opcode param1 param2 data N).getD 2 0 = param1 ∧
    (generate_command_packet opcode param1 param2 data N).getD 3 0 = param2 % 256 ∧
    (generate_command_packet opcode param1 param2 data N).getD 4 0 = param2 / 256 ∧
    ((generate_command_packet opcode param1 param2 data N).drop 5).take N = data ∧
    (∀ i, i < N →
      (generate_command_packet opcode param1 param2 data N).getD (5 + i) 0 = data.getD i 0) ∧
    ((generate_command_packet opcode param1 param2 data N).getD (5 + N) 0,
      (generate_command_packet opcode param1 param2 data N).getD (5 + N + 1) 0) =
      calculate_crc (5 + N) ((generate_command_packet opcode param1 param2 data N).take (5 + N)) := by
  have hl : (command_header opcode param1 param2 N ++ data).length = 5 + N := by
    simp [command_header, hlen]; omega
  have hp := frame_parts (command_header opcode param1 param2 N ++ data)
    (calculate_crc (5 + N) (command_header opcode param1 param2 N ++ data)).1
    (calculate_crc (5 + N) (command_header opcode param1 param2 N ++ data)).2 (5 + N) hl
  have hhi : param2 / 256 % 256 = param2 / 256 := Nat.mod_eq_of_lt (by omega)
  rw [command_packet_eq opcode param1 param2 data N hN hlen]
  refine ⟨by rw [hp.1]; omega, ?_, ?_, ?_, ?_, ?_, ?_, ?_, ?_⟩
  · simp [command_header]
  · simp [command_header, Nat.mod_eq_of_lt hop]
  · simp [command_header, Nat.mod_eq_of_lt hp1]
  · simp only [command_header, List.cons_append, List.getD_cons_succ, List.getD_cons_zero,
      Nat.mod_eq_of_lt hp2, and_ff]
  · simp only [command_header, List.cons_append, List.getD_cons_succ, List.getD_cons_zero,
      Nat.mod_eq_of_lt hp2, and_ff00_shift, hhi]
  · simp only [command_header, List.cons_append, List.nil_append, List.drop_succ_cons,
      List.drop_zero]
    exact List.take_left' hlen
  · intro i hi
    simp only [command_header, List.cons_append, List.nil_append]
    rw [show 5 + i = i + 1 + 1 + 1 + 1 + 1 by omega]
    simp only [List.getD_cons_succ]
    exact List.getD_append _ _ _ _ (by omega)
  · rw [hp.2.1, hp.2.2.1, hp.2.2.2]

theorem command_packet_layout_witness :
    (generate_command_packet 0x12 0x82 0x0018 [1, 2, 3, 4] 4).length = 7 + 4 ∧
    (generate_command_packet 0x12 0x82 0x0018 [1, 2, 3, 4] 4).getD 0 0 = 7 + 4 ∧
    (generate_command_packet 0x12 0x82 0x0018 [1, 2, 3, 4] 4).getD 1 0 = 0x12 ∧
    (generate_command_packet 0x12 0x82 0x0018 [1, 2, 3, 4] 4).getD 2 0 = 0x82 ∧
    (generate_command_packet 0x12 0x82 0x0018 [1, 2, 3, 4] 4).getD 3 0 = 0x0018 % 256 ∧
    (generate_command_packet 0x12 0x82 0x0018 [1, 2, 3, 4] 4).getD 4 0 = 0x0018 / 256 ∧
    ((generate_command_packet 0x12 0x82 0x0018 [1, 2, 3, 4] 4).drop 5).take 4 = [1, 2, 3, 4] ∧
    (∀ i, i < 4 →
      (generate_command_packet 0x12 0x82 0x0018 [1, 2, 3, 4] 4).getD (5 + i) 0 =
        [1, 2, 3, 4].getD i 0) ∧
    ((generate_command_packet 0x12 0x82 0x0018 [1, 2, 3, 4] 4).getD (5 + 4) 0,
      (generate_command_packet 0x12 0x82 0x0018 [1, 2, 3, 4] 4).getD (5 + 4 + 1) 0) =
      calculate_crc (5 + 4) ((generate_command_packet 0x12 0x82 0x0018 [1, 2, 3, 4] 4).take (5 + 4)) :=
  command_packet_layout 0x12 0x82 0x0018 [1, 2, 3, 4] 4 (by decide) (by decide) (by decide)
    (by decide) rfl

set_option maxRecDepth 100000 in
/-- C3: DevRev frame. `generate_command_packet` for the opcode `ATSHA204_OPCODE_DEV_REV`
(0x30), param1 0, param2 0 and an empty payload is exactly the seven bytes
`07 30 00 00 00 03 5D`, and `check_packet` accepts that frame. -/
theorem dev_rev_frame :
    ATSHA204_OPCODE_DEV_REV = 0x30 ∧
    generate_command_packet ATSHA204_OPCODE_DEV_REV 0 0 [] 0 =
      [0x07, 0x30, 0x00, 0x00, 0x00, 0x03, 0x5D] ∧
    check_packet (generate_command_packet ATSHA204_OPCODE_DEV_REV 0 0 [] 0) = true := by
  decide

/-- C4: `calculate_crc` is the CRC-16 with polynomial 0x8005, zero initial register, bits
taken least significant first within each byte and no final exclusive or.  For every byte
sequence (whose length fits the `uint16_t` length parameter), the 16 bit value
`crc[0] + 256 * crc[1]` is a remainder of `M(x) * x^16` modulo `x^16 + x^15 + x^2 + 1` over
GF(2): it has degree below 16 and differs from `M(x) * x^16` by a multiple of the generator,
and it is the only such value.  `M(x)` has the message bits as coefficients, first bit
highest degree.  The CRC of the empty sequence is `00 00`. -/
theorem calculate_crc_is_crc16 (data : List Nat) (hlen : data.length < 65536) :
    crc_value (calculate_crc data.length data) < 2 ^ 16 ∧
    (∃ Q, gf2_mul Q CRC16_GENERATOR ^^^ crc_value (calculate_crc data.length data) =
      gf2_mul (message_poly (message_bits data)) (2 ^ 16)) ∧
    (∀ Q R, R < 2 ^ 16 →
      gf2_mul Q CRC16_GENERATOR ^^^ R = gf2_mul (message_poly (message_bits data)) (2 ^ 16) →
      R = crc_value (calculate_crc data.length data)) ∧
    CRC16_GENERATOR = 0x10000 + POLYNOM ∧
    calculate_crc 0 [] = (0, 0) := by
  obtain ⟨hlt, q, hq⟩ := crc_register_invariant (message_bits data)
  rw [crc_value_calculate_crc data hlen, gf2_mul_two_pow]
  refine ⟨hlt, ⟨q, hq⟩, ?_, by decide, by decide⟩
  intro Q R hR hQ
  exact gf2_remainder_unique Q R q _ hR hlt (hQ.trans hq.symm)

set_option maxRecDepth 100000 in
theorem calculate_crc_is_crc16_witness :
    [0x07, 0x30, 0x00, 0x00, 0x00].length < 65536 ∧
    (0x5D03 : Nat) < 2 ^ 16 ∧
    gf2_mul 824440768255 CRC16_GENERATOR ^^^ 0x5D03 =
      gf2_mul (message_poly (message_bits [0x07, 0x30, 0x00, 0x00, 0x00])) (2 ^ 16) ∧
    0x5D03 = crc_value (calculate_crc [0x07, 0x30, 0x00, 0x00, 0x00].length
      [0x07, 0x30, 0x00, 0x00, 0x00]) :=
  ⟨by decide, by decide, by decide,
    (calculate_crc_is_crc16 [0x07, 0x30, 0x00, 0x00, 0x00] (by decide)).2.2.1
      824440768255 0x5D03 (by decide) (by decide)⟩

/-- C5: single bit error detection. For every byte sequence `B` of 1 to 128 bytes, every
byte index `k` and every bit `j < 8`, if that one bit of `B` is flipped then `check_crc`
with the CRC computed for `B` returns false. -/
theorem single_bit_flip_detected (B : List Nat) (k j : Nat) (hlen : B.length ≤ 128)
    (hk : k < B.length) (hj : j < 8) :
    check_crc B.length (B.set k (B.getD k 0 ^^^ 2 ^ j)) (calculate_crc B.length B) = false := by
  have hB' : (B.set k (B.getD k 0 ^^^ 2 ^ j)).length = B.length := List.length_set _ _ _
  obtain ⟨e1, e2⟩ := set_eq_split B k (B.getD k 0 ^^^ 2 ^ j) hk
  rw [check_crc_eq, Nat.mod_eq_of_lt (by omega), decide_eq_false_iff_not]
  intro h
  have h1 := calculate_crc_register B (by omega)
  have h2 := calculate_crc_register (B.set k (B.getD k 0 ^^^ 2 ^ j)) (by omega)
  rw [hB'] at h2
  rw [h1, h2] at h
  have r1 : crc_bytes 0 B < 65536 := crc_bytes_lt B 0 (by decide)
  have r2 : crc_bytes 0 (B.set k (B.getD k 0 ^^^ 2 ^ j)) < 65536 := crc_bytes_lt _ 0 (by decide)
  have ha := congrArg Prod.fst h
  have hb := congrArg Prod.snd h
  simp only at ha hb
  have he : crc_bytes 0 (B.set k (B.getD k 0 ^^^ 2 ^ j)) = crc_bytes 0 B := by omega
  rw [e2] at he
  conv at he => rhs; rw [e1]
  exact crc_bytes_flip _ _ _ j hj he

theorem single_bit_flip_detected_witness :
    [0x07, 0x30, 0x00].length ≤ 128 ∧ 1 < [0x07, 0x30, 0x00].length ∧ 4 < 8 ∧
      check_crc [0x07, 0x30, 0x00].length
        ([0x07, 0x30, 0x00].set 1 ([0x07, 0x30, 0x00].getD 1 0 ^^^ 2 ^ 4))
        (calculate_crc [0x07, 0x30, 0x00].length [0x07, 0x30, 0x00]) = false :=
  ⟨by decide, by decide, by decide,
    single_bit_flip_detected [0x07, 0x30, 0x00] 1 4 (by decide) (by decide) (by decide)⟩

/-- C6: frame round trip. For an opcode and a param1 that are bytes, a 16 bit param2 and a
payload of `N ≤ 248` bytes, the tuple is recovered from the frame `F` that
`generate_command_packet` returns: opcode `F[1]`, param1 `F[2]`, param2 `F[3] + 256 * F[4]`,
`N = F[0] - 7` and payload `F[5 .. 5 + N - 1]`; hence two different tuples never produce the
same frame. -/
theorem command_packet_round_trip (opcode param1 param2 : Nat) (data : List Nat) (N : Nat)
    (hop : opcode < 256) (hp1 : param1 < 256) (hp2 : param2 < 65536) (hN : N ≤ 248)
    (hlen : data.length = N) :
    decode_command_packet (generate_command_packet opcode param1 param2 data N) =
      (opcode, param1, param2, data) ∧
    (generate_command_packet opcode param1 param2 data N).getD 0 0 - 7 = N ∧
    (∀ opcode' param1' param2' data' N', opcode' < 256 → param1' < 256 → param2' < 65536 →
      N' ≤ 248 → data'.length = N' →
      generate_command_packet opcode' param1' param2' data' N' =
        generate_command_packet opcode param1 param2 data N →
      (opcode', param1', param2', data') = (opcode, param1, param2, data)) := by
  refine ⟨decode_generate opcode param1 param2 data N hop hp1 hp2 hN hlen, ?_, ?_⟩
  · rw [command_packet_eq opcode param1 param2 data N hN hlen]
    simp [command_header]
  · intro opcode' param1' param2' data' N' hop' hp1' hp2' hN' hlen' he
    have h1 := decode_generate opcode' param1' param2' data' N' hop' hp1' hp2' hN' hlen'
    rw [he, decode_generate opcode param1 param2 data N hop hp1 hp2 hN hlen] at h1
    exact h1.symm

theorem command_packet_round_trip_witness :
    (0x12 : Nat) < 256 ∧ (0x82 : Nat) < 256 ∧ (0x0118 : Nat) < 65536 ∧ 4 ≤ 248 ∧
    [1, 2, 3, 4].length = 4 ∧
    decode_command_packet (generate_command_packet 0x12 0x82 0x0118 [1, 2, 3, 4] 4) =
      (0x12, 0x82, 0x0118, [1, 2, 3, 4]) ∧
    (generate_command_packet 0x12 0x82 0x0118 [1, 2, 3, 4] 4).getD 0 0 - 7 = 4 :=
  ⟨by decide, by decide, by decide, by decide, rfl,
   (command_packet_round_trip 0x12 0x82 0x0118 [1, 2, 3, 4] 4 (by decide) (by decide)
      (by decide) (by decide) rfl).1,
   (command_packet_round_trip 0x12 0x82 0x0118 [1, 2, 3, 4] 4 (by decide) (by decide)
      (by decide) (by decide) rfl).2.1⟩

/-- C7: response frame layout. For every body of `N ≤ 252` bytes, `generate_answer_packet`
returns a frame of exactly `N + 3` bytes whose byte 0 is `N + 3`, whose bytes `1 .. N` are
the body unchanged and whose last two bytes are the output of `calculate_crc` (low, high)
over the first `N + 1` bytes; `check_packet` accepts every such frame. -/
theorem answer_packet_layout (data : List Nat) (N : Nat) (hN : N ≤ 252)
    (hlen : data.length = N) :
    (generate_answer_packet data N).length = N + 3 ∧
    (generate_answer_packet data N).getD 0 0 = N + 3 ∧
    ((generate_answer_packet data N).drop 1).take N = data ∧
    (∀ i, i < N → (generate_answer_packet data N).getD (1 + i) 0 = data.getD i 0) ∧
    ((generate_answer_packet data N).getD (N + 1) 0,
      (generate_answer_packet data N).getD (N + 2) 0) =
      calculate_crc (N + 1) ((generate_answer_packet data N).take (N + 1)) ∧
    check_packet (generate_answer_packet data N) = true := by
  have hl : ((N + 3) :: data).length = N + 1 := by simp [hlen]
  have hp := frame_parts ((N + 3) :: data)
    (calculate_crc (N + 1) ((N + 3) :: data)).1
    (calculate_crc (N + 1) ((N + 3) :: data)).2 (N + 1) hl
  have h0 : (((N + 3) :: data) ++ [(calculate_crc (N + 1) ((N + 3) :: data)).1,
      (calculate_crc (N + 1) ((N + 3) :: data)).2]).getD 0 0 = N + 3 := by simp
  rw [answer_packet_eq data N hN hlen]
  refine ⟨by rw [hp.1], h0, ?_, ?_, ?_, ?_⟩
  · simp only [List.cons_append, List.drop_succ_cons, List.drop_zero]
    exact List.take_left' hlen
  · intro i hi
    rw [show 1 + i = i + 1 by omega]
    simp only [List.cons_append, List.getD_cons_succ]
    exact List.getD_append _ _ _ _ (by omega)
  · rw [hp.2.1, hp.2.2.1, hp.2.2.2]
  · rw [check_packet_eq _ (N + 3) (by rw [h0]; omega) (by omega)]
    have e1 : N + 3 - 2 = N + 1 := by omega
    have e2 : N + 3 - 1 = N + 1 + 1 := by omega
    have e3 := calculate_crc_take (N + 1) (((N + 3) :: data) ++
      [(calculate_crc (N + 1) ((N + 3) :: data)).1,
        (calculate_crc (N + 1) ((N + 3) :: data)).2]) (by omega)
    rw [hp.2.1] at e3
    rw [e1, e2, hp.2.2.1, hp.2.2.2, ← e3]
    simp

theorem answer_packet_layout_witness :
    [0x00, 0x09, 0x04, 0x11].length = 4 ∧
    (generate_answer_packet [0x00, 0x09, 0x04, 0x11] 4).length = 4 + 3 ∧
    (generate_answer_packet [0x00, 0x09, 0x04, 0x11] 4).getD 0 0 = 4 + 3 ∧
    check_packet (generate_answer_packet [0x00, 0x09, 0x04, 0x11] 4) = true :=
  ⟨rfl, (answer_packet_layout [0x00, 0x09, 0x04, 0x11] 4 (by decide) rfl).1,
    (answer_packet_layout [0x00, 0x09, 0x04, 0x11] 4 (by decide) rfl).2.1,
    (answer_packet_layout [0x00, 0x09, 0x04, 0x11] 4 (by decide) rfl).2.2.2.2.2⟩

/-- C8: CRC rejection. For every received frame whose first byte `n` satisfies
`3 ≤ n ≤` the number of bytes present, `check_packet` returns true if and only if bytes
`n - 2` and `n - 1` equal the output of `calculate_crc` over bytes `0 .. n - 3`; so a frame
of correct length whose CRC bytes are wrong is rejected (`check_packet` returns false). -/
theorem check_packet_iff_crc (packet : List Nat) (n : Nat) (hbyte : n < 256)
    (h0 : packet.getD 0 0 = n) (h3 : 3 ≤ n) (_hn : n ≤ packet.length) :
    (check_packet packet = true ↔
      (packet.getD (n - 2) 0, packet.getD (n - 1) 0) =
        calculate_crc (n - 2) (packet.take (n - 2))) ∧
    ((packet.getD (n - 2) 0, packet.getD (n - 1) 0) ≠
        calculate_crc (n - 2) (packet.take (n - 2)) →
      check_packet packet = false) := by
  have hc := check_packet_eq packet n (by rw [h0]; exact Nat.mod_eq_of_lt hbyte) (by omega)
  rw [hc, calculate_crc_take (n - 2) packet (by omega)]
  constructor
  · exact decide_eq_true_iff
  · intro hne
    exact decide_eq_false hne

set_option maxRecDepth 100000 in
theorem check_packet_iff_crc_witness :
    (7 : Nat) < 256 ∧ [0x07, 0x30, 0x00, 0x00, 0x00, 0x03, 0x5C].getD 0 0 = 7 ∧ 3 ≤ 7 ∧
    7 ≤ [0x07, 0x30, 0x00, 0x00, 0x00, 0x03, 0x5C].length ∧
    ([0x07, 0x30, 0x00, 0x00, 0x00, 0x03, 0x5C].getD (7 - 2) 0,
        [0x07, 0x30, 0x00, 0x00, 0x00, 0x03, 0x5C].getD (7 - 1) 0) ≠
        calculate_crc (7 - 2) ([0x07, 0x30, 0x00, 0x00, 0x00, 0x03, 0x5C].take (7 - 2)) ∧
    check_packet [0x07, 0x30, 0x00, 0x00, 0x00, 0x03, 0x5C] = false :=
  ⟨by decide, rfl, by decide, by decide, by decide,
    (check_packet_iff_crc [0x07, 0x30, 0x00, 0x00, 0x00, 0x03, 0x5C] 7 (by decide) rfl
      (by decide) (by decide)).2 (by decide)⟩

/-- C9: argument validation precedes the transport. `atsha_raw_slot_read`,
`atsha_raw_slot_write`, `atsha_low_challenge_response` and
`atsha_low_challenge_response_mac` return `ATSHA_ERR_INVALID_INPUT` for every slot number
greater than 15 (`ATSHA204_MAX_SLOT_NUMBER`), and the two challenge-response functions also
for every challenge whose length is not 32; in all these cases no call is made on the
transport (the record of calls is returned as it was) and the output buffer is unchanged. -/
theorem invalid_arguments_rejected (ops : Operations) (t : Transport) (trace : List Call)
    (slot_number : Nat) (number challenge response : atsha_big_int) (use_sn_in_digest : Bool) :
    ATSHA204_MAX_SLOT_NUMBER = 15 ∧
    (15 < slot_number → slot_number < 256 →
      atsha_raw_slot_read ops t trace slot_number number =
        (Status.ATSHA_ERR_INVALID_INPUT, number, trace) ∧
      atsha_raw_slot_write ops t trace slot_number number =
        (Status.ATSHA_ERR_INVALID_INPUT, trace) ∧
      atsha_low_challenge_response ops t trace slot_number challenge response
          use_sn_in_digest = (Status.ATSHA_ERR_INVALID_INPUT, response, trace) ∧
      atsha_low_challenge_response_mac ops t trace slot_number challenge response
          use_sn_in_digest = (Status.ATSHA_ERR_INVALID_INPUT, response, trace)) ∧
    (challenge.bytes ≠ 32 →
      atsha_low_challenge_response ops t trace slot_number challenge response
          use_sn_in_digest = (Status.ATSHA_ERR_INVALID_INPUT, response, trace) ∧
      atsha_low_challenge_response_mac ops t trace slot_number challenge response
          use_sn_in_digest = (Status.ATSHA_ERR_INVALID_INPUT, response, trace)) := by
  refine ⟨rfl, ?_, ?_⟩
  · intro h15 h256
    have hs : slot_number % 256 > ATSHA204_MAX_SLOT_NUMBER := by
      rw [Nat.mod_eq_of_lt h256]
      exact h15
    simp only [atsha_raw_slot_read, atsha_raw_slot_write, atsha_low_challenge_response,
      atsha_low_challenge_response_mac, if_pos hs, and_self]
  · intro hc
    by_cases hs : slot_number % 256 > ATSHA204_MAX_SLOT_NUMBER
    · simp only [atsha_low_challenge_response, atsha_low_challenge_response_mac, if_pos hs,
        and_self]
    · simp only [atsha_low_challenge_response, atsha_low_challenge_response_mac, if_neg hs,
        if_pos hc, and_self]

theorem invalid_arguments_rejected_witness :
    (15 < 16 ∧ 16 < 256 ∧
      atsha_raw_slot_read table_operations zero_word_transport [] 16 ⟨0, []⟩ =
        (Status.ATSHA_ERR_INVALID_INPUT, ⟨0, []⟩, []) ∧
      atsha_raw_slot_write table_operations zero_word_transport [] 16 ⟨0, []⟩ =
        (Status.ATSHA_ERR_INVALID_INPUT, [])) ∧
    ((⟨31, List.replicate 31 0⟩ : atsha_big_int).bytes ≠ 32 ∧
      atsha_low_challenge_response table_operations zero_word_transport [] 16
          ⟨31, List.replicate 31 0⟩ ⟨0, []⟩ true =
        (Status.ATSHA_ERR_INVALID_INPUT, ⟨0, []⟩, []) ∧
      atsha_low_challenge_response_mac table_operations zero_word_transport [] 16
          ⟨31, List.replicate 31 0⟩ ⟨0, []⟩ true =
        (Status.ATSHA_ERR_INVALID_INPUT, ⟨0, []⟩, [])) :=
  ⟨⟨by decide, by decide,
      ((invalid_arguments_rejected table_operations zero_word_transport [] 16 ⟨0, []⟩
        ⟨31, List.replicate 31 0⟩ ⟨0, []⟩ true).2.1 (by decide) (by decide)).1,
      ((invalid_arguments_rejected table_operations zero_word_transport [] 16 ⟨0, []⟩
        ⟨31, List.replicate 31 0⟩ ⟨0, []⟩ true).2.1 (by decide) (by decide)).2.1⟩,
    ⟨by decide,
      ((invalid_arguments_rejected table_operations zero_word_transport [] 16 ⟨0, []⟩
        ⟨31, List.replicate 31 0⟩ ⟨0, []⟩ true).2.2 (by decide)).1,
      ((invalid_arguments_rejected table_operations zero_word_transport [] 16 ⟨0, []⟩
        ⟨31, List.replicate 31 0⟩ ⟨0, []⟩ true).2.2 (by decide)).2⟩⟩

/-- C11: idle failure is not fatal.  For each of the thirteen operations of api.c the
status, the output and the calls made do not depend on what `idle` returns; and when `wake`
succeeds, every packet is built, every command succeeds and the response decodes, the
operation returns `ATSHA_ERR_OK` together with the decoded output, whatever the status of
the final `idle`. -/
theorem idle_failure_is_not_fatal (ops : DeviceOperations) (t : Transport) (trace : List Call)
    (slot_number address revision : Nat) (number challenge response data : atsha_big_int)
    (use_sn_in_digest : Bool) (crc : Nat × Nat) :
    (∀ idle : List Call → Status,
      atsha_dev_rev ops ⟨t.wake, t.command, idle⟩ trace revision =
      atsha_dev_rev ops t trace revision ∧
      atsha_random ops ⟨t.wake, t.command, idle⟩ trace number =
      atsha_random ops t trace number ∧
      atsha_raw_slot_read ops.toOperations ⟨t.wake, t.command, idle⟩ trace
          slot_number number =
      atsha_raw_slot_read ops.toOperations t trace slot_number number ∧
      atsha_raw_slot_write ops.toOperations ⟨t.wake, t.command, idle⟩ trace
          slot_number number =
      atsha_raw_slot_write ops.toOperations t trace slot_number number ∧
      atsha_low_challenge_response ops.toOperations ⟨t.wake, t.command, idle⟩ trace
          slot_number challenge response use_sn_in_digest =
      atsha_low_challenge_response ops.toOperations t trace
          slot_number challenge response use_sn_in_digest ∧
      atsha_low_challenge_response_mac ops.toOperations ⟨t.wake, t.command, idle⟩ trace
          slot_number challenge response use_sn_in_digest =
      atsha_low_challenge_response_mac ops.toOperations t trace
          slot_number challenge response use_sn_in_digest ∧
      atsha_chip_serial_number ops ⟨t.wake, t.command, idle⟩ trace number =
      atsha_chip_serial_number ops t trace number ∧
      atsha_raw_conf_read ops.toOperations ⟨t.wake, t.command, idle⟩ trace
          address data =
      atsha_raw_conf_read ops.toOperations t trace address data ∧
      atsha_raw_conf_write ops.toOperations ⟨t.wake, t.command, idle⟩ trace
          address data =
      atsha_raw_conf_write ops.toOperations t trace address data ∧
      atsha_raw_otp_read ops ⟨t.wake, t.command, idle⟩ trace address data =
      atsha_raw_otp_read ops t trace address data ∧
      atsha_raw_otp_write ops ⟨t.wake, t.command, idle⟩ trace address data =
      atsha_raw_otp_write ops t trace address data ∧
      atsha_lock_config ops ⟨t.wake, t.command, idle⟩ trace crc =
      atsha_lock_config ops t trace crc ∧
      atsha_lock_data ops ⟨t.wake, t.command, idle⟩ trace crc =
      atsha_lock_data ops t trace crc) ∧
    (t.wake trace = Status.ATSHA_ERR_OK →
     (∀ packet,
      ops.op_dev_rev = some packet →
      (t.command (trace ++ [Call.wake]) packet).1 = Status.ATSHA_ERR_OK →
      atsha_dev_rev ops t trace revision =
        (Status.ATSHA_ERR_OK, ops.op_dev_rev_recv (t.command (trace ++ [Call.wake]) packet).2, 
          trace ++ [Call.wake, Call.command packet, Call.idle])) ∧
     (∀ packet,
      ops.op_random = some packet →
      (t.command (trace ++ [Call.wake]) packet).1 = Status.ATSHA_ERR_OK →
      (ops.op_random_recv (t.command (trace ++ [Call.wake]) packet).2 number.data).1 ≠ 0 →
      atsha_random ops t trace number =
        (Status.ATSHA_ERR_OK, ⟨(ops.op_random_recv (t.command (trace ++ [Call.wake]) packet).2 number.data).1, (ops.op_random_recv (t.command (trace ++ [Call.wake]) packet).2 number.data).2⟩, 
          trace ++ [Call.wake, Call.command packet, Call.idle])) ∧
     (∀ packet,
      slot_number % 256 ≤ ATSHA204_MAX_SLOT_NUMBER →
      ops.op_raw_read (ops.get_zone_config ops.IO_MEM_DATA ops.IO_RW_NON_ENC ops.IO_RW_32_BYTES)
          (ops.get_slot_address (slot_number % 256)) = some packet →
      (t.command (trace ++ [Call.wake]) packet).1 = Status.ATSHA_ERR_OK →
      (ops.op_raw_read_recv (t.command (trace ++ [Call.wake]) packet).2 number.data).1 ≠ 0 →
      atsha_raw_slot_read ops.toOperations t trace slot_number number =
        (Status.ATSHA_ERR_OK, ⟨(ops.op_raw_read_recv (t.command (trace ++ [Call.wake]) packet).2 number.data).1, (ops.op_raw_read_recv (t.command (trace ++ [Call.wake]) packet).2 number.data).2⟩, 
          trace ++ [Call.wake, Call.command packet, Call.idle])) ∧
     (∀ packet,
      slot_number % 256 ≤ ATSHA204_MAX_SLOT_NUMBER →
      ops.op_raw_write (ops.get_zone_config ops.IO_MEM_DATA ops.IO_RW_NON_ENC ops.IO_RW_32_BYTES)
          (ops.get_slot_address (slot_number % 256)) number.bytes number.data = some packet →
      (t.command (trace ++ [Call.wake]) packet).1 = Status.ATSHA_ERR_OK →
      ops.op_raw_write_recv (t.command (trace ++ [Call.wake]) packet).2 = Status.ATSHA_ERR_OK →
      atsha_raw_slot_write ops.toOperations t trace slot_number number =
        (Status.ATSHA_ERR_OK, 
          trace ++ [Call.wake, Call.command packet, Call.idle])) ∧
     (∀ p1 p2,
      slot_number % 256 ≤ ATSHA204_MAX_SLOT_NUMBER →
      challenge.bytes = 32 →
      ops.op_nonce challenge.bytes challenge.data = some p1 →
      (t.command (trace ++ [Call.wake]) p1).1 = Status.ATSHA_ERR_OK →
      ops.op_nonce_recv (t.command (trace ++ [Call.wake]) p1).2 = Status.ATSHA_ERR_OK →
      ops.op_hmac (slot_number % 256) use_sn_in_digest = some p2 →
      (t.command (trace ++ [Call.wake, Call.command p1]) p2).1 = Status.ATSHA_ERR_OK →
      (ops.op_hmac_recv (t.command (trace ++ [Call.wake, Call.command p1]) p2).2 response.data).1 ≠ 0 →
      atsha_low_challenge_response ops.toOperations t trace
          slot_number challenge response use_sn_in_digest =
        (Status.ATSHA_ERR_OK, ⟨(ops.op_hmac_recv (t.command (trace ++ [Call.wake, Call.command p1]) p2).2 response.data).1, (ops.op_hmac_recv (t.command (trace ++ [Call.wake, Call.command p1]) p2).2 response.data).2⟩,
          trace ++ [Call.wake, Call.command p1, Call.command p2, Call.idle])) ∧
     (∀ packet,
      slot_number % 256 ≤ ATSHA204_MAX_SLOT_NUMBER →
      challenge.bytes = 32 →
      ops.op_mac (slot_number % 256) challenge.bytes challenge.data use_sn_in_digest = some packet →
      (t.command (trace ++ [Call.wake]) packet).1 = Status.ATSHA_ERR_OK →
      (ops.op_mac_recv (t.command (trace ++ [Call.wake]) packet).2 response.data).1 ≠ 0 →
      atsha_low_challenge_response_mac ops.toOperations t trace
          slot_number challenge response use_sn_in_digest =
        (Status.ATSHA_ERR_OK, ⟨(ops.op_mac_recv (t.command (trace ++ [Call.wake]) packet).2 response.data).1, (ops.op_mac_recv (t.command (trace ++ [Call.wake]) packet).2 response.data).2⟩, 
          trace ++ [Call.wake, Call.command packet, Call.idle])) ∧
     (∀ packet,
      ops.op_serial_number = some packet →
      (t.command (trace ++ [Call.wake]) packet).1 = Status.ATSHA_ERR_OK →
      (ops.op_serial_number_recv (t.command (trace ++ [Call.wake]) packet).2 number.data).1 ≠ 0 →
      atsha_chip_serial_number ops t trace number =
        (Status.ATSHA_ERR_OK, ⟨(ops.op_serial_number_recv (t.command (trace ++ [Call.wake]) packet).2 number.data).1, (ops.op_serial_number_recv (t.command (trace ++ [Call.wake]) packet).2 number.data).2⟩, 
          trace ++ [Call.wake, Call.command packet, Call.idle])) ∧
     (∀ packet,
      ops.op_raw_read (ops.get_zone_config ops.IO_MEM_CONFIG ops.IO_RW_NON_ENC ops.IO_RW_4_BYTES)
          (address % 256) = some packet →
      (t.command (trace ++ [Call.wake]) packet).1 = Status.ATSHA_ERR_OK →
      (ops.op_raw_read_recv (t.command (trace ++ [Call.wake]) packet).2 data.data).1 ≠ 0 →
      atsha_raw_conf_read ops.toOperations t trace address data =
        (Status.ATSHA_ERR_OK, ⟨(ops.op_raw_read_recv (t.command (trace ++ [Call.wake]) packet).2 data.data).1, (ops.op_raw_read_recv (t.command (trace ++ [Call.wake]) packet).2 data.data).2⟩, 
          trace ++ [Call.wake, Call.command packet, Call.idle])) ∧
     (∀ packet,
      ops.op_raw_write (ops.get_zone_config ops.IO_MEM_CONFIG ops.IO_RW_NON_ENC ops.IO_RW_4_BYTES)
          (address % 256) data.bytes data.data = some packet →
      (t.command (trace ++ [Call.wake]) packet).1 = Status.ATSHA_ERR_OK →
      ops.op_raw_write_recv (t.command (trace ++ [Call.wake]) packet).2 = Status.ATSHA_ERR_OK →
      atsha_raw_conf_write ops.toOperations t trace address data =
        (Status.ATSHA_ERR_OK, 
          trace ++ [Call.wake, Call.command packet, Call.idle])) ∧
     (∀ packet,
      ops.op_raw_read (ops.get_zone_config ops.IO_MEM_OTP ops.IO_RW_NON_ENC ops.IO_RW_4_BYTES)
          (address % 256) = some packet →
      (t.command (trace ++ [Call.wake]) packet).1 = Status.ATSHA_ERR_OK →
      (ops.op_raw_read_recv (t.command (trace ++ [Call.wake]) packet).2 data.data).1 ≠ 0 →
      atsha_raw_otp_read ops t trace address data =
        (Status.ATSHA_ERR_OK, ⟨(ops.op_raw_read_recv (t.command (trace ++ [Call.wake]) packet).2 data.data).1, (ops.op_raw_read_recv (t.command (trace ++ [Call.wake]) packet).2 data.data).2⟩, 
          trace ++ [Call.wake, Call.command packet, Call.idle])) ∧
     (∀ packet,
      ops.op_raw_write (ops.get_zone_config ops.IO_MEM_OTP ops.IO_RW_NON_ENC ops.IO_RW_4_BYTES)
          (address % 256) data.bytes data.data = some packet →
      (t.command (trace ++ [Call.wake]) packet).1 = Status.ATSHA_ERR_OK →
      ops.op_raw_write_recv (t.command (trace ++ [Call.wake]) packet).2 = Status.ATSHA_ERR_OK →
      atsha_raw_otp_write ops t trace address data =
        (Status.ATSHA_ERR_OK, 
          trace ++ [Call.wake, Call.command packet, Call.idle])) ∧
     (∀ packet,
      ops.op_lock (ops.get_lock_config ops.LOCK_CONFIG) crc = some packet →
      (t.command (trace ++ [Call.wake]) packet).1 = Status.ATSHA_ERR_OK →
      ops.op_lock_recv (t.command (trace ++ [Call.wake]) packet).2 = Status.ATSHA_ERR_OK →
      atsha_lock_config ops t trace crc =
        (Status.ATSHA_ERR_OK, 
          trace ++ [Call.wake, Call.command packet, Call.idle])) ∧
     (∀ packet,
      ops.op_lock (ops.get_lock_config ops.LOCK_DATA) crc = some packet →
      (t.command (trace ++ [Call.wake]) packet).1 = Status.ATSHA_ERR_OK →
      ops.op_lock_recv (t.command (trace ++ [Call.wake]) packet).2 = Status.ATSHA_ERR_OK →
      atsha_lock_data ops t trace crc =
        (Status.ATSHA_ERR_OK, 
          trace ++ [Call.wake, Call.command packet, Call.idle]))) := by
  refine ⟨fun idle => ⟨rfl, rfl, rfl, rfl, rfl, rfl, rfl, rfl, rfl, rfl, rfl, rfl, rfl⟩, fun hw => ?_⟩
  refine ⟨?_, ?_, ?_, ?_, ?_, ?_, ?_, ?_, ?_, ?_, ?_, ?_, ?_⟩
  · intro packet hp hc
    simp [atsha_dev_rev, hw, hp, hc]
  · intro packet hp hc hd
    simp [atsha_random, hw, hp, hc, hd]
  · intro packet hs hp hc hd
    have hs' : ¬ slot_number % 256 > ATSHA204_MAX_SLOT_NUMBER := Nat.not_lt.mpr hs
    simp [atsha_raw_slot_read, hw, hp, hc, hd, hs']
  · intro packet hs hp hc hd
    have hs' : ¬ slot_number % 256 > ATSHA204_MAX_SLOT_NUMBER := Nat.not_lt.mpr hs
    simp [atsha_raw_slot_write, hw, hp, hc, hd, hs']
  · intro p1 p2 hs hb h1 h2 h3 h4 h5 h6
    rw [hb] at h1
    have hs' : ¬ slot_number % 256 > ATSHA204_MAX_SLOT_NUMBER := Nat.not_lt.mpr hs
    simp [atsha_low_challenge_response, hw, h1, h2, h3, h4, h5, h6, hs', hb]
  · intro packet hs hb hp hc hd
    rw [hb] at hp
    have hs' : ¬ slot_number % 256 > ATSHA204_MAX_SLOT_NUMBER := Nat.not_lt.mpr hs
    simp [atsha_low_challenge_response_mac, hw, hp, hc, hd, hs', hb]
  · intro packet hp hc hd
    simp [atsha_chip_serial_number, hw, hp, hc, hd]
  · intro packet hp hc hd
    simp [atsha_raw_conf_read, hw, hp, hc, hd]
  · intro packet hp hc hd
    simp [atsha_raw_conf_write, hw, hp, hc, hd]
  · intro packet hp hc hd
    simp [atsha_raw_otp_read, hw, hp, hc, hd]
  · intro packet hp hc hd
    simp [atsha_raw_otp_write, hw, hp, hc, hd]
  · intro packet hp hc hd
    simp [atsha_lock_config, hw, hp, hc, hd]
  · intro packet hp hc hd
    simp [atsha_lock_data, hw, hp, hc, hd]

set_option maxRecDepth 100000 in
theorem idle_failure_is_not_fatal_witness :
    (∀ calls, idle_failing_transport.idle calls = Status.ATSHA_ERR_COMMUNICATION) ∧
    idle_failing_transport.wake [] = Status.ATSHA_ERR_OK ∧
    (atsha_dev_rev table_device_operations idle_failing_transport []
        0).1 = Status.ATSHA_ERR_OK ∧
    (atsha_random table_device_operations idle_failing_transport []
        ⟨32, List.replicate 32 0⟩).1 = Status.ATSHA_ERR_OK ∧
    (atsha_raw_slot_read table_device_operations.toOperations idle_failing_transport []
        3 ⟨32, List.replicate 32 0⟩).1 = Status.ATSHA_ERR_OK ∧
    (atsha_raw_slot_write table_device_operations.toOperations idle_failing_transport []
        3 ⟨32, List.replicate 32 0⟩).1 = Status.ATSHA_ERR_OK ∧
    (atsha_low_challenge_response table_device_operations.toOperations idle_failing_transport []
        3 ⟨32, List.replicate 32 7⟩ ⟨32, List.replicate 32 0⟩ true).1 = Status.ATSHA_ERR_OK ∧
    (atsha_low_challenge_response_mac table_device_operations.toOperations idle_failing_transport []
        3 ⟨32, List.replicate 32 7⟩ ⟨32, List.replicate 32 0⟩ true).1 = Status.ATSHA_ERR_OK ∧
    (atsha_chip_serial_number table_device_operations idle_failing_transport []
        ⟨32, List.replicate 32 0⟩).1 = Status.ATSHA_ERR_OK ∧
    (atsha_raw_conf_read table_device_operations.toOperations idle_failing_transport []
        2 ⟨4, [1, 2, 3, 4]⟩).1 = Status.ATSHA_ERR_OK ∧
    (atsha_raw_conf_write table_device_operations.toOperations idle_failing_transport []
        2 ⟨4, [1, 2, 3, 4]⟩).1 = Status.ATSHA_ERR_OK ∧
    (atsha_raw_otp_read table_device_operations idle_failing_transport []
        2 ⟨4, [1, 2, 3, 4]⟩).1 = Status.ATSHA_ERR_OK ∧
    (atsha_raw_otp_write table_device_operations idle_failing_transport []
        2 ⟨4, [1, 2, 3, 4]⟩).1 = Status.ATSHA_ERR_OK ∧
    (atsha_lock_config table_device_operations idle_failing_transport []
        (0x12, 0x34)).1 = Status.ATSHA_ERR_OK ∧
    (atsha_lock_data table_device_operations idle_failing_transport []
        (0x12, 0x34)).1 = Status.ATSHA_ERR_OK :=
  ⟨fun _ => rfl,
   rfl,
   congrArg Prod.fst (((idle_failure_is_not_fatal table_device_operations idle_failing_transport [] 3 2 0 ⟨32, List.replicate 32 0⟩
      ⟨32, List.replicate 32 7⟩ ⟨32, List.replicate 32 0⟩ ⟨4, [1, 2, 3, 4]⟩ true (0x12, 0x34)).2 rfl).1
      _  rfl (by decide)),
   congrArg Prod.fst (((idle_failure_is_not_fatal table_device_operations idle_failing_transport [] 3 2 0 ⟨32, List.replicate 32 0⟩
      ⟨32, List.replicate 32 7⟩ ⟨32, List.replicate 32 0⟩ ⟨4, [1, 2, 3, 4]⟩ true (0x12, 0x34)).2 rfl).2.1
      _  rfl (by decide) (by decide)),
   congrArg Prod.fst (((idle_failure_is_not_fatal table_device_operations idle_failing_transport [] 3 2 0 ⟨32, List.replicate 32 0⟩
      ⟨32, List.replicate 32 7⟩ ⟨32, List.replicate 32 0⟩ ⟨4, [1, 2, 3, 4]⟩ true (0x12, 0x34)).2 rfl).2.2.1
      _ (by decide) rfl (by decide) (by decide)),
   congrArg Prod.fst (((idle_failure_is_not_fatal table_device_operations idle_failing_transport [] 3 2 0 ⟨32, List.replicate 32 0⟩
      ⟨32, List.replicate 32 7⟩ ⟨32, List.replicate 32 0⟩ ⟨4, [1, 2, 3, 4]⟩ true (0x12, 0x34)).2 rfl).2.2.2.1
      _ (by decide) rfl (by decide) (by decide)),
   congrArg Prod.fst (((idle_failure_is_not_fatal table_device_operations idle_failing_transport [] 3 2 0 ⟨32, List.replicate 32 0⟩
      ⟨32, List.replicate 32 7⟩ ⟨32, List.replicate 32 0⟩ ⟨4, [1, 2, 3, 4]⟩ true (0x12, 0x34)).2 rfl).2.2.2.2.1
      _ _ (by decide) rfl rfl (by decide) (by decide) rfl (by decide) (by decide)),
   congrArg Prod.fst (((idle_failure_is_not_fatal table_device_operations idle_failing_transport [] 3 2 0 ⟨32, List.replicate 32 0⟩
      ⟨32, List.replicate 32 7⟩ ⟨32, List.replicate 32 0⟩ ⟨4, [1, 2, 3, 4]⟩ true (0x12, 0x34)).2 rfl).2.2.2.2.2.1
      _ (by decide) rfl rfl (by decide) (by decide)),
   congrArg Prod.fst (((idle_failure_is_not_fatal table_device_operations idle_failing_transport [] 3 2 0 ⟨32, List.replicate 32 0⟩
      ⟨32, List.replicate 32 7⟩ ⟨32, List.replicate 32 0⟩ ⟨4, [1, 2, 3, 4]⟩ true (0x12, 0x34)).2 rfl).2.2.2.2.2.2.1
      _  rfl (by decide) (by decide)),
   congrArg Prod.fst (((idle_failure_is_not_fatal table_device_operations idle_failing_transport [] 3 2 0 ⟨32, List.replicate 32 0⟩
      ⟨32, List.replicate 32 7⟩ ⟨32, List.replicate 32 0⟩ ⟨4, [1, 2, 3, 4]⟩ true (0x12, 0x34)).2 rfl).2.2.2.2.2.2.2.1
      _  rfl (by decide) (by decide)),
   congrArg Prod.fst (((idle_failure_is_not_fatal table_device_operations idle_failing_transport [] 3 2 0 ⟨32, List.replicate 32 0⟩
      ⟨32, List.replicate 32 7⟩ ⟨32, List.replicate 32 0⟩ ⟨4, [1, 2, 3, 4]⟩ true (0x12, 0x34)).2 rfl).2.2.2.2.2.2.2.2.1
      _  rfl (by decide) (by decide)),
   congrArg Prod.fst (((idle_failure_is_not_fatal table_device_operations idle_failing_transport [] 3 2 0 ⟨32, List.replicate 32 0⟩
      ⟨32, List.replicate 32 7⟩ ⟨32, List.replicate 32 0⟩ ⟨4, [1, 2, 3, 4]⟩ true (0x12, 0x34)).2 rfl).2.2.2.2.2.2.2.2.2.1
      _  rfl (by decide) (by decide)),
   congrArg Prod.fst (((idle_failure_is_not_fatal table_device_operations idle_failing_transport [] 3 2 0 ⟨32, List.replicate 32 0⟩
      ⟨32, List.replicate 32 7⟩ ⟨32, List.replicate 32 0⟩ ⟨4, [1, 2, 3, 4]⟩ true (0x12, 0x34)).2 rfl).2.2.2.2.2.2.2.2.2.2.1
      _  rfl (by decide) (by decide)),
   congrArg Prod.fst (((idle_failure_is_not_fatal table_device_operations idle_failing_transport [] 3 2 0 ⟨32, List.replicate 32 0⟩
      ⟨32, List.replicate 32 7⟩ ⟨32, List.replicate 32 0⟩ ⟨4, [1, 2, 3, 4]⟩ true (0x12, 0x34)).2 rfl).2.2.2.2.2.2.2.2.2.2.2.1
      _  rfl (by decide) (by decide)),
   congrArg Prod.fst (((idle_failure_is_not_fatal table_device_operations idle_failing_transport [] 3 2 0 ⟨32, List.replicate 32 0⟩
      ⟨32, List.replicate 32 7⟩ ⟨32, List.replicate 32 0⟩ ⟨4, [1, 2, 3, 4]⟩ true (0x12, 0x34)).2 rfl).2.2.2.2.2.2.2.2.2.2.2.2
      _  rfl (by decide) (by decide))⟩

set_option maxRecDepth 100000 in
/-- Claim C12, counterexample: with `USE_OUR_SN`, on a device that can be woken only once,
`atsha_serial_number` returns the status of the second wake after a wake, a command and an
idle were made: wake was invoked twice and a command was sent before the failure. -/
theorem serial_number_wakes_twice :
    single_wake_transport.wake [Call.wake, Call.command [7, 2, 1, 0, 0, 29, 167], Call.idle] =
      Status.ATSHA_ERR_WAKE_NOT_CONFIRMED ∧
    (atsha_serial_number true table_device_operations single_wake_transport []
      ⟨0, List.replicate 32 0⟩ ⟨0, List.replicate 32 9⟩).1 =
      Status.ATSHA_ERR_WAKE_NOT_CONFIRMED ∧
    (atsha_serial_number true table_device_operations single_wake_transport []
      ⟨0, List.replicate 32 0⟩ ⟨0, List.replicate 32 9⟩).2.2 =
      [Call.wake, Call.command [7, 2, 1, 0, 0, 29, 167], Call.idle, Call.wake] := by
  decide

/-- An OTP read that returns `ATSHA_ERR_OK` has made exactly the calls wake, command and
idle. -/
theorem atsha_raw_otp_read_ok (ops : DeviceOperations) (t : Transport) (trace : List Call)
    (address : Nat) (data : atsha_big_int)
    (h : (atsha_raw_otp_read ops t trace address data).1 = Status.ATSHA_ERR_OK) :
    ∃ packet, (atsha_raw_otp_read ops t trace address data).2.2 =
      trace ++ [Call.wake, Call.command packet, Call.idle] := by
  unfold atsha_raw_otp_read at h ⊢
  by_cases hw : t.wake trace = Status.ATSHA_ERR_OK
  · cases hp : ops.op_raw_read
        (ops.get_zone_config ops.IO_MEM_OTP ops.IO_RW_NON_ENC ops.IO_RW_4_BYTES)
        (address % 256) with
    | none => simp [hw, hp] at h
    | some packet =>
      by_cases hc : (t.command (trace ++ [Call.wake]) packet).1 = Status.ATSHA_ERR_OK
      · by_cases hb : (ops.op_raw_read_recv (t.command (trace ++ [Call.wake]) packet).2
            data.data).1 = 0
        · simp [hw, hp, hc, hb] at h
        · exact ⟨packet, by simp [hw, hp, hc, hb]⟩
      · simp [hw, hp, hc] at h
  · simp [hw] at h

/-- Claim C12, amended: the first transport failure propagates without retry, bracket by
bracket.  In each of the thirteen operations of api.c that make one wake, command, idle
bracket (for the four that validate their arguments: once the arguments are valid), if
`wake` returns a status `e` other than `ATSHA_ERR_OK` the operation returns `e` having made
the single call `wake`; if a command returns a status `e` other than `ATSHA_ERR_OK` the
operation returns `e`, and the calls made are `wake` once, the commands that succeeded
before and the failing command once: no further command, no idle.  The output buffer is
left as it was.  The function `atsha_serial_number` is `atsha_chip_serial_number` without
`USE_OUR_SN`; with it, it makes two brackets: a failure of the first read is returned with
the calls of that read only, and after a first read that succeeded, with its wake, command
and idle, a failing second wake or second command is returned with one more wake, and the
failing command, and nothing after.  The four functions that find their slot are their raw
functions once a slot is found. -/
theorem first_failure_propagates (ops : DeviceOperations)
    (slot_number address revision : Nat) (number challenge response data : atsha_big_int)
    (use_sn_in_digest : Bool) (crc : Nat × Nat) :
    (∀ (t : Transport) (trace : List Call) (e : Status),
      t.wake trace = e → e ≠ Status.ATSHA_ERR_OK →
     (atsha_dev_rev ops t trace revision =
        (e, revision, trace ++ [Call.wake])) ∧
     (atsha_random ops t trace number =
        (e, number, trace ++ [Call.wake])) ∧
     (slot_number % 256 ≤ ATSHA204_MAX_SLOT_NUMBER →
      atsha_raw_slot_read ops.toOperations t trace slot_number number =
        (e, number, trace ++ [Call.wake])) ∧
     (slot_number % 256 ≤ ATSHA204_MAX_SLOT_NUMBER →
      atsha_raw_slot_write ops.toOperations t trace slot_number number =
        (e, trace ++ [Call.wake])) ∧
     (slot_number % 256 ≤ ATSHA204_MAX_SLOT_NUMBER →
      challenge.bytes = 32 →
      atsha_low_challenge_response ops.toOperations t trace
          slot_number challenge response use_sn_in_digest =
        (e, response, trace ++ [Call.wake])) ∧
     (slot_number % 256 ≤ ATSHA204_MAX_SLOT_NUMBER →
      challenge.bytes = 32 →
      atsha_low_challenge_response_mac ops.toOperations t trace
          slot_number challenge response use_sn_in_digest =
        (e, response, trace ++ [Call.wake])) ∧
     (atsha_chip_serial_number ops t trace number =
        (e, number, trace ++ [Call.wake])) ∧
     (atsha_raw_conf_read ops.toOperations t trace address data =
        (e, data, trace ++ [Call.wake])) ∧
     (atsha_raw_conf_write ops.toOperations t trace address data =
        (e, trace ++ [Call.wake])) ∧
     (atsha_raw_otp_read ops t trace address data =
        (e, data, trace ++ [Call.wake])) ∧
     (atsha_raw_otp_write ops t trace address data =
        (e, trace ++ [Call.wake])) ∧
     (atsha_lock_config ops t trace crc =
        (e, trace ++ [Call.wake])) ∧
     (atsha_lock_data ops t trace crc =
        (e, trace ++ [Call.wake]))) ∧
    (∀ (t : Transport) (trace : List Call) (e : Status),
      t.wake trace = Status.ATSHA_ERR_OK → e ≠ Status.ATSHA_ERR_OK →
     (∀ packet,
      ops.op_dev_rev = some packet →
      (t.command (trace ++ [Call.wake]) packet).1 = e →
      atsha_dev_rev ops t trace revision =
        (e, revision, trace ++ [Call.wake, Call.command packet])) ∧
     (∀ packet,
      ops.op_random = some packet →
      (t.command (trace ++ [Call.wake]) packet).1 = e →
      atsha_random ops t trace number =
        (e, number, trace ++ [Call.wake, Call.command packet])) ∧
     (∀ packet,
      slot_number % 256 ≤ ATSHA204_MAX_SLOT_NUMBER →
      ops.op_raw_read (ops.get_zone_config ops.IO_MEM_DATA ops.IO_RW_NON_ENC ops.IO_RW_32_BYTES)
          (ops.get_slot_address (slot_number % 256)) = some packet →
      (t.command (trace ++ [Call.wake]) packet).1 = e →
      atsha_raw_slot_read ops.toOperations t trace slot_number number =
        (e, number, trace ++ [Call.wake, Call.command packet])) ∧
     (∀ packet,
      slot_number % 256 ≤ ATSHA204_MAX_SLOT_NUMBER →
      ops.op_raw_write (ops.get_zone_config ops.IO_MEM_DATA ops.IO_RW_NON_ENC ops.IO_RW_32_BYTES)
          (ops.get_slot_address (slot_number % 256)) number.bytes number.data = some packet →
      (t.command (trace ++ [Call.wake]) packet).1 = e →
      atsha_raw_slot_write ops.toOperations t trace slot_number number =
        (e, trace ++ [Call.wake, Call.command packet])) ∧
     (∀ p1,
      slot_number % 256 ≤ ATSHA204_MAX_SLOT_NUMBER →
      challenge.bytes = 32 →
      ops.op_nonce challenge.bytes challenge.data = some p1 →
      (t.command (trace ++ [Call.wake]) p1).1 = e →
      atsha_low_challenge_response ops.toOperations t trace
          slot_number challenge response use_sn_in_digest =
        (e, response, trace ++ [Call.wake, Call.command p1])) ∧
     (∀ p1 p2,
      slot_number % 256 ≤ ATSHA204_MAX_SLOT_NUMBER →
      challenge.bytes = 32 →
      ops.op_nonce challenge.bytes challenge.data = some p1 →
      (t.command (trace ++ [Call.wake]) p1).1 = Status.ATSHA_ERR_OK →
      ops.op_nonce_recv (t.command (trace ++ [Call.wake]) p1).2 = Status.ATSHA_ERR_OK →
      ops.op_hmac (slot_number % 256) use_sn_in_digest = some p2 →
      (t.command (trace ++ [Call.wake, Call.command p1]) p2).1 = e →
      atsha_low_challenge_response ops.toOperations t trace
          slot_number challenge response use_sn_in_digest =
        (e, response, trace ++ [Call.wake, Call.command p1, Call.command p2])) ∧
     (∀ packet,
      slot_number % 256 ≤ ATSHA204_MAX_SLOT_NUMBER →
      challenge.bytes = 32 →
      ops.op_mac (slot_number % 256) challenge.bytes challenge.data use_sn_in_digest = some packet →
      (t.command (trace ++ [Call.wake]) packet).1 = e →
      atsha_low_challenge_response_mac ops.toOperations t trace
          slot_number challenge response use_sn_in_digest =
        (e, response, trace ++ [Call.wake, Call.command packet])) ∧
     (∀ packet,
      ops.op_serial_number = some packet →
      (t.command (trace ++ [Call.wake]) packet).1 = e →
      atsha_chip_serial_number ops t trace number =
        (e, number, trace ++ [Call.wake, Call.command packet])) ∧
     (∀ packet,
      ops.op_raw_read (ops.get_zone_config ops.IO_MEM_CONFIG ops.IO_RW_NON_ENC ops.IO_RW_4_BYTES)
          (address % 256) = some packet →
      (t.command (trace ++ [Call.wake]) packet).1 = e →
      atsha_raw_conf_read ops.toOperations t trace address data =
        (e, data, trace ++ [Call.wake, Call.command packet])) ∧
     (∀ packet,
      ops.op_raw_write (ops.get_zone_config ops.IO_MEM_CONFIG ops.IO_RW_NON_ENC ops.IO_RW_4_BYTES)
          (address % 256) data.bytes data.data = some packet →
      (t.command (trace ++ [Call.wake]) packet).1 = e →
      atsha_raw_conf_write ops.toOperations t trace address data =
        (e, trace ++ [Call.wake, Call.command packet])) ∧
     (∀ packet,
      ops.op_raw_read (ops.get_zone_config ops.IO_MEM_OTP ops.IO_RW_NON_ENC ops.IO_RW_4_BYTES)
          (address % 256) = some packet →
      (t.command (trace ++ [Call.wake]) packet).1 = e →
      atsha_raw_otp_read ops t trace address data =
        (e, data, trace ++ [Call.wake, Call.command packet])) ∧
     (∀ packet,
      ops.op_raw_write (ops.get_zone_config ops.IO_MEM_OTP ops.IO_RW_NON_ENC ops.IO_RW_4_BYTES)
          (address % 256) data.bytes data.data = some packet →
      (t.command (trace ++ [Call.wake]) packet).1 = e →
      atsha_raw_otp_write ops t trace address data =
        (e, trace ++ [Call.wake, Call.command packet])) ∧
     (∀ packet,
      ops.op_lock (ops.get_lock_config ops.LOCK_CONFIG) crc = some packet →
      (t.command (trace ++ [Call.wake]) packet).1 = e →
      atsha_lock_config ops t trace crc =
        (e, trace ++ [Call.wake, Call.command packet])) ∧
     (∀ packet,
      ops.op_lock (ops.get_lock_config ops.LOCK_DATA) crc = some packet →
      (t.command (trace ++ [Call.wake]) packet).1 = e →
      atsha_lock_data ops t trace crc =
        (e, trace ++ [Call.wake, Call.command packet]))) ∧
    (∀ (t : Transport) (trace : List Call) (part : atsha_big_int) (e : Status),
      e ≠ Status.ATSHA_ERR_OK →
     (atsha_serial_number false ops t trace part number =
        atsha_chip_serial_number ops t trace number) ∧
     ((serial_first_read ops t trace part).1 = e →
      atsha_serial_number true ops t trace part number =
        (e, number, (serial_first_read ops t trace part).2.2)) ∧
     ((serial_first_read ops t trace part).1 = Status.ATSHA_ERR_OK →
      (∃ packet, (serial_first_read ops t trace part).2.2 =
        trace ++ [Call.wake, Call.command packet, Call.idle]) ∧
      (t.wake (serial_first_read ops t trace part).2.2 = e →
        (atsha_serial_number true ops t trace part number).1 = e ∧
        (atsha_serial_number true ops t trace part number).2.2 =
          (serial_first_read ops t trace part).2.2 ++ [Call.wake]) ∧
      (∀ packet,
        t.wake (serial_first_read ops t trace part).2.2 = Status.ATSHA_ERR_OK →
        ops.op_raw_read (ops.get_zone_config ops.IO_MEM_OTP ops.IO_RW_NON_ENC ops.IO_RW_4_BYTES)
            (ops.ATSHA204_OTP_MEMORY_MAP_SERIAL_NUMBER % 256) = some packet →
        (t.command ((serial_first_read ops t trace part).2.2 ++ [Call.wake]) packet).1 = e →
        (atsha_serial_number true ops t trace part number).1 = e ∧
        (atsha_serial_number true ops t trace part number).2.2 =
          (serial_first_read ops t trace part).2.2 ++ [Call.wake, Call.command packet]))) ∧
    (∀ (t : Transport) (trace : List Call) (found : Nat) (default_use_sn : Bool),
      found % 256 ≠ DNS_ERR_CONST →
     (atsha_slot_read ops.toOperations t trace found number =
        atsha_raw_slot_read ops.toOperations t trace found number) ∧
     (atsha_slot_write ops.toOperations t trace found number =
        atsha_raw_slot_write ops.toOperations t trace found number) ∧
     (atsha_challenge_response default_use_sn ops.toOperations t trace found challenge
          response =
        atsha_low_challenge_response ops.toOperations t trace found challenge response
          default_use_sn) ∧
     (atsha_challenge_response_mac default_use_sn ops.toOperations t trace found challenge
          response =
        atsha_low_challenge_response_mac ops.toOperations t trace found challenge response
          default_use_sn)) := by
  refine ⟨?_, ?_, ?_, ?_⟩
  · intro t trace e hw he
    refine ⟨?_, ?_, ?_, ?_, ?_, ?_, ?_, ?_, ?_, ?_, ?_, ?_, ?_⟩
    · simp [atsha_dev_rev, hw, he]
    · simp [atsha_random, hw, he]
    · intro hs
      have hs' : ¬ slot_number % 256 > ATSHA204_MAX_SLOT_NUMBER := Nat.not_lt.mpr hs
      simp [atsha_raw_slot_read, hw, he, hs']
    · intro hs
      have hs' : ¬ slot_number % 256 > ATSHA204_MAX_SLOT_NUMBER := Nat.not_lt.mpr hs
      simp [atsha_raw_slot_write, hw, he, hs']
    · intro hs hb
      have hs' : ¬ slot_number % 256 > ATSHA204_MAX_SLOT_NUMBER := Nat.not_lt.mpr hs
      simp [atsha_low_challenge_response, hw, he, hs', hb]
    · intro hs hb
      have hs' : ¬ slot_number % 256 > ATSHA204_MAX_SLOT_NUMBER := Nat.not_lt.mpr hs
      simp [atsha_low_challenge_response_mac, hw, he, hs', hb]
    · simp [atsha_chip_serial_number, hw, he]
    · simp [atsha_raw_conf_read, hw, he]
    · simp [atsha_raw_conf_write, hw, he]
    · simp [atsha_raw_otp_read, hw, he]
    · simp [atsha_raw_otp_write, hw, he]
    · simp [atsha_lock_config, hw, he]
    · simp [atsha_lock_data, hw, he]
  · intro t trace e hw he
    refine ⟨?_, ?_, ?_, ?_, ?_, ?_, ?_, ?_, ?_, ?_, ?_, ?_, ?_, ?_⟩
    · intro packet hp hc
      simp [atsha_dev_rev, hw, hp, hc, he]
    · intro packet hp hc
      simp [atsha_random, hw, hp, hc, he]
    · intro packet hs hp hc
      have hs' : ¬ slot_number % 256 > ATSHA204_MAX_SLOT_NUMBER := Nat.not_lt.mpr hs
      simp [atsha_raw_slot_read, hw, hp, hc, he, hs']
    · intro packet hs hp hc
      have hs' : ¬ slot_number % 256 > ATSHA204_MAX_SLOT_NUMBER := Nat.not_lt.mpr hs
      simp [atsha_raw_slot_write, hw, hp, hc, he, hs']
    · intro p1 hs hb h1 h2
      rw [hb] at h1
      have hs' : ¬ slot_number % 256 > ATSHA204_MAX_SLOT_NUMBER := Nat.not_lt.mpr hs
      simp [atsha_low_challenge_response, hw, h1, h2, he, hs', hb]
    · intro p1 p2 hs hb h1 h2 h3 h4 h5
      rw [hb] at h1
      have hs' : ¬ slot_number % 256 > ATSHA204_MAX_SLOT_NUMBER := Nat.not_lt.mpr hs
      simp [atsha_low_challenge_response, hw, h1, h2, h3, h4, h5, he, hs', hb]
    · intro packet hs hb hp hc
      rw [hb] at hp
      have hs' : ¬ slot_number % 256 > ATSHA204_MAX_SLOT_NUMBER := Nat.not_lt.mpr hs
      simp [atsha_low_challenge_response_mac, hw, hp, hc, he, hs', hb]
    · intro packet hp hc
      simp [atsha_chip_serial_number, hw, hp, hc, he]
    · intro packet hp hc
      simp [atsha_raw_conf_read, hw, hp, hc, he]
    · intro packet hp hc
      simp [atsha_raw_conf_write, hw, hp, hc, he]
    · intro packet hp hc
      simp [atsha_raw_otp_read, hw, hp, hc, he]
    · intro packet hp hc
      simp [atsha_raw_otp_write, hw, hp, hc, he]
    · intro packet hp hc
      simp [atsha_lock_config, hw, hp, hc, he]
    · intro packet hp hc
      simp [atsha_lock_data, hw, hp, hc, he]
  · intro t trace part e he
    refine ⟨?_, ?_, ?_⟩
    · simp [atsha_serial_number]
    · intro h1
      unfold serial_first_read at h1
      simp only [atsha_serial_number, if_true, ne_eq, h1, he, not_false_eq_true,
        serial_first_read]
    · intro h1
      refine ⟨atsha_raw_otp_read_ok ops t trace _ part h1, ?_, ?_⟩
      · intro hw
        unfold serial_first_read at h1 hw ⊢
        simp only [atsha_serial_number, if_true]
        generalize atsha_raw_otp_read ops t trace ops.ATSHA204_OTP_MEMORY_MAP_REV_NUMBER
          part = first at h1 hw ⊢
        have h2 : atsha_raw_otp_read ops t first.2.2 ops.ATSHA204_OTP_MEMORY_MAP_SERIAL_NUMBER
            first.2.1 = (e, first.2.1, first.2.2 ++ [Call.wake]) := by
          simp [atsha_raw_otp_read, hw, he]
        simp only [h1, ne_eq, not_true_eq_false, if_false, h2, he, not_false_eq_true, if_true,
          and_self]
      · intro packet hw hp hc
        unfold serial_first_read at h1 hw hc ⊢
        simp only [atsha_serial_number, if_true]
        generalize atsha_raw_otp_read ops t trace ops.ATSHA204_OTP_MEMORY_MAP_REV_NUMBER
          part = first at h1 hw hc ⊢
        have h2 : atsha_raw_otp_read ops t first.2.2 ops.ATSHA204_OTP_MEMORY_MAP_SERIAL_NUMBER
            first.2.1 = (e, first.2.1, first.2.2 ++ [Call.wake, Call.command packet]) := by
          simp [atsha_raw_otp_read, hw, hp, hc, he]
        simp only [h1, ne_eq, not_true_eq_false, if_false, h2, he, not_false_eq_true, if_true,
          and_self]
  · intro t trace found default_use_sn hf
    refine ⟨?_, ?_, ?_, ?_⟩
    · simp [atsha_slot_read, hf, atsha_raw_slot_read]
    · simp [atsha_slot_write, hf, atsha_raw_slot_write]
    · simp [atsha_challenge_response, hf, atsha_low_challenge_response]
    · simp [atsha_challenge_response_mac, hf, atsha_low_challenge_response_mac]

set_option maxRecDepth 100000 in
theorem first_failure_propagates_witness :
    silent_transport.wake [] = Status.ATSHA_ERR_WAKE_NOT_CONFIRMED ∧
    (atsha_dev_rev table_device_operations silent_transport []
        0).1 = Status.ATSHA_ERR_WAKE_NOT_CONFIRMED ∧
    (atsha_random table_device_operations silent_transport []
        ⟨32, List.replicate 32 0⟩).1 = Status.ATSHA_ERR_WAKE_NOT_CONFIRMED ∧
    (atsha_raw_slot_read table_device_operations.toOperations silent_transport []
        3 ⟨32, List.replicate 32 0⟩).1 = Status.ATSHA_ERR_WAKE_NOT_CONFIRMED ∧
    (atsha_raw_slot_write table_device_operations.toOperations silent_transport []
        3 ⟨32, List.replicate 32 0⟩).1 = Status.ATSHA_ERR_WAKE_NOT_CONFIRMED ∧
    (atsha_low_challenge_response table_device_operations.toOperations silent_transport []
        3 ⟨32, List.replicate 32 7⟩ ⟨32, List.replicate 32 0⟩ true).1 = Status.ATSHA_ERR_WAKE_NOT_CONFIRMED ∧
    (atsha_low_challenge_response_mac table_device_operations.toOperations silent_transport []
        3 ⟨32, List.replicate 32 7⟩ ⟨32, List.replicate 32 0⟩ true).1 = Status.ATSHA_ERR_WAKE_NOT_CONFIRMED ∧
    (atsha_chip_serial_number table_device_operations silent_transport []
        ⟨32, List.replicate 32 0⟩).1 = Status.ATSHA_ERR_WAKE_NOT_CONFIRMED ∧
    (atsha_raw_conf_read table_device_operations.toOperations silent_transport []
        2 ⟨4, [1, 2, 3, 4]⟩).1 = Status.ATSHA_ERR_WAKE_NOT_CONFIRMED ∧
    (atsha_raw_conf_write table_device_operations.toOperations silent_transport []
        2 ⟨4, [1, 2, 3, 4]⟩).1 = Status.ATSHA_ERR_WAKE_NOT_CONFIRMED ∧
    (atsha_raw_otp_read table_device_operations silent_transport []
        2 ⟨4, [1, 2, 3, 4]⟩).1 = Status.ATSHA_ERR_WAKE_NOT_CONFIRMED ∧
    (atsha_raw_otp_write table_device_operations silent_transport []
        2 ⟨4, [1, 2, 3, 4]⟩).1 = Status.ATSHA_ERR_WAKE_NOT_CONFIRMED ∧
    (atsha_lock_config table_device_operations silent_transport []
        (0x12, 0x34)).1 = Status.ATSHA_ERR_WAKE_NOT_CONFIRMED ∧
    (atsha_lock_data table_device_operations silent_transport []
        (0x12, 0x34)).1 = Status.ATSHA_ERR_WAKE_NOT_CONFIRMED ∧
    command_failing_transport.wake [] = Status.ATSHA_ERR_OK ∧
    (atsha_dev_rev table_device_operations command_failing_transport []
        0).1 = Status.ATSHA_ERR_COMMUNICATION ∧
    (atsha_random table_device_operations command_failing_transport []
        ⟨32, List.replicate 32 0⟩).1 = Status.ATSHA_ERR_COMMUNICATION ∧
    (atsha_raw_slot_read table_device_operations.toOperations command_failing_transport []
        3 ⟨32, List.replicate 32 0⟩).1 = Status.ATSHA_ERR_COMMUNICATION ∧
    (atsha_raw_slot_write table_device_operations.toOperations command_failing_transport []
        3 ⟨32, List.replicate 32 0⟩).1 = Status.ATSHA_ERR_COMMUNICATION ∧
    (atsha_low_challenge_response table_device_operations.toOperations command_failing_transport []
        3 ⟨32, List.replicate 32 7⟩ ⟨32, List.replicate 32 0⟩ true).1 = Status.ATSHA_ERR_COMMUNICATION ∧
    (atsha_low_challenge_response table_device_operations.toOperations second_command_failing_transport []
        3 ⟨32, List.replicate 32 7⟩ ⟨32, List.replicate 32 0⟩ true).1 = Status.ATSHA_ERR_COMMUNICATION ∧
    (atsha_low_challenge_response_mac table_device_operations.toOperations command_failing_transport []
        3 ⟨32, List.replicate 32 7⟩ ⟨32, List.replicate 32 0⟩ true).1 = Status.ATSHA_ERR_COMMUNICATION ∧
    (atsha_chip_serial_number table_device_operations command_failing_transport []
        ⟨32, List.replicate 32 0⟩).1 = Status.ATSHA_ERR_COMMUNICATION ∧
    (atsha_raw_conf_read table_device_operations.toOperations command_failing_transport []
        2 ⟨4, [1, 2, 3, 4]⟩).1 = Status.ATSHA_ERR_COMMUNICATION ∧
    (atsha_raw_conf_write table_device_operations.toOperations command_failing_transport []
        2 ⟨4, [1, 2, 3, 4]⟩).1 = Status.ATSHA_ERR_COMMUNICATION ∧
    (atsha_raw_otp_read table_device_operations command_failing_transport []
        2 ⟨4, [1, 2, 3, 4]⟩).1 = Status.ATSHA_ERR_COMMUNICATION ∧
    (atsha_raw_otp_write table_device_operations command_failing_transport []
        2 ⟨4, [1, 2, 3, 4]⟩).1 = Status.ATSHA_ERR_COMMUNICATION ∧
    (atsha_lock_config table_device_operations command_failing_transport []
        (0x12, 0x34)).1 = Status.ATSHA_ERR_COMMUNICATION ∧
    (atsha_lock_data table_device_operations command_failing_transport []
        (0x12, 0x34)).1 = Status.ATSHA_ERR_COMMUNICATION ∧
    (atsha_serial_number true table_device_operations single_wake_transport []
        ⟨0, List.replicate 32 0⟩ ⟨32, List.replicate 32 0⟩).1 =
      Status.ATSHA_ERR_WAKE_NOT_CONFIRMED :=
  ⟨rfl,
   congrArg Prod.fst (((first_failure_propagates table_device_operations 3 2 0 ⟨32, List.replicate 32 0⟩
      ⟨32, List.replicate 32 7⟩ ⟨32, List.replicate 32 0⟩ ⟨4, [1, 2, 3, 4]⟩ true (0x12, 0x34)).1 silent_transport [] Status.ATSHA_ERR_WAKE_NOT_CONFIRMED
      rfl (by decide)).1),
   congrArg Prod.fst (((first_failure_propagates table_device_operations 3 2 0 ⟨32, List.replicate 32 0⟩
      ⟨32, List.replicate 32 7⟩ ⟨32, List.replicate 32 0⟩ ⟨4, [1, 2, 3, 4]⟩ true (0x12, 0x34)).1 silent_transport [] Status.ATSHA_ERR_WAKE_NOT_CONFIRMED
      rfl (by decide)).2.1),
   congrArg Prod.fst (((first_failure_propagates table_device_operations 3 2 0 ⟨32, List.replicate 32 0⟩
      ⟨32, List.replicate 32 7⟩ ⟨32, List.replicate 32 0⟩ ⟨4, [1, 2, 3, 4]⟩ true (0x12, 0x34)).1 silent_transport [] Status.ATSHA_ERR_WAKE_NOT_CONFIRMED
      rfl (by decide)).2.2.1 (by decide)),
   congrArg Prod.fst (((first_failure_propagates table_device_operations 3 2 0 ⟨32, List.replicate 32 0⟩
      ⟨32, List.replicate 32 7⟩ ⟨32, List.replicate 32 0⟩ ⟨4, [1, 2, 3, 4]⟩ true (0x12, 0x34)).1 silent_transport [] Status.ATSHA_ERR_WAKE_NOT_CONFIRMED
      rfl (by decide)).2.2.2.1 (by decide)),
   congrArg Prod.fst (((first_failure_propagates table_device_operations 3 2 0 ⟨32, List.replicate 32 0⟩
      ⟨32, List.replicate 32 7⟩ ⟨32, List.replicate 32 0⟩ ⟨4, [1, 2, 3, 4]⟩ true (0x12, 0x34)).1 silent_transport [] Status.ATSHA_ERR_WAKE_NOT_CONFIRMED
      rfl (by decide)).2.2.2.2.1 (by decide) rfl),
   congrArg Prod.fst (((first_failure_propagates table_device_operations 3 2 0 ⟨32, List.replicate 32 0⟩
      ⟨32, List.replicate 32 7⟩ ⟨32, List.replicate 32 0⟩ ⟨4, [1, 2, 3, 4]⟩ true (0x12, 0x34)).1 silent_transport [] Status.ATSHA_ERR_WAKE_NOT_CONFIRMED
      rfl (by decide)).2.2.2.2.2.1 (by decide) rfl),
   congrArg Prod.fst (((first_failure_propagates table_device_operations 3 2 0 ⟨32, List.replicate 32 0⟩
      ⟨32, List.replicate 32 7⟩ ⟨32, List.replicate 32 0⟩ ⟨4, [1, 2, 3, 4]⟩ true (0x12, 0x34)).1 silent_transport [] Status.ATSHA_ERR_WAKE_NOT_CONFIRMED
      rfl (by decide)).2.2.2.2.2.2.1),
   congrArg Prod.fst (((first_failure_propagates table_device_operations 3 2 0 ⟨32, List.replicate 32 0⟩
      ⟨32, List.replicate 32 7⟩ ⟨32, List.replicate 32 0⟩ ⟨4, [1, 2, 3, 4]⟩ true (0x12, 0x34)).1 silent_transport [] Status.ATSHA_ERR_WAKE_NOT_CONFIRMED
      rfl (by decide)).2.2.2.2.2.2.2.1),
   congrArg Prod.fst (((first_failure_propagates table_device_operations 3 2 0 ⟨32, List.replicate 32 0⟩
      ⟨32, List.replicate 32 7⟩ ⟨32, List.replicate 32 0⟩ ⟨4, [1, 2, 3, 4]⟩ true (0x12, 0x34)).1 silent_transport [] Status.ATSHA_ERR_WAKE_NOT_CONFIRMED
      rfl (by decide)).2.2.2.2.2.2.2.2.1),
   congrArg Prod.fst (((first_failure_propagates table_device_operations 3 2 0 ⟨32, List.replicate 32 0⟩
      ⟨32, List.replicate 32 7⟩ ⟨32, List.replicate 32 0⟩ ⟨4, [1, 2, 3, 4]⟩ true (0x12, 0x34)).1 silent_transport [] Status.ATSHA_ERR_WAKE_NOT_CONFIRMED
      rfl (by decide)).2.2.2.2.2.2.2.2.2.1),
   congrArg Prod.fst (((first_failure_propagates table_device_operations 3 2 0 ⟨32, List.replicate 32 0⟩
      ⟨32, List.replicate 32 7⟩ ⟨32, List.replicate 32 0⟩ ⟨4, [1, 2, 3, 4]⟩ true (0x12, 0x34)).1 silent_transport [] Status.ATSHA_ERR_WAKE_NOT_CONFIRMED
      rfl (by decide)).2.2.2.2.2.2.2.2.2.2.1),
   congrArg Prod.fst (((first_failure_propagates table_device_operations 3 2 0 ⟨32, List.replicate 32 0⟩
      ⟨32, List.replicate 32 7⟩ ⟨32, List.replicate 32 0⟩ ⟨4, [1, 2, 3, 4]⟩ true (0x12, 0x34)).1 silent_transport [] Status.ATSHA_ERR_WAKE_NOT_CONFIRMED
      rfl (by decide)).2.2.2.2.2.2.2.2.2.2.2.1),
   congrArg Prod.fst (((first_failure_propagates table_device_operations 3 2 0 ⟨32, List.replicate 32 0⟩
      ⟨32, List.replicate 32 7⟩ ⟨32, List.replicate 32 0⟩ ⟨4, [1, 2, 3, 4]⟩ true (0x12, 0x34)).1 silent_transport [] Status.ATSHA_ERR_WAKE_NOT_CONFIRMED
      rfl (by decide)).2.2.2.2.2.2.2.2.2.2.2.2),
   rfl,
   congrArg Prod.fst (((first_failure_propagates table_device_operations 3 2 0 ⟨32, List.replicate 32 0⟩
      ⟨32, List.replicate 32 7⟩ ⟨32, List.replicate 32 0⟩ ⟨4, [1, 2, 3, 4]⟩ true (0x12, 0x34)).2.1 command_failing_transport [] Status.ATSHA_ERR_COMMUNICATION
      rfl (by decide)).1
      _  rfl rfl),
   congrArg Prod.fst (((first_failure_propagates table_device_operations 3 2 0 ⟨32, List.replicate 32 0⟩
      ⟨32, List.replicate 32 7⟩ ⟨32, List.replicate 32 0⟩ ⟨4, [1, 2, 3, 4]⟩ true (0x12, 0x34)).2.1 command_failing_transport [] Status.ATSHA_ERR_COMMUNICATION
      rfl (by decide)).2.1
      _  rfl rfl),
   congrArg Prod.fst (((first_failure_propagates table_device_operations 3 2 0 ⟨32, List.replicate 32 0⟩
      ⟨32, List.replicate 32 7⟩ ⟨32, List.replicate 32 0⟩ ⟨4, [1, 2, 3, 4]⟩ true (0x12, 0x34)).2.1 command_failing_transport [] Status.ATSHA_ERR_COMMUNICATION
      rfl (by decide)).2.2.1
      _ (by decide) rfl rfl),
   congrArg Prod.fst (((first_failure_propagates table_device_operations 3 2 0 ⟨32, List.replicate 32 0⟩
      ⟨32, List.replicate 32 7⟩ ⟨32, List.replicate 32 0⟩ ⟨4, [1, 2, 3, 4]⟩ true (0x12, 0x34)).2.1 command_failing_transport [] Status.ATSHA_ERR_COMMUNICATION
      rfl (by decide)).2.2.2.1
      _ (by decide) rfl rfl),
   congrArg Prod.fst (((first_failure_propagates table_device_operations 3 2 0 ⟨32, List.replicate 32 0⟩
      ⟨32, List.replicate 32 7⟩ ⟨32, List.replicate 32 0⟩ ⟨4, [1, 2, 3, 4]⟩ true (0x12, 0x34)).2.1 command_failing_transport [] Status.ATSHA_ERR_COMMUNICATION
      rfl (by decide)).2.2.2.2.1
      _ (by decide) rfl rfl rfl),
   congrArg Prod.fst (((first_failure_propagates table_device_operations 3 2 0 ⟨32, List.replicate 32 0⟩
      ⟨32, List.replicate 32 7⟩ ⟨32, List.replicate 32 0⟩ ⟨4, [1, 2, 3, 4]⟩ true (0x12, 0x34)).2.1 second_command_failing_transport [] Status.ATSHA_ERR_COMMUNICATION
      rfl (by decide)).2.2.2.2.2.1
      _ _ (by decide) rfl rfl (by decide) (by decide) rfl (by decide)),
   congrArg Prod.fst (((first_failure_propagates table_device_operations 3 2 0 ⟨32, List.replicate 32 0⟩
      ⟨32, List.replicate 32 7⟩ ⟨32, List.replicate 32 0⟩ ⟨4, [1, 2, 3, 4]⟩ true (0x12, 0x34)).2.1 command_failing_transport [] Status.ATSHA_ERR_COMMUNICATION
      rfl (by decide)).2.2.2.2.2.2.1
      _ (by decide) rfl rfl rfl),
   congrArg Prod.fst (((first_failure_propagates table_device_operations 3 2 0 ⟨32, List.replicate 32 0⟩
      ⟨32, List.replicate 32 7⟩ ⟨32, List.replicate 32 0⟩ ⟨4, [1, 2, 3, 4]⟩ true (0x12, 0x34)).2.1 command_failing_transport [] Status.ATSHA_ERR_COMMUNICATION
      rfl (by decide)).2.2.2.2.2.2.2.1
      _  rfl rfl),
   congrArg Prod.fst (((first_failure_propagates table_device_operations 3 2 0 ⟨32, List.replicate 32 0⟩
      ⟨32, List.replicate 32 7⟩ ⟨32, List.replicate 32 0⟩ ⟨4, [1, 2, 3, 4]⟩ true (0x12, 0x34)).2.1 command_failing_transport [] Status.ATSHA_ERR_COMMUNICATION
      rfl (by decide)).2.2.2.2.2.2.2.2.1
      _  rfl rfl),
   congrArg Prod.fst (((first_failure_propagates table_device_operations 3 2 0 ⟨32, List.replicate 32 0⟩
      ⟨32, List.replicate 32 7⟩ ⟨32, List.replicate 32 0⟩ ⟨4, [1, 2, 3, 4]⟩ true (0x12, 0x34)).2.1 command_failing_transport [] Status.ATSHA_ERR_COMMUNICATION
      rfl (by decide)).2.2.2.2.2.2.2.2.2.1
      _  rfl rfl),
   congrArg Prod.fst (((first_failure_propagates table_device_operations 3 2 0 ⟨32, List.replicate 32 0⟩
      ⟨32, List.replicate 32 7⟩ ⟨32, List.replicate 32 0⟩ ⟨4, [1, 2, 3, 4]⟩ true (0x12, 0x34)).2.1 command_failing_transport [] Status.ATSHA_ERR_COMMUNICATION
      rfl (by decide)).2.2.2.2.2.2.2.2.2.2.1
      _  rfl rfl),
   congrArg Prod.fst (((first_failure_propagates table_device_operations 3 2 0 ⟨32, List.replicate 32 0⟩
      ⟨32, List.replicate 32 7⟩ ⟨32, List.replicate 32 0⟩ ⟨4, [1, 2, 3, 4]⟩ true (0x12, 0x34)).2.1 command_failing_transport [] Status.ATSHA_ERR_COMMUNICATION
      rfl (by decide)).2.2.2.2.2.2.2.2.2.2.2.1
      _  rfl rfl),
   congrArg Prod.fst (((first_failure_propagates table_device_operations 3 2 0 ⟨32, List.replicate 32 0⟩
      ⟨32, List.replicate 32 7⟩ ⟨32, List.replicate 32 0⟩ ⟨4, [1, 2, 3, 4]⟩ true (0x12, 0x34)).2.1 command_failing_transport [] Status.ATSHA_ERR_COMMUNICATION
      rfl (by decide)).2.2.2.2.2.2.2.2.2.2.2.2.1
      _  rfl rfl),
   congrArg Prod.fst (((first_failure_propagates table_device_operations 3 2 0 ⟨32, List.replicate 32 0⟩
      ⟨32, List.replicate 32 7⟩ ⟨32, List.replicate 32 0⟩ ⟨4, [1, 2, 3, 4]⟩ true (0x12, 0x34)).2.1 command_failing_transport [] Status.ATSHA_ERR_COMMUNICATION
      rfl (by decide)).2.2.2.2.2.2.2.2.2.2.2.2.2
      _  rfl rfl),
   ((((first_failure_propagates table_device_operations 3 2 0 ⟨32, List.replicate 32 0⟩
      ⟨32, List.replicate 32 7⟩ ⟨32, List.replicate 32 0⟩ ⟨4, [1, 2, 3, 4]⟩ true (0x12, 0x34)).2.2.1
      single_wake_transport [] ⟨0, List.replicate 32 0⟩ Status.ATSHA_ERR_WAKE_NOT_CONFIRMED
      (by decide)).2.2 (by decide)).2.1 (by decide)).1⟩

/-- Every run of `atsha_low_challenge_response` with valid arguments, by the point at which
it stops. -/
theorem challenge_response_cases (ops : Operations) (t : Transport) (trace : List Call)
    (slot_number : Nat) (challenge response : atsha_big_int) (use_sn_in_digest : Bool)
    (hs : slot_number % 256 ≤ ATSHA204_MAX_SLOT_NUMBER) (hb : challenge.bytes = 32) :
    ((atsha_low_challenge_response ops t trace slot_number challenge response
        use_sn_in_digest).1 ≠ Status.ATSHA_ERR_OK ∧
      ((atsha_low_challenge_response ops t trace slot_number challenge response
        use_sn_in_digest).2.2 = trace ++ [Call.wake] ∨
       ∃ p1, (atsha_low_challenge_response ops t trace slot_number challenge response
        use_sn_in_digest).2.2 = trace ++ [Call.wake, Call.command p1])) ∨
    (∃ p1 p2, ops.op_nonce 32 challenge.data = some p1 ∧
      (t.command (trace ++ [Call.wake]) p1).1 = Status.ATSHA_ERR_OK ∧
      ops.op_nonce_recv (t.command (trace ++ [Call.wake]) p1).2 = Status.ATSHA_ERR_OK ∧
      ops.op_hmac (slot_number % 256) use_sn_in_digest = some p2 ∧
      (((atsha_low_challenge_response ops t trace slot_number challenge response
          use_sn_in_digest).1 ≠ Status.ATSHA_ERR_OK ∧
        (atsha_low_challenge_response ops t trace slot_number challenge response
          use_sn_in_digest).2.2 = trace ++ [Call.wake, Call.command p1, Call.command p2]) ∨
       ((atsha_low_challenge_response ops t trace slot_number challenge response
          use_sn_in_digest).1 = Status.ATSHA_ERR_OK ∧
        (atsha_low_challenge_response ops t trace slot_number challenge response
          use_sn_in_digest).2.2 =
            trace ++ [Call.wake, Call.command p1, Call.command p2, Call.idle]))) := by
  have hs' : ¬ slot_number % 256 > ATSHA204_MAX_SLOT_NUMBER := Nat.not_lt.mpr hs
  by_cases hw : t.wake trace = Status.ATSHA_ERR_OK
  · cases h1 : ops.op_nonce 32 challenge.data with
    | none => left; simp [atsha_low_challenge_response, hs', hb, hw, h1]
    | some p1 =>
      by_cases h2 : (t.command (trace ++ [Call.wake]) p1).1 = Status.ATSHA_ERR_OK
      · by_cases h3 : ops.op_nonce_recv (t.command (trace ++ [Call.wake]) p1).2 =
            Status.ATSHA_ERR_OK
        · cases h4 : ops.op_hmac (slot_number % 256) use_sn_in_digest with
          | none => left; simp [atsha_low_challenge_response, hs', hb, hw, h1, h2, h3, h4]
          | some p2 =>
            right
            refine ⟨p1, p2, rfl, h2, h3, rfl, ?_⟩
            by_cases h5 : (t.command (trace ++ [Call.wake, Call.command p1]) p2).1 =
                Status.ATSHA_ERR_OK
            · by_cases h6 : (ops.op_hmac_recv
                  (t.command (trace ++ [Call.wake, Call.command p1]) p2).2 response.data).1 = 0
              · left; simp [atsha_low_challenge_response, hs', hb, hw, h1, h2, h3, h4, h5, h6]
              · right; simp [atsha_low_challenge_response, hs', hb, hw, h1, h2, h3, h4, h5, h6]
            · left; simp [atsha_low_challenge_response, hs', hb, hw, h1, h2, h3, h4, h5]
        · left; simp [atsha_low_challenge_response, hs', hb, hw, h1, h2, h3]
      · left; simp [atsha_low_challenge_response, hs', hb, hw, h1, h2]
  · left; simp [atsha_low_challenge_response, hs', hb, hw]

theorem drop_new_calls (trace new : List Call) :
    (trace ++ Call.wake :: new).drop (trace.length + 1) = new := by
  rw [List.drop_append_eq_append_drop]
  simp

/-- C13: the HMAC challenge-response is Nonce then HMAC in one wake/idle bracket.  For a
valid slot and a 32 byte challenge `C`, a successful `atsha_low_challenge_response` makes
exactly the calls wake, command (the Nonce packet built for `C`), command (the HMAC packet
built for the slot and the flag), idle, in that order; whenever a second command was sent,
the Nonce command and the decoding of its status had both succeeded; no wake follows the
first one.  A successful `atsha_low_challenge_response_mac` makes exactly the calls wake,
command (the MAC packet built for the slot, `C` and the flag), idle. -/
theorem challenge_response_call_sequence (ops : Operations) (t : Transport)
    (trace : List Call) (slot_number : Nat) (challenge response : atsha_big_int)
    (use_sn_in_digest : Bool)
    (hs : slot_number % 256 ≤ ATSHA204_MAX_SLOT_NUMBER) (hb : challenge.bytes = 32) :
    ((atsha_low_challenge_response ops t trace slot_number challenge response
        use_sn_in_digest).1 = Status.ATSHA_ERR_OK →
      ∃ p1 p2, ops.op_nonce challenge.bytes challenge.data = some p1 ∧
        ops.op_hmac (slot_number % 256) use_sn_in_digest = some p2 ∧
        (atsha_low_challenge_response ops t trace slot_number challenge response
          use_sn_in_digest).2.2 =
            trace ++ [Call.wake, Call.command p1, Call.command p2, Call.idle]) ∧
    (∀ q1 q2 rest,
      (atsha_low_challenge_response ops t trace slot_number challenge response
        use_sn_in_digest).2.2 = trace ++ Call.wake :: Call.command q1 :: Call.command q2 :: rest →
      ops.op_nonce challenge.bytes challenge.data = some q1 ∧
      (t.command (trace ++ [Call.wake]) q1).1 = Status.ATSHA_ERR_OK ∧
      ops.op_nonce_recv (t.command (trace ++ [Call.wake]) q1).2 = Status.ATSHA_ERR_OK ∧
      ops.op_hmac (slot_number % 256) use_sn_in_digest = some q2) ∧
    Call.wake ∉ (atsha_low_challenge_response ops t trace slot_number challenge response
        use_sn_in_digest).2.2.drop (trace.length + 1) ∧
    ((atsha_low_challenge_response_mac ops t trace slot_number challenge response
        use_sn_in_digest).1 = Status.ATSHA_ERR_OK →
      ∃ p, ops.op_mac (slot_number % 256) challenge.bytes challenge.data use_sn_in_digest =
          some p ∧
        (atsha_low_challenge_response_mac ops t trace slot_number challenge response
          use_sn_in_digest).2.2 = trace ++ [Call.wake, Call.command p, Call.idle]) := by
  have hc := challenge_response_cases ops t trace slot_number challenge response
    use_sn_in_digest hs hb
  refine ⟨?_, ?_, ?_, ?_⟩
  · intro hok
    rcases hc with ⟨hne, _⟩ | ⟨p1, p2, h1, _, _, h4, hr⟩
    · exact absurd hok hne
    · rcases hr with ⟨hne, _⟩ | ⟨_, htr⟩
      · exact absurd hok hne
      · exact ⟨p1, p2, by rw [hb]; exact h1, h4, htr⟩
  · intro q1 q2 rest hq
    rcases hc with ⟨_, htr | ⟨p1, htr⟩⟩ | ⟨p1, p2, h1, h2, h3, h4, hr⟩
    · rw [htr] at hq
      have := List.append_cancel_left hq
      simp at this
    · rw [htr] at hq
      have := List.append_cancel_left hq
      simp at this
    · have htr : ∃ tail, (atsha_low_challenge_response ops t trace slot_number challenge
          response use_sn_in_digest).2.2 =
            trace ++ Call.wake :: Call.command p1 :: Call.command p2 :: tail := by
        rcases hr with ⟨_, htr⟩ | ⟨_, htr⟩
        · exact ⟨[], htr⟩
        · exact ⟨[Call.idle], htr⟩
      obtain ⟨tail, htr⟩ := htr
      rw [htr] at hq
      have hq' := List.append_cancel_left hq
      simp only [List.cons.injEq, Call.command.injEq, true_and] at hq'
      obtain ⟨e1, e2, _⟩ := hq'
      subst e1 e2
      exact ⟨by rw [hb]; exact h1, h2, h3, h4⟩
  · rcases hc with ⟨_, htr | ⟨p1, htr⟩⟩ | ⟨p1, p2, _, _, _, _, ⟨_, htr⟩ | ⟨_, htr⟩⟩
    all_goals (rw [htr, drop_new_calls]; simp)
  · intro hok
    have hs' : ¬ slot_number % 256 > ATSHA204_MAX_SLOT_NUMBER := Nat.not_lt.mpr hs
    by_cases hw : t.wake trace = Status.ATSHA_ERR_OK
    · cases h1 : ops.op_mac (slot_number % 256) 32 challenge.data use_sn_in_digest with
      | none => simp [atsha_low_challenge_response_mac, hs', hb, hw, h1] at hok
      | some p =>
        refine ⟨p, by rw [hb]; exact h1, ?_⟩
        by_cases h2 : (t.command (trace ++ [Call.wake]) p).1 = Status.ATSHA_ERR_OK
        · by_cases h3 : (ops.op_mac_recv (t.command (trace ++ [Call.wake]) p).2
              response.data).1 = 0
          · simp [atsha_low_challenge_response_mac, hs', hb, hw, h1, h2, h3] at hok
          · simp [atsha_low_challenge_response_mac, hs', hb, hw, h1, h2, h3]
        · simp [atsha_low_challenge_response_mac, hs', hb, hw, h1, h2] at hok
    · simp [atsha_low_challenge_response_mac, hs', hb, hw] at hok

set_option maxRecDepth 100000 in
theorem challenge_response_call_sequence_witness :
    3 % 256 ≤ ATSHA204_MAX_SLOT_NUMBER ∧
    (⟨32, List.replicate 32 7⟩ : atsha_big_int).bytes = 32 ∧
    (atsha_low_challenge_response table_operations zero_word_transport [] 3
      ⟨32, List.replicate 32 7⟩ ⟨0, []⟩ true).1 = Status.ATSHA_ERR_OK ∧
    (∃ p1 p2, table_operations.op_nonce 32 (List.replicate 32 7) = some p1 ∧
      table_operations.op_hmac (3 % 256) true = some p2 ∧
      (atsha_low_challenge_response table_operations zero_word_transport [] 3
        ⟨32, List.replicate 32 7⟩ ⟨0, []⟩ true).2.2 =
          [] ++ [Call.wake, Call.command p1, Call.command p2, Call.idle]) ∧
    (atsha_low_challenge_response table_operations zero_word_transport [] 3
      ⟨32, List.replicate 32 7⟩ ⟨0, []⟩ true).2.2 =
        [] ++ Call.wake ::
          Call.command (generate_command_packet ATSHA204_OPCODE_NONCE 0 0
            (List.replicate 32 7) 32) ::
          Call.command (generate_command_packet ATSHA204_OPCODE_HMAC 1 3 [] 0) ::
          [Call.idle] ∧
    (zero_word_transport.command ([] ++ [Call.wake])
      (generate_command_packet ATSHA204_OPCODE_NONCE 0 0 (List.replicate 32 7) 32)).1 =
        Status.ATSHA_ERR_OK ∧
    (atsha_low_challenge_response_mac table_operations zero_word_transport [] 3
      ⟨32, List.replicate 32 7⟩ ⟨0, []⟩ true).1 = Status.ATSHA_ERR_OK ∧
    (∃ p, table_operations.op_mac (3 % 256) 32 (List.replicate 32 7) true = some p ∧
      (atsha_low_challenge_response_mac table_operations zero_word_transport [] 3
        ⟨32, List.replicate 32 7⟩ ⟨0, []⟩ true).2.2 =
          [] ++ [Call.wake, Call.command p, Call.idle]) :=
  ⟨by decide, rfl, by decide,
   (challenge_response_call_sequence table_operations zero_word_transport [] 3
      ⟨32, List.replicate 32 7⟩ ⟨0, []⟩ true (by decide) rfl).1 (by decide),
   by decide,
   ((challenge_response_call_sequence table_operations zero_word_transport [] 3
      ⟨32, List.replicate 32 7⟩ ⟨0, []⟩ true (by decide) rfl).2.1
      (generate_command_packet ATSHA204_OPCODE_NONCE 0 0 (List.replicate 32 7) 32)
      (generate_command_packet ATSHA204_OPCODE_HMAC 1 3 [] 0) [Call.idle] (by decide)).2.1,
   by decide,
   (challenge_response_call_sequence table_operations zero_word_transport [] 3
      ⟨32, List.replicate 32 7⟩ ⟨0, []⟩ true (by decide) rfl).2.2.2 (by decide)⟩

theorem set_eight (l : List Nat) (a0 a1 a2 a3 a4 a5 a6 a7 : Nat) (h : 8 ≤ l.length) :
    ((((((((l.set 0 a0).set 1 a1).set 2 a2).set 3 a3).set 4 a4).set 5 a5).set 6 a6).set 7
      a7).take 8 = [a0, a1, a2, a3, a4, a5, a6, a7] := by
  match l, h with
  | b0 :: b1 :: b2 :: b3 :: b4 :: b5 :: b6 :: b7 :: rest, _ => simp

/-- C14: host-supplied serial number.  When `USE_OUR_SN` is in effect a successful
`atsha_serial_number` returns exactly 8 bytes: bytes 0..3 are the OTP word read at
`ATSHA204_OTP_MEMORY_MAP_REV_NUMBER` and bytes 4..7 the OTP word read at
`ATSHA204_OTP_MEMORY_MAP_SERIAL_NUMBER`.  If the first read fails its status is returned
and no call beyond those of the first read is made; if the second read fails its status is
returned. -/
theorem our_serial_number (ops : DeviceOperations) (part number : atsha_big_int)
    (hcap : number.data.length = 32) :
    (∀ (t : Transport) (trace : List Call),
      (serial_first_read ops t trace part).1 = Status.ATSHA_ERR_OK →
      (serial_second_read ops t trace part).1 = Status.ATSHA_ERR_OK →
      (atsha_serial_number true ops t trace part number).1 = Status.ATSHA_ERR_OK ∧
      (atsha_serial_number true ops t trace part number).2.1.bytes = 8 ∧
      (atsha_serial_number true ops t trace part number).2.1.data.take 8 =
        otp_word (serial_first_read ops t trace part).2.1 ++
          otp_word (serial_second_read ops t trace part).2.1 ∧
      (atsha_serial_number true ops t trace part number).2.2 =
        (serial_second_read ops t trace part).2.2) ∧
    (∀ (t : Transport) (trace : List Call),
      (serial_first_read ops t trace part).1 ≠ Status.ATSHA_ERR_OK →
      atsha_serial_number true ops t trace part number =
        ((serial_first_read ops t trace part).1, number,
          (serial_first_read ops t trace part).2.2)) ∧
    (∀ (t : Transport) (trace : List Call),
      (serial_first_read ops t trace part).1 = Status.ATSHA_ERR_OK →
      (serial_second_read ops t trace part).1 ≠ Status.ATSHA_ERR_OK →
      (atsha_serial_number true ops t trace part number).1 =
        (serial_second_read ops t trace part).1 ∧
      (atsha_serial_number true ops t trace part number).2.2 =
        (serial_second_read ops t trace part).2.2) := by
  refine ⟨?_, ?_, ?_⟩
  · intro t trace h1 h2
    unfold serial_second_read at h2
    unfold serial_first_read at h1 h2
    simp only [atsha_serial_number, if_true, h1, h2, ne_eq, not_true_eq_false, if_false,
      serial_second_read, serial_first_read, otp_word]
    refine ⟨trivial, trivial, ?_, trivial⟩
    rw [set_eight number.data _ _ _ _ _ _ _ _ (by omega)]
    simp only [List.cons_append, List.nil_append]
  · intro t trace h1
    unfold serial_first_read at h1
    simp only [atsha_serial_number, if_true, ne_eq, h1, not_false_eq_true, serial_first_read]
  · intro t trace h1 h2
    unfold serial_second_read at h2
    unfold serial_first_read at h1 h2
    simp only [atsha_serial_number, if_true, h1, h2, ne_eq, not_true_eq_false, if_false,
      not_false_eq_true, serial_second_read, serial_first_read, and_self]

set_option maxRecDepth 100000 in
theorem our_serial_number_witness :
    (List.replicate 32 9).length = 32 ∧
    (serial_first_read table_device_operations address_word_transport []
      ⟨0, List.replicate 32 0⟩).1 = Status.ATSHA_ERR_OK ∧
    (serial_second_read table_device_operations address_word_transport []
      ⟨0, List.replicate 32 0⟩).1 = Status.ATSHA_ERR_OK ∧
    (atsha_serial_number true table_device_operations address_word_transport []
      ⟨0, List.replicate 32 0⟩ ⟨0, List.replicate 32 9⟩).2.1.bytes = 8 ∧
    (atsha_serial_number true table_device_operations address_word_transport []
      ⟨0, List.replicate 32 0⟩ ⟨0, List.replicate 32 9⟩).2.1.data.take 8 =
        [0x00, 0xA1, 0xA2, 0xA3, 0x01, 0xA1, 0xA2, 0xA3] ∧
    (serial_first_read table_device_operations silent_transport []
      ⟨0, List.replicate 32 0⟩).1 ≠ Status.ATSHA_ERR_OK ∧
    atsha_serial_number true table_device_operations silent_transport []
      ⟨0, List.replicate 32 0⟩ ⟨0, List.replicate 32 9⟩ =
        (Status.ATSHA_ERR_WAKE_NOT_CONFIRMED, ⟨0, List.replicate 32 9⟩, [Call.wake]) ∧
    (serial_second_read table_device_operations single_wake_transport []
      ⟨0, List.replicate 32 0⟩).1 ≠ Status.ATSHA_ERR_OK ∧
    (atsha_serial_number true table_device_operations single_wake_transport []
      ⟨0, List.replicate 32 0⟩ ⟨0, List.replicate 32 9⟩).1 =
        Status.ATSHA_ERR_WAKE_NOT_CONFIRMED :=
  ⟨rfl, by decide, by decide,
   ((our_serial_number table_device_operations ⟨0, List.replicate 32 0⟩
      ⟨0, List.replicate 32 9⟩ rfl).1 address_word_transport [] (by decide) (by decide)).2.1,
   ((our_serial_number table_device_operations ⟨0, List.replicate 32 0⟩
      ⟨0, List.replicate 32 9⟩ rfl).1 address_word_transport [] (by decide) (by decide)).2.2.1,
   by decide,
   (our_serial_number table_device_operations ⟨0, List.replicate 32 0⟩
      ⟨0, List.replicate 32 9⟩ rfl).2.1 silent_transport [] (by decide),
   by decide,
   ((our_serial_number table_device_operations ⟨0, List.replicate 32 0⟩
      ⟨0, List.replicate 32 9⟩ rfl).2.2 single_wake_transport [] (by decide) (by decide)).1⟩

/-- Claim C15: for every pair of ASCII hexadecimal digits `h` and `l` (`0`-`9`, `a`-`f`,
`A`-`F`, in any mix of case) `get_number_from_hex_char(h, l)` returns
`16 * value(h) + value(l)`, where both digits have a value below 16. -/
theorem hex_char_value (h l : Nat) (hh : h ∈ hex_digits) (hl : l ∈ hex_digits) :
    ∃ vh vl, hex_value h = some vh ∧ hex_value l = some vl ∧ vh < 16 ∧ vl < 16 ∧
      get_number_from_hex_char h l = 16 * vh + vl := by
  have step : ∀ h ∈ hex_digits, ∀ l ∈ hex_digits,
      (hex_value h).isSome = true ∧ (hex_value l).isSome = true ∧
        (hex_value h).getD 0 < 16 ∧ (hex_value l).getD 0 < 16 ∧
        get_number_from_hex_char h l = 16 * (hex_value h).getD 0 + (hex_value l).getD 0 := by
    decide
  obtain ⟨h1, h2, h3, h4, h5⟩ := step h hh l hl
  obtain ⟨vh, hvh⟩ := Option.isSome_iff_exists.mp h1
  obtain ⟨vl, hvl⟩ := Option.isSome_iff_exists.mp h2
  simp only [hvh, hvl, Option.getD_some] at h3 h4 h5
  exact ⟨vh, vl, hvh, hvl, h3, h4, h5⟩

/-- The digits `a` and `F` give `0xaF`. -/
theorem hex_char_value_witness :
    ∃ vh vl, hex_value 97 = some vh ∧ hex_value 70 = some vl ∧ vh < 16 ∧ vl < 16 ∧
      get_number_from_hex_char 97 70 = 16 * vh + vl :=
  hex_char_value 97 70 (by decide) (by decide)

/-! ## Lemmas on the parser of the configuration file -/

/-- A string that starts with the NUL is empty: the value is 0 whatever the second
character is.  This is the only case in which `read_config` passes the character behind
the end of the line. -/
lemma get_number_from_hex_char_nul (low : Nat) : get_number_from_hex_char 0 low = 0 := by
  simp [get_number_from_hex_char, strtol_16, strtol_digits]

/-- The first element of a non-empty rest of a list. -/
lemma drop_cons_getD (l : List Nat) (p a : Nat) (r : List Nat) (h : l.drop p = a :: r) :
    l.getD p 0 = a ∧ l.drop (p + 1) = r ∧ p < l.length := by
  induction l generalizing p with
  | nil => simp at h
  | cons x xs ih =>
    cases p with
    | zero =>
      simp only [List.drop_zero, List.cons.injEq] at h
      simp [h.1, h.2]
    | succ q =>
      simp only [List.drop_succ_cons] at h
      obtain ⟨h1, h2, h3⟩ := ih q h
      refine ⟨?_, by simpa using h2, by simpa using h3⟩
      simpa using h1

/-- A read beyond the end of a buffer gives the NUL. -/
lemma getD_of_drop_nil (l : List Nat) (p : Nat) (h : l.drop p = []) :
    l.getD p 0 = 0 ∧ l.length ≤ p := by
  have hl : l.length ≤ p := List.drop_eq_nil_iff.mp h
  exact ⟨List.getD_eq_default _ _ hl, hl⟩

/-- A line that fits the buffer is read whole, with its newline. -/
lemma fgets_loop_line (body rest : List Nat) (hb : 10 ∉ body) :
    ∀ n, body.length < n → fgets_loop n (body ++ 10 :: rest) = (body ++ [10], rest) := by
  induction body with
  | nil =>
    intro n hn
    cases n with
    | zero => omega
    | succ m => simp [fgets_loop]
  | cons c cs ih =>
    intro n hn
    cases n with
    | zero => omega
    | succ m =>
      have hc : c ≠ 10 := fun e => hb (by simp [e])
      have hcs : 10 ∉ cs := fun e => hb (by simp [e])
      have hm : cs.length < m := by simpa using hn
      simp [fgets_loop, hc, ih hcs m hm]

/-- What `fgets` stores is always the beginning of the line. -/
lemma fgets_loop_prefix (body rest : List Nat) (hb : 10 ∉ body) :
    ∀ n, (fgets_loop n (body ++ 10 :: rest)).1 <+: body ++ [10] := by
  induction body with
  | nil =>
    intro n
    cases n with
    | zero => simp [fgets_loop]
    | succ m => simp [fgets_loop]
  | cons c cs ih =>
    intro n
    cases n with
    | zero => simp [fgets_loop]
    | succ m =>
      have hc : c ≠ 10 := fun e => hb (by simp [e])
      have hcs : 10 ∉ cs := fun e => hb (by simp [e])
      simp only [List.cons_append, fgets_loop, hc, if_false]
      exact (List.prefix_cons_inj c).mpr (ih hcs m)

/-- The length of a string is at most the size of what was stored. -/
lemma strlen_le (line : List Nat) : strlen line ≤ line.length :=
  (List.takeWhile_prefix _).length_le

/-- The character at offset `strlen` is the NUL. -/
lemma getD_strlen (line : List Nat) : line.getD (strlen line) 0 = 0 := by
  induction line with
  | nil => rfl
  | cons c cs ih =>
    by_cases hc : c = 0
    · simp [strlen, List.takeWhile, hc]
    · simpa [strlen, List.takeWhile, hc] using ih

/-- Without a NUL among the characters read, the string is all of them. -/
lemma strlen_eq_length (line : List Nat) (h : ∀ c ∈ line, c ≠ 0) :
    strlen line = line.length := by
  induction line with
  | nil => rfl
  | cons c cs ih =>
    have hc : c ≠ 0 := h c (by simp)
    have hcs : ∀ d ∈ cs, d ≠ 0 := fun d hd => h d (by simp [hd])
    have := ih hcs
    simp only [strlen] at this
    simpa [strlen, List.takeWhile, hc] using this

/-- A separator is not the NUL. -/
lemma is_separator_ne_zero (c : Nat) (h : is_separator c = true) : c ≠ 0 := by
  intro e
  subst e
  simp [is_separator] at h

/-- The scanning loop ends: from any offset up to the end of the string, as many steps as
characters are left, and one more, are enough. -/
lemma scan_line_total (line_cnt item : Nat) (line : List Nat) (line_end_p : Nat)
    (hend : line.getD line_end_p 0 = 0) :
    ∀ fuel line_p i data, line_p ≤ line_end_p → line_end_p - line_p + 1 ≤ fuel →
      (scan_line line_cnt item line line_end_p fuel line_p i data).isSome = true := by
  intro fuel
  induction fuel with
  | zero => intro line_p i data _ h; omega
  | succ n ih =>
    intro line_p i data hp hf
    unfold scan_line
    by_cases hi : i < line_cnt
    · by_cases hs : is_separator (line.getD line_p 0) = true
      · have hne : line_p ≠ line_end_p := by
          intro e
          rw [e, hend] at hs
          simp [is_separator] at hs
        simp only [hi, hs, if_true]
        exact ih _ _ _ (by omega) (by omega)
      · simp only [hi, hs, if_true]
        by_cases hge : line_p + 2 ≥ line_end_p
        · simp [hge]
        · simp only [hge, if_false]
          exact ih _ _ _ (by omega) (by omega)
    · simp [hi]

/-- The five separators are the characters that the scanning loop skips. -/
lemma separators_spec : ∀ c ∈ separators, is_separator c = true ∧ c ≠ 0 ∧ c ≠ 10 := by
  decide

/-- A hexadecimal digit is neither skipped nor a NUL nor a newline. -/
lemma hex_digits_spec : ∀ c ∈ hex_digits, is_separator c = false ∧ c ≠ 0 ∧ c ≠ 10 := by
  decide

/-- The characters of valid tokens are neither NUL nor newline. -/
lemma render_chars (toks : List ConfigToken) (hv : ∀ tok ∈ toks, tok.valid) :
    ∀ c ∈ render toks, c ≠ 0 ∧ c ≠ 10 := by
  induction toks with
  | nil => intro c hc; simp [render] at hc
  | cons tok toks ih =>
    intro c hc
    have htok := hv tok (by simp)
    have hrest : ∀ t ∈ toks, t.valid := fun t ht => hv t (by simp [ht])
    simp only [render, List.flatMap_cons, List.mem_append] at hc
    rcases hc with hc | hc
    · cases tok with
      | sep s =>
        simp only [ConfigToken.chars, List.mem_singleton] at hc
        subst hc
        exact (separators_spec c htok).2
      | byte high low =>
        simp only [ConfigToken.chars, List.mem_cons, List.mem_singleton, List.not_mem_nil,
          or_false] at hc
        rcases hc with hc | hc
        · subst hc; exact (hex_digits_spec c htok.1).2
        · subst hc; exact (hex_digits_spec c htok.2).2
    · exact ih hrest c hc

/-- The characters of a line that starts with a separator. -/
lemma render_sep (c : Nat) (toks : List ConfigToken) :
    render (ConfigToken.sep c :: toks) = c :: render toks := rfl

/-- The characters of a line that starts with a byte. -/
lemma render_byte (high low : Nat) (toks : List ConfigToken) :
    render (ConfigToken.byte high low :: toks) = high :: low :: render toks := rfl

/-- The first line of a file of lines. -/
lemma file_of_lines_cons (body : List Nat) (lines : List (List Nat)) (rest : List Nat) :
    file_of_lines (body :: lines) ++ rest = body ++ 10 :: (file_of_lines lines ++ rest) := by
  simp [file_of_lines]

/-- A whole line that fits the buffer is what `fgets` returns. -/
lemma fgets_line (body rest : List Nat) (hb : 10 ∉ body)
    (hlen : body.length + 1 < BUFFSIZE_LINE) :
    fgets BUFFSIZE_LINE (body ++ 10 :: rest) = some (body ++ [10], rest) := by
  have hne : body ++ 10 :: rest ≠ [] := by simp
  simp only [fgets, hne, if_false]
  rw [fgets_loop_line body rest hb (BUFFSIZE_LINE - 1) (by omega)]

set_option maxRecDepth 1000000 in
/-- The bound is sharp: sixteen lines of 126 characters are accepted, the bytes of each
line stored in its row. -/
theorem line_of_126_accepted :
    (render line_of_126).length = 126 ∧
      (read_config (file_of_lines ((List.replicate 16 line_of_126).map render))
        (List.replicate 64 0) 4).map Prod.fst = some true ∧
      (read_config (file_of_lines ((List.replicate 16 line_of_126).map render))
        (List.replicate 64 0) 4).map (fun r => r.2.1.take 8) =
        some [0xAA, 0xBB, 0xCC, 0xDD, 0xAA, 0xBB, 0xCC, 0xDD] := by
  decide

/-- A byte that starts less than three characters before the end of the string ends the
scan with `return false`. -/
lemma scan_line_at_end (line_cnt item : Nat) (line : List Nat) (line_end_p n p i : Nat)
    (data : List Nat) (hi : i < line_cnt) (hs : is_separator (line.getD p 0) = false)
    (hp : line_end_p ≤ p + 2) :
    ∃ data', scan_line line_cnt item line line_end_p (n + 1) p i data = some (false, data') := by
  unfold scan_line
  have hge : p + 2 ≥ line_end_p := hp
  simp only [hi, hs, hge, if_true, if_false, Bool.false_eq_true]
  exact ⟨_, rfl⟩

/-- The scanning loop on the beginning of a line that holds fewer bytes than are still
wanted: the loop ends with `return false`. -/
lemma scan_line_short (line_cnt item : Nat) (line : List Nat) :
    ∀ (toks : List ConfigToken), (∀ tok ∈ toks, tok.valid) →
      ∀ (fuel p i : Nat) (data : List Nat),
      line.drop p <+: render toks ++ [10] →
      i + (token_bytes toks).length < line_cnt →
      line.length - p + 1 ≤ fuel →
      ∃ data', scan_line line_cnt item line line.length fuel p i data = some (false, data') := by
  intro toks
  induction toks with
  | nil =>
    intro _ fuel p i data hpre hi hf
    cases fuel with
    | zero => omega
    | succ n =>
      have hlt : i < line_cnt := by omega
      cases hd : line.drop p with
      | nil =>
        obtain ⟨h0, hlen⟩ := getD_of_drop_nil line p hd
        exact scan_line_at_end _ _ _ _ _ _ _ _ hlt (by rw [h0]; rfl) (by omega)
      | cons a r =>
        rw [hd] at hpre
        simp only [render, List.flatMap_nil, List.nil_append] at hpre
        obtain ⟨ha, hr⟩ := List.cons_prefix_cons.mp hpre
        obtain ⟨hc, hdrop, _⟩ := drop_cons_getD line p a r hd
        have hr' : r = [] := List.prefix_nil.mp hr
        rw [hr'] at hdrop
        have hlen := (getD_of_drop_nil line (p + 1) hdrop).2
        exact scan_line_at_end _ _ _ _ _ _ _ _ hlt (by rw [hc, ha]; rfl) (by omega)
  | cons tok toks ih =>
    intro hv fuel p i data hpre hi hf
    have htok := hv tok (by simp)
    have hrest : ∀ t ∈ toks, t.valid := fun t ht => hv t (by simp [ht])
    cases fuel with
    | zero => omega
    | succ n =>
      cases hd : line.drop p with
      | nil =>
        obtain ⟨h0, hlen⟩ := getD_of_drop_nil line p hd
        have hlt : i < line_cnt := by omega
        exact scan_line_at_end _ _ _ _ _ _ _ _ hlt (by rw [h0]; rfl) (by omega)
      | cons a r =>
        rw [hd] at hpre
        obtain ⟨hc, hdrop, hplen⟩ := drop_cons_getD line p a r hd
        cases tok with
        | sep c =>
          simp only [token_bytes] at hi
          simp only [render_sep, List.cons_append] at hpre
          obtain ⟨ha, hr⟩ := List.cons_prefix_cons.mp hpre
          have hlt : i < line_cnt := by omega
          have hs : is_separator (line.getD p 0) = true := by
            rw [hc, ha]; exact (separators_spec c htok).1
          have hrec := ih hrest n (p + 1) i data (by rw [hdrop]; exact hr) hi (by omega)
          unfold scan_line
          simpa only [hlt, hs, if_true] using hrec
        | byte high low =>
          simp only [token_bytes, List.length_cons] at hi
          simp only [render_byte, List.cons_append] at hpre
          obtain ⟨ha, hr⟩ := List.cons_prefix_cons.mp hpre
          have hlt : i < line_cnt := by omega
          have hs : is_separator (line.getD p 0) = false := by
            rw [hc, ha]; exact (hex_digits_spec high htok.1).1
          by_cases hge : line.length ≤ p + 2
          · exact scan_line_at_end _ _ _ _ _ _ _ _ hlt hs hge
          · cases hd1 : line.drop (p + 1) with
            | nil =>
              have := (getD_of_drop_nil line (p + 1) hd1).2
              omega
            | cons b r1 =>
              rw [hdrop] at hd1
              rw [hd1] at hr
              obtain ⟨_, hr1⟩ := List.cons_prefix_cons.mp hr
              obtain ⟨_, hdrop2, _⟩ := drop_cons_getD line (p + 1) b r1 (by rw [hdrop, hd1])
              have hrec := ih hrest n (p + 2) (i + 1)
                (data.set (line_cnt * item + i)
                  (get_number_from_hex_char (line.getD p 0) (line.getD (p + 1) 0)))
                (by rw [hdrop2]; exact hr1) (by omega) (by omega)
              have hge' : ¬ p + 2 ≥ line.length := by omega
              unfold scan_line
              simpa only [hlt, hs, if_true, hge', if_false, Bool.false_eq_true] using hrec

/-- The function `read_config` returns on every input. -/
lemma read_config_items_total (line_cnt : Nat) :
    ∀ (n item : Nat) (conf data : List Nat),
      (read_config_items line_cnt n item conf data).isSome = true := by
  intro n
  induction n with
  | zero => intro item conf data; rfl
  | succ m ih =>
    intro item conf data
    unfold read_config_items
    cases hf : fgets BUFFSIZE_LINE conf with
    | none => rfl
    | some r =>
      obtain ⟨line, conf'⟩ := r
      have htot := scan_line_total line_cnt item line (strlen line) (getD_strlen line)
        (line.length + 2) 0 0 data (Nat.zero_le _) (by have := strlen_le line; omega)
      cases hs : scan_line line_cnt item line (strlen line) (line.length + 2) 0 0 data with
      | none => rw [hs] at htot; simp at htot
      | some res =>
        obtain ⟨b, d⟩ := res
        cases b with
        | false => simp only [hs]; rfl
        | true => simp only [hs]; exact ih _ _ _

/-- When what follows some whole lines makes `read_config` return false at any item, the
whole file makes it return false, as long as an item is left for it. -/
lemma read_config_items_false (line_cnt : Nat) (tail : List Nat)
    (htail : ∀ m item data, ∃ d c,
      read_config_items line_cnt (m + 1) item tail data = some (false, d, c)) :
    ∀ (pre : List (List Nat)) (n item : Nat) (data : List Nat),
      pre.length < n → (∀ body ∈ pre, 10 ∉ body ∧ body.length + 1 < BUFFSIZE_LINE) →
      ∃ d c, read_config_items line_cnt n item (file_of_lines pre ++ tail) data =
        some (false, d, c) := by
  intro pre
  induction pre with
  | nil =>
    intro n item data hn _
    cases n with
    | zero => omega
    | succ m => simpa [file_of_lines] using htail m item data
  | cons body pre ih =>
    intro n item data hn hw
    obtain ⟨hnl, hlen⟩ := hw body (by simp)
    have hrest : ∀ b ∈ pre, 10 ∉ b ∧ b.length + 1 < BUFFSIZE_LINE :=
      fun b hb => hw b (by simp [hb])
    cases n with
    | zero => omega
    | succ m =>
      simp only [List.length_cons] at hn
      have htot := scan_line_total line_cnt item (body ++ [10]) (strlen (body ++ [10]))
        (getD_strlen _) ((body ++ [10]).length + 2) 0 0 data (Nat.zero_le _)
        (by have := strlen_le (body ++ [10]); omega)
      simp only [file_of_lines_cons, read_config_items, fgets_line body _ hnl hlen]
      cases hs : scan_line line_cnt item (body ++ [10]) (strlen (body ++ [10]))
          ((body ++ [10]).length + 2) 0 0 data with
      | none => rw [hs] at htot; simp at htot
      | some res =>
        obtain ⟨b, d⟩ := res
        cases b with
        | false => exact ⟨d, _, rfl⟩
        | true => exact ih m (item + 1) d (by omega) hrest

/-- At the end of the file `read_config` returns false at any item. -/
lemma read_config_items_eof (line_cnt m item : Nat) (data : List Nat) :
    ∃ d c, read_config_items line_cnt (m + 1) item [] data = some (false, d, c) :=
  ⟨data, [], rfl⟩

/-- On a line with fewer bytes than `line_cnt`, of any length, `read_config` returns false
at any item. -/
lemma read_config_items_short (line_cnt : Nat) (toks : List ConfigToken) (rest : List Nat)
    (hv : ∀ tok ∈ toks, tok.valid) (hcnt : (token_bytes toks).length < line_cnt)
    (m item : Nat) (data : List Nat) :
    ∃ d c, read_config_items line_cnt (m + 1) item (render toks ++ 10 :: rest) data =
      some (false, d, c) := by
  have hchars := render_chars toks hv
  have hnl : 10 ∉ render toks := fun h => (hchars 10 h).2 rfl
  have hne : render toks ++ 10 :: rest ≠ [] := by simp
  have hpre := fgets_loop_prefix (render toks) rest hnl (BUFFSIZE_LINE - 1)
  have hnul : ∀ c ∈ (fgets_loop (BUFFSIZE_LINE - 1) (render toks ++ 10 :: rest)).1, c ≠ 0 := by
    intro c hc
    rcases List.mem_append.mp (hpre.subset hc) with h | h
    · exact (hchars c h).1
    · simp at h; omega
  have hstr := strlen_eq_length _ hnul
  obtain ⟨d, hd⟩ := scan_line_short line_cnt item
    (fgets_loop (BUFFSIZE_LINE - 1) (render toks ++ 10 :: rest)).1 toks hv
    ((fgets_loop (BUFFSIZE_LINE - 1) (render toks ++ 10 :: rest)).1.length + 2) 0 0 data
    (by simpa using hpre) (by omega) (by omega)
  refine ⟨d, (fgets_loop (BUFFSIZE_LINE - 1) (render toks ++ 10 :: rest)).2, ?_⟩
  simp only [read_config_items, fgets, hne, if_false, hstr, hd]

set_option maxRecDepth 1000000 in
/-- Claim C17, counterexample: a file of two lines, the first one long and the second one
empty, is accepted with `line_cnt = 1`.  The file ends after two lines and its second line
holds no byte, but `fgets` delivers the first line in sixteen pieces, each with one byte,
and `read_config` returns true with the empty line left unread. -/
theorem long_line_file_accepted :
    long_line_file.count 10 = 2 ∧
      read_config long_line_file (List.replicate 16 0) 1 =
        some (true, List.replicate 16 0xAA, [10]) := by
  decide

/-- Claim C17, amended: when every line before is a whole line shorter than 128
characters (its newline counted), `read_config` returns false if the file ends there,
before 16 lines were read, and if the next line, of any length, holds only separators and
fewer than `line_cnt` bytes of two hexadecimal digits before its newline.  The function
returns on every input and its scanning loop ends on every line. -/
theorem read_config_rejects (line_cnt : Nat) (pre : List (List Nat)) (data : List Nat)
    (hpre : pre.length < SLOT_CNT)
    (hwhole : ∀ body ∈ pre, 10 ∉ body ∧ body.length + 1 < BUFFSIZE_LINE) :
    (∃ d c, read_config (file_of_lines pre) data line_cnt = some (false, d, c)) ∧
    (∀ toks rest, (∀ tok ∈ toks, tok.valid) → (token_bytes toks).length < line_cnt →
      ∃ d c, read_config (file_of_lines pre ++ (render toks ++ 10 :: rest)) data line_cnt =
        some (false, d, c)) ∧
    (∀ conf, (read_config conf data line_cnt).isSome = true) ∧
    (∀ item line d,
      (scan_line line_cnt item line (strlen line) (line.length + 2) 0 0 d).isSome = true) := by
  refine ⟨?_, ?_, ?_, ?_⟩
  · have := read_config_items_false line_cnt [] (read_config_items_eof line_cnt)
      pre SLOT_CNT 0 data hpre hwhole
    simpa [read_config] using this
  · intro toks rest hv hcnt
    exact read_config_items_false line_cnt _
      (read_config_items_short line_cnt toks rest hv hcnt) pre SLOT_CNT 0 data hpre hwhole
  · intro conf
    exact read_config_items_total line_cnt SLOT_CNT 0 conf data
  · intro item line d
    exact scan_line_total line_cnt item line (strlen line) (getD_strlen line)
      (line.length + 2) 0 0 d (Nat.zero_le _) (by have := strlen_le line; omega)

/-- A file that ends after the line `AA`, and the same file with a second line of one
space, are rejected. -/
theorem read_config_rejects_witness :
    (∃ d c, read_config (file_of_lines [[65, 65]]) (List.replicate 16 0) 1 =
      some (false, d, c)) ∧
    (∃ d c, read_config (file_of_lines [[65, 65]] ++ (render [ConfigToken.sep 32] ++ 10 :: []))
      (List.replicate 16 0) 1 = some (false, d, c)) :=
  ⟨(read_config_rejects 1 [[65, 65]] (List.replicate 16 0) (by decide) (by decide)).1,
    (read_config_rejects 1 [[65, 65]] (List.replicate 16 0) (by decide) (by decide)).2.1
      [ConfigToken.sep 32] [] (by decide) (by decide)⟩

/-! ## Lemmas on the provisioning -/

/-- A copy to the start of a buffer replaces its first bytes. -/
lemma memcpy_head (dst src : List Nat) (n : Nat) (hd : n ≤ dst.length) (hs : n ≤ src.length) :
    memcpy dst 0 src n = src.take n ++ dst.drop n := by
  apply eq_of_getD_eq
  · simp [memcpy_length]; omega
  · intro i hi
    rw [memcpy_length] at hi
    rw [memcpy_getD]
    simp only [List.getD_eq_getElem?_getD, List.getElem?_append, List.length_take,
      List.getElem?_take, List.getElem?_drop, Nat.zero_le, true_and, Nat.zero_add, Nat.sub_zero]
    by_cases h : i < n
    · have h2 : i < min n src.length := by omega
      simp [h, hi, h2]
    · have h2 : ¬ i < min n src.length := by omega
      have h3 : n + (i - min n src.length) = i := by omega
      simp [h, h2, h3]

/-- The rounds of a counting loop, with the first round apart. -/
lemma range_succ_map {α : Type} (f : Nat → α) (n item : Nat) :
    (List.range (n + 1)).map (fun j => f (item + j)) =
      f item :: (List.range n).map (fun j => f (item + 1 + j)) := by
  rw [List.range_succ_eq_map, List.map_cons, List.map_map]
  congr 1
  apply List.map_congr_left
  intro j _
  simp only [Function.comp, Nat.add_zero]
  congr 1
  omega

/-- A slot write under the log. -/
lemma recorded_slot_write {σ : Type} (api : ChipApi σ) (s : σ) (log : List (ApiCall × Status))
    (slot_number : Nat) (number : atsha_big_int) :
    (recorded api).atsha_raw_slot_write (s, log) slot_number number =
      ((api.atsha_raw_slot_write s slot_number number).1,
        (api.atsha_raw_slot_write s slot_number number).2,
        log ++ [(ApiCall.raw_slot_write slot_number number,
          (api.atsha_raw_slot_write s slot_number number).1)]) := rfl

/-- An OTP write under the log. -/
lemma recorded_otp_write {σ : Type} (api : ChipApi σ) (s : σ) (log : List (ApiCall × Status))
    (address : Nat) (data : atsha_big_int) :
    (recorded api).atsha_raw_otp_write (s, log) address data =
      ((api.atsha_raw_otp_write s address data).1, (api.atsha_raw_otp_write s address data).2,
        log ++ [(ApiCall.raw_otp_write address data,
          (api.atsha_raw_otp_write s address data).1)]) := rfl

/-- A data lock under the log. -/
lemma recorded_lock_data {σ : Type} (api : ChipApi σ) (s : σ) (log : List (ApiCall × Status))
    (crc : Nat × Nat) :
    (recorded api).atsha_lock_data (s, log) crc =
      ((api.atsha_lock_data s crc).1, (api.atsha_lock_data s crc).2,
        log ++ [(ApiCall.lock_data crc, (api.atsha_lock_data s crc).1)]) := rfl

/-- The key loop under the log: either a write failed, and the function returns with that
write in the log, or all key writes of the remaining rounds are in the log, each with the
32 bytes of its line. -/
lemma write_keys_loop_log {σ : Type} (api : ChipApi σ) (data : List Nat) :
    ∀ (n item : Nat) (s : σ) (log : List (ApiCall × Status)) (buf : List Nat),
      buf.length = 32 → (item + n) * 32 ≤ data.length →
      (∃ number' s' log', write_keys_loop (recorded api) data n item (s, log)
          { bytes := BYTESIZE_KEY, data := buf } = (false, number', s', log') ∧
        ∃ e ∈ log', e.1.is_write = true ∧ e.2 ≠ Status.ATSHA_ERR_OK) ∨
      (∃ buf' s', write_keys_loop (recorded api) data n item (s, log)
          { bytes := BYTESIZE_KEY, data := buf } =
          (true, { bytes := BYTESIZE_KEY, data := buf' }, s',
            log ++ (List.range n).map (fun j =>
              (ApiCall.raw_slot_write (item + j)
                { bytes := BYTESIZE_KEY,
                  data := (data.drop ((item + j) * BYTESIZE_KEY)).take BYTESIZE_KEY },
                Status.ATSHA_ERR_OK))) ∧
        buf'.length = 32) := by
  intro n
  induction n with
  | zero =>
    intro item s log buf hl _
    exact Or.inr ⟨buf, s, by simp [write_keys_loop], hl⟩
  | succ n ih =>
    intro item s log buf hl hd
    have hcopy : memcpy buf 0 (data.drop (item * BYTESIZE_KEY)) BYTESIZE_KEY =
        (data.drop (item * BYTESIZE_KEY)).take BYTESIZE_KEY := by
      have h1 : BYTESIZE_KEY ≤ (data.drop (item * BYTESIZE_KEY)).length := by
        simp only [List.length_drop, BYTESIZE_KEY]; omega
      rw [memcpy_head _ _ _ (by simp only [BYTESIZE_KEY]; omega) h1]
      simp [BYTESIZE_KEY, hl]
    have hlen : ((data.drop (item * BYTESIZE_KEY)).take BYTESIZE_KEY).length = 32 := by
      simp only [List.length_take, List.length_drop, BYTESIZE_KEY]; omega
    by_cases hw : (api.atsha_raw_slot_write s item
        { bytes := BYTESIZE_KEY,
          data := (data.drop (item * BYTESIZE_KEY)).take BYTESIZE_KEY }).1 = Status.ATSHA_ERR_OK
    · rcases ih (item + 1)
          (api.atsha_raw_slot_write s item
            { bytes := BYTESIZE_KEY,
              data := (data.drop (item * BYTESIZE_KEY)).take BYTESIZE_KEY }).2
          (log ++ [(ApiCall.raw_slot_write item
            { bytes := BYTESIZE_KEY,
              data := (data.drop (item * BYTESIZE_KEY)).take BYTESIZE_KEY },
            Status.ATSHA_ERR_OK)])
          ((data.drop (item * BYTESIZE_KEY)).take BYTESIZE_KEY) hlen (by omega)
        with ⟨number', s', log', hrun, hbad⟩ | ⟨buf', s', hrun, hlen'⟩
      · refine Or.inl ⟨number', s', log', ?_, hbad⟩
        simp only [write_keys_loop, recorded_slot_write, hcopy, hw, ne_eq, not_true_eq_false,
          if_false]
        exact hrun
      · refine Or.inr ⟨buf', s', ?_, hlen'⟩
        simp only [write_keys_loop, recorded_slot_write, hcopy, hw, ne_eq, not_true_eq_false,
          if_false]
        have hr := range_succ_map (fun k => (ApiCall.raw_slot_write k
          { bytes := BYTESIZE_KEY, data := (data.drop (k * BYTESIZE_KEY)).take BYTESIZE_KEY },
          Status.ATSHA_ERR_OK)) n item
        simp only at hr
        rw [hrun, hr, List.append_assoc]
        rfl
    · refine Or.inl ⟨atsha_big_int.mk BYTESIZE_KEY
          ((data.drop (item * BYTESIZE_KEY)).take BYTESIZE_KEY),
        (api.atsha_raw_slot_write s item (atsha_big_int.mk BYTESIZE_KEY
          ((data.drop (item * BYTESIZE_KEY)).take BYTESIZE_KEY))).2,
        log ++ [(ApiCall.raw_slot_write item (atsha_big_int.mk BYTESIZE_KEY
          ((data.drop (item * BYTESIZE_KEY)).take BYTESIZE_KEY)),
          (api.atsha_raw_slot_write s item (atsha_big_int.mk BYTESIZE_KEY
            ((data.drop (item * BYTESIZE_KEY)).take BYTESIZE_KEY))).1)], ?_, ?_⟩
      · simp only [write_keys_loop, recorded_slot_write, hcopy, hw, ne_eq, not_false_eq_true,
          if_true]
      · exact ⟨_, List.mem_append_right _ (List.mem_singleton.mpr rfl), rfl, hw⟩

/-- The rounds of a loop that counts two variables, with the first round apart. -/
lemma range_succ_map2 {α : Type} (f : Nat → Nat → α) (n a b : Nat) :
    (List.range (n + 1)).map (fun j => f (a + j) (b + j)) =
      f a b :: (List.range n).map (fun j => f (a + 1 + j) (b + 1 + j)) := by
  rw [List.range_succ_eq_map, List.map_cons, List.map_map]
  congr 1
  apply List.map_congr_left
  intro j _
  simp only [Function.comp, Nat.add_zero]
  congr 1 <;> omega

/-- The OTP loop under the log: either a write failed, and the function returns with that
write in the log, or all OTP writes of the remaining rounds are in the log, each with the
4 bytes of its line in front of the bytes `tail` that the buffer held before. -/
lemma write_otp_loop_log {σ : Type} (api : ChipApi σ) (otp : List Nat) (tail : List Nat) :
    ∀ (n addr item : Nat) (s : σ) (log : List (ApiCall × Status)) (buf : List Nat),
      buf.length = 32 → buf.drop 4 = tail → (item + n) * 4 ≤ otp.length →
      (∃ number' s' log', write_otp_loop (recorded api) otp n addr item (s, log)
          { bytes := BYTESIZE_OTP, data := buf } = (false, number', s', log') ∧
        ∃ e ∈ log', e.1.is_write = true ∧ e.2 ≠ Status.ATSHA_ERR_OK) ∨
      (∃ buf' s', write_otp_loop (recorded api) otp n addr item (s, log)
          { bytes := BYTESIZE_OTP, data := buf } =
          (true, { bytes := BYTESIZE_OTP, data := buf' }, s',
            log ++ (List.range n).map (fun j =>
              (ApiCall.raw_otp_write (addr + j)
                { bytes := BYTESIZE_OTP,
                  data := (otp.drop ((item + j) * BYTESIZE_OTP)).take BYTESIZE_OTP ++ tail },
                Status.ATSHA_ERR_OK)))) := by
  intro n
  induction n with
  | zero =>
    intro addr item s log buf _ _ _
    exact Or.inr ⟨buf, s, by simp [write_otp_loop]⟩
  | succ n ih =>
    intro addr item s log buf hl ht hd
    have hcopy : memcpy buf 0 (otp.drop (item * BYTESIZE_OTP)) BYTESIZE_OTP =
        (otp.drop (item * BYTESIZE_OTP)).take BYTESIZE_OTP ++ tail := by
      have h1 : BYTESIZE_OTP ≤ (otp.drop (item * BYTESIZE_OTP)).length := by
        simp only [List.length_drop, BYTESIZE_OTP]; omega
      rw [memcpy_head _ _ _ (by simp only [BYTESIZE_OTP]; omega) h1, ← ht]
      rfl
    have hwlen : ((otp.drop (item * BYTESIZE_OTP)).take BYTESIZE_OTP).length = 4 := by
      simp only [List.length_take, List.length_drop, BYTESIZE_OTP]; omega
    have htl : tail.length = 28 := by rw [← ht]; simp [hl]
    have hlen : ((otp.drop (item * BYTESIZE_OTP)).take BYTESIZE_OTP ++ tail).length = 32 := by
      rw [List.length_append, hwlen, htl]
    have hdrop : ((otp.drop (item * BYTESIZE_OTP)).take BYTESIZE_OTP ++ tail).drop 4 = tail := by
      rw [List.drop_append_of_le_length (by omega), List.drop_of_length_le (by omega)]
      rfl
    by_cases hw : (api.atsha_raw_otp_write s addr
        { bytes := BYTESIZE_OTP,
          data := (otp.drop (item * BYTESIZE_OTP)).take BYTESIZE_OTP ++ tail }).1 =
        Status.ATSHA_ERR_OK
    · rcases ih (addr + 1) (item + 1)
          (api.atsha_raw_otp_write s addr
            { bytes := BYTESIZE_OTP,
              data := (otp.drop (item * BYTESIZE_OTP)).take BYTESIZE_OTP ++ tail }).2
          (log ++ [(ApiCall.raw_otp_write addr
            { bytes := BYTESIZE_OTP,
              data := (otp.drop (item * BYTESIZE_OTP)).take BYTESIZE_OTP ++ tail },
            Status.ATSHA_ERR_OK)])
          ((otp.drop (item * BYTESIZE_OTP)).take BYTESIZE_OTP ++ tail) hlen hdrop (by omega)
        with ⟨number', s', log', hrun, hbad⟩ | ⟨buf', s', hrun⟩
      · refine Or.inl ⟨number', s', log', ?_, hbad⟩
        simp only [write_otp_loop, recorded_otp_write, hcopy, hw, ne_eq, not_true_eq_false,
          if_false]
        exact hrun
      · refine Or.inr ⟨buf', s', ?_⟩
        simp only [write_otp_loop, recorded_otp_write, hcopy, hw, ne_eq, not_true_eq_false,
          if_false]
        have hr := range_succ_map2 (fun a k => (ApiCall.raw_otp_write a
          { bytes := BYTESIZE_OTP,
            data := (otp.drop (k * BYTESIZE_OTP)).take BYTESIZE_OTP ++ tail },
          Status.ATSHA_ERR_OK)) n addr item
        simp only at hr
        rw [hrun, hr, List.append_assoc]
        rfl
    · refine Or.inl ⟨atsha_big_int.mk BYTESIZE_OTP
          ((otp.drop (item * BYTESIZE_OTP)).take BYTESIZE_OTP ++ tail),
        (api.atsha_raw_otp_write s addr (atsha_big_int.mk BYTESIZE_OTP
          ((otp.drop (item * BYTESIZE_OTP)).take BYTESIZE_OTP ++ tail))).2,
        log ++ [(ApiCall.raw_otp_write addr (atsha_big_int.mk BYTESIZE_OTP
          ((otp.drop (item * BYTESIZE_OTP)).take BYTESIZE_OTP ++ tail)),
          (api.atsha_raw_otp_write s addr (atsha_big_int.mk BYTESIZE_OTP
            ((otp.drop (item * BYTESIZE_OTP)).take BYTESIZE_OTP ++ tail))).1)], ?_, ?_⟩
      · simp only [write_otp_loop, recorded_otp_write, hcopy, hw, ne_eq, not_false_eq_true,
          if_true]
      · exact ⟨_, List.mem_append_right _ (List.mem_singleton.mpr rfl), rfl, hw⟩

/-- The log does not change what the key loop does. -/
lemma write_keys_loop_recorded {σ : Type} (api : ChipApi σ) (data : List Nat) :
    ∀ (n item : Nat) (s : σ) (log : List (ApiCall × Status)) (number : atsha_big_int),
      ∃ log', write_keys_loop (recorded api) data n item (s, log) number =
        ((write_keys_loop api data n item s number).1,
          (write_keys_loop api data n item s number).2.1,
          (write_keys_loop api data n item s number).2.2, log') := by
  intro n
  induction n with
  | zero => intro item s log number; exact ⟨log, rfl⟩
  | succ n ih =>
    intro item s log number
    simp only [write_keys_loop, recorded_slot_write]
    split
    · exact ⟨_, rfl⟩
    · exact ih _ _ _ _

/-- The log does not change what the OTP loop does. -/
lemma write_otp_loop_recorded {σ : Type} (api : ChipApi σ) (otp : List Nat) :
    ∀ (n addr item : Nat) (s : σ) (log : List (ApiCall × Status)) (number : atsha_big_int),
      ∃ log', write_otp_loop (recorded api) otp n addr item (s, log) number =
        ((write_otp_loop api otp n addr item s number).1,
          (write_otp_loop api otp n addr item s number).2.1,
          (write_otp_loop api otp n addr item s number).2.2, log') := by
  intro n
  induction n with
  | zero => intro addr item s log number; exact ⟨log, rfl⟩
  | succ n ih =>
    intro addr item s log number
    simp only [write_otp_loop, recorded_otp_write]
    split
    · exact ⟨_, rfl⟩
    · exact ih _ _ _ _ _

/-- The log does not change what `write_and_lock_data` does. -/
lemma write_and_lock_data_recorded {σ : Type} (api : ChipApi σ) (handle : σ)
    (log : List (ApiCall × Status)) (data otp : List Nat) (number : atsha_big_int) :
    (write_and_lock_data (recorded api) (handle, log) data otp number).1 =
        (write_and_lock_data api handle data otp number).1 ∧
      (write_and_lock_data (recorded api) (handle, log) data otp number).2.1 =
        (write_and_lock_data api handle data otp number).2 := by
  unfold write_and_lock_data
  obtain ⟨log1, h1⟩ := write_keys_loop_recorded api data SLOT_CNT 0 handle log
    { bytes := BYTESIZE_KEY, data := number.data }
  simp only [h1]
  split
  · exact ⟨rfl, rfl⟩
  · obtain ⟨log2, h2⟩ := write_otp_loop_recorded api otp SLOT_CNT 0 0
      (write_keys_loop api data SLOT_CNT 0 handle
        { bytes := BYTESIZE_KEY, data := number.data }).2.2 log1
      { bytes := BYTESIZE_OTP, data := (write_keys_loop api data SLOT_CNT 0 handle
        { bytes := BYTESIZE_KEY, data := number.data }).2.1.data }
    simp only [h2]
    split
    · exact ⟨rfl, rfl⟩
    · simp only [recorded_lock_data]
      split
      · exact ⟨rfl, rfl⟩
      · exact ⟨rfl, rfl⟩

/-- The pieces of `c` bytes of a buffer, one after the other, are the buffer. -/
lemma flatMap_pieces (l : List Nat) (c : Nat) :
    ∀ n, (List.range n).flatMap (fun k => (l.drop (k * c)).take c) = l.take (n * c) := by
  intro n
  induction n with
  | zero => simp
  | succ n ih =>
    rw [List.range_succ, List.flatMap_append, ih]
    simp only [List.flatMap_cons, List.flatMap_nil, List.append_nil]
    rw [Nat.succ_mul, List.take_add]

/-- The same for pieces that are followed by other bytes in their buffer. -/
lemma flatMap_pieces_tail (l tail : List Nat) (c : Nat) :
    ∀ n, n * c ≤ l.length →
      (List.range n).flatMap (fun k => ((l.drop (k * c)).take c ++ tail).take c) =
        l.take (n * c) := by
  intro n
  induction n with
  | zero => simp
  | succ n ih =>
    intro h
    rw [Nat.succ_mul] at h
    rw [List.range_succ, List.flatMap_append, ih (by omega)]
    simp only [List.flatMap_cons, List.flatMap_nil, List.append_nil]
    have hlen : ((l.drop (n * c)).take c).length = c := by
      simp only [List.length_take, List.length_drop]; omega
    have hpiece : ((l.drop (n * c)).take c ++ tail).take c = (l.drop (n * c)).take c := by
      rw [List.take_append_of_le_length (le_of_eq hlen.symm)]
      exact List.take_of_length_le (le_of_eq hlen)
    rw [hpiece, Nat.succ_mul, List.take_add]

/-- The two copies into `both` give the keys followed by the OTP words. -/
lemma both_eq (data otp : List Nat) (hd : data.length = 512) (ho : otp.length = 64) :
    memcpy (memcpy (List.replicate 576 0) 0 data 512) 512 otp 64 = data ++ otp := by
  have h := memcpy_zeros [] data (List.replicate 64 0) 512 hd
  have h2 := memcpy_zeros data otp [] 64 ho
  simp only [List.nil_append, List.length_nil, List.append_nil] at h h2
  have hr : List.replicate 576 0 = List.replicate 512 0 ++ List.replicate 64 0 := by
    rw [List.append_replicate_replicate]
  rw [hr, h, ← hd, h2]

/-- The log of `write_and_lock_data`: either it holds a write that failed, or it is the 16
key writes, the 16 OTP writes and the lock with the CRC of the keys followed by the OTP
words. -/
lemma write_and_lock_data_log {σ : Type} (api : ChipApi σ) (handle : σ) (data otp : List Nat)
    (number : atsha_big_int) (hd : data.length = 512) (ho : otp.length = 64)
    (hn : number.data.length = 32) :
    (∃ e ∈ (write_and_lock_data (recorded api) (handle, []) data otp number).2.2,
        e.1.is_write = true ∧ e.2 ≠ Status.ATSHA_ERR_OK) ∨
    (∃ tail status, (write_and_lock_data (recorded api) (handle, []) data otp number).2.2 =
      (List.range 16).map (fun k => (ApiCall.raw_slot_write k
          { bytes := 32, data := (data.drop (k * 32)).take 32 }, Status.ATSHA_ERR_OK)) ++
        (List.range 16).map (fun a => (ApiCall.raw_otp_write a
          { bytes := 4, data := (otp.drop (a * 4)).take 4 ++ tail }, Status.ATSHA_ERR_OK)) ++
        [(ApiCall.lock_data (calculate_crc 576 (data ++ otp)), status)]) := by
  rcases write_keys_loop_log api data SLOT_CNT 0 handle [] number.data hn
      (by simp only [SLOT_CNT]; omega)
    with ⟨number1, s1, log1, hrun1, hbad1⟩ | ⟨buf1, s1, hrun1, hlen1⟩
  · left
    simp only [write_and_lock_data, hrun1, if_true]
    exact hbad1
  · generalize hlog1 : ([] : List (ApiCall × Status)) ++ (List.range SLOT_CNT).map (fun j =>
        (ApiCall.raw_slot_write (0 + j)
          { bytes := BYTESIZE_KEY,
            data := (data.drop ((0 + j) * BYTESIZE_KEY)).take BYTESIZE_KEY },
          Status.ATSHA_ERR_OK)) = log1 at hrun1
    rcases write_otp_loop_log api otp (buf1.drop 4) SLOT_CNT 0 0 s1 log1 buf1 hlen1 rfl
        (by simp only [SLOT_CNT]; omega)
      with ⟨number2, s2, log2, hrun2, hbad2⟩ | ⟨buf2, s2, hrun2⟩
    · left
      simp only [write_and_lock_data, hrun1, Bool.true_eq_false, if_false, hrun2, if_true]
      exact hbad2
    · right
      have hboth : memcpy (memcpy
          (List.replicate (SLOT_CNT * BYTESIZE_KEY + SLOT_CNT * BYTESIZE_OTP) 0) 0 data
          (SLOT_CNT * BYTESIZE_KEY)) (SLOT_CNT * BYTESIZE_KEY) otp (SLOT_CNT * BYTESIZE_OTP) =
          data ++ otp := both_eq data otp hd ho
      refine ⟨buf1.drop 4, (api.atsha_lock_data s2 (calculate_crc 576 (data ++ otp))).1, ?_⟩
      simp only [write_and_lock_data, hrun1, Bool.true_eq_false, if_false, hrun2, hboth,
        recorded_lock_data]
      rw [← hlog1]
      split <;> simp [SLOT_CNT, BYTESIZE_KEY, BYTESIZE_OTP]

/-- Claim C18: when all writes of `write_and_lock_data` succeed, the library is called 33
times: the 16 slot writes in slot order, each with 32 bytes of `data`, the 16 OTP writes
in address order 0x00..0x0F, each with 4 bytes of `otp`, and `atsha_lock_data`.  The CRC
passed to the lock is the output of `calculate_crc` over the 576 bytes written, slot values
first, and is the register after all 576 bytes, low byte first.  The log does not change
the result of the function. -/
theorem data_lock_crc {σ : Type} (api : ChipApi σ) (handle : σ) (data otp : List Nat)
    (number : atsha_big_int) (hd : data.length = 512) (ho : otp.length = 64)
    (hn : number.data.length = 32)
    (hok : ∀ e ∈ (write_and_lock_data (recorded api) (handle, []) data otp number).2.2,
      e.1.is_write = true → e.2 = Status.ATSHA_ERR_OK) :
    ∃ tail status crc,
      (write_and_lock_data (recorded api) (handle, []) data otp number).2.2 =
        (List.range 16).map (fun k => (ApiCall.raw_slot_write k
            { bytes := 32, data := (data.drop (k * 32)).take 32 }, Status.ATSHA_ERR_OK)) ++
          (List.range 16).map (fun a => (ApiCall.raw_otp_write a
            { bytes := 4, data := (otp.drop (a * 4)).take 4 ++ tail }, Status.ATSHA_ERR_OK)) ++
          [(ApiCall.lock_data crc, status)] ∧
      ((write_and_lock_data (recorded api) (handle, []) data otp number).2.2.flatMap
        (fun e => e.1.written)).length = 576 ∧
      crc = calculate_crc 576
        ((write_and_lock_data (recorded api) (handle, []) data otp number).2.2.flatMap
          (fun e => e.1.written)) ∧
      (write_and_lock_data (recorded api) (handle, []) data otp number).2.2.flatMap
        (fun e => e.1.written) = data ++ otp ∧
      crc = (crc_bytes 0 (data ++ otp) % 256, crc_bytes 0 (data ++ otp) / 256) ∧
      (write_and_lock_data (recorded api) (handle, []) data otp number).1 =
        (write_and_lock_data api handle data otp number).1 := by
  rcases write_and_lock_data_log api handle data otp number hd ho hn with
    ⟨e, he, hw, hs⟩ | ⟨tail, status, hlog⟩
  · exact absurd (hok e he hw) hs
  · have hwritten : (write_and_lock_data (recorded api) (handle, []) data otp number).2.2.flatMap
        (fun e => e.1.written) = data ++ otp := by
      rw [hlog]
      simp only [List.flatMap_append, List.flatMap_map, List.flatMap_cons, List.flatMap_nil,
        ApiCall.written, List.append_nil]
      have h1 := flatMap_pieces data 32 16
      have h2 := flatMap_pieces_tail otp tail 4 16 (by omega)
      rw [List.take_of_length_le (by omega)] at h1 h2
      simp only [List.take_take, Nat.min_self]
      rw [h1, h2]
    have hlen : (data ++ otp).length = 576 := by simp [hd, ho]
    refine ⟨tail, status, calculate_crc 576 (data ++ otp), hlog, ?_, ?_, hwritten, ?_,
      (write_and_lock_data_recorded api handle [] data otp number).1⟩
    · rw [hwritten, hlen]
    · rw [hwritten]
    · have := calculate_crc_register (data ++ otp) (by omega)
      rw [hlen] at this
      exact this

set_option maxRecDepth 1000000 in
/-- On a device that acknowledges everything the lock of the data zone gets the CRC of the
example keys followed by the example OTP words. -/
theorem data_lock_crc_witness :
    ∃ tail status crc,
      (write_and_lock_data (recorded (library_api table_device_operations zero_word_transport))
          ([], []) example_keys example_otp { bytes := 0, data := List.replicate 32 0 }).2.2 =
        (List.range 16).map (fun k => (ApiCall.raw_slot_write k
            { bytes := 32, data := (example_keys.drop (k * 32)).take 32 },
            Status.ATSHA_ERR_OK)) ++
          (List.range 16).map (fun a => (ApiCall.raw_otp_write a
            { bytes := 4, data := (example_otp.drop (a * 4)).take 4 ++ tail },
            Status.ATSHA_ERR_OK)) ++
          [(ApiCall.lock_data crc, status)] ∧
      ((write_and_lock_data (recorded (library_api table_device_operations zero_word_transport))
          ([], []) example_keys example_otp
          { bytes := 0, data := List.replicate 32 0 }).2.2.flatMap
        (fun e => e.1.written)).length = 576 ∧
      crc = calculate_crc 576
        ((write_and_lock_data
          (recorded (library_api table_device_operations zero_word_transport))
          ([], []) example_keys example_otp
          { bytes := 0, data := List.replicate 32 0 }).2.2.flatMap (fun e => e.1.written)) ∧
      (write_and_lock_data (recorded (library_api table_device_operations zero_word_transport))
          ([], []) example_keys example_otp
          { bytes := 0, data := List.replicate 32 0 }).2.2.flatMap
        (fun e => e.1.written) = example_keys ++ example_otp ∧
      crc = (crc_bytes 0 (example_keys ++ example_otp) % 256,
        crc_bytes 0 (example_keys ++ example_otp) / 256) ∧
      (write_and_lock_data (recorded (library_api table_device_operations zero_word_transport))
          ([], []) example_keys example_otp { bytes := 0, data := List.replicate 32 0 }).1 =
        (write_and_lock_data (library_api table_device_operations zero_word_transport)
          [] example_keys example_otp { bytes := 0, data := List.replicate 32 0 }).1 :=
  data_lock_crc (library_api table_device_operations zero_word_transport) [] example_keys
    example_otp { bytes := 0, data := List.replicate 32 0 } (by decide) (by decide)
    (by decide) (by decide)

/-- A read of the config-zone device. -/
lemma config_zone_read (status : Nat → Status) (dev : ConfigDevice) (address : Nat)
    (data : atsha_big_int) :
    (config_zone_api status).atsha_raw_conf_read dev address data =
      if status dev.calls = Status.ATSHA_ERR_OK then
        (Status.ATSHA_ERR_OK,
          { bytes := 4, data := memcpy data.data 0 (dev.zone.drop (4 * (address % 256))) 4 },
          { zone := dev.zone, calls := dev.calls + 1, locks := dev.locks })
      else (status dev.calls, data,
        { zone := dev.zone, calls := dev.calls + 1, locks := dev.locks }) := rfl

/-- A write of the config-zone device. -/
lemma config_zone_write (status : Nat → Status) (dev : ConfigDevice) (address : Nat)
    (data : atsha_big_int) :
    (config_zone_api status).atsha_raw_conf_write dev address data =
      if status dev.calls = Status.ATSHA_ERR_OK then
        (Status.ATSHA_ERR_OK,
          { zone := memcpy dev.zone (4 * (address % 256)) data.data 4, calls := dev.calls + 1,
            locks := dev.locks })
      else (status dev.calls,
        { zone := dev.zone, calls := dev.calls + 1, locks := dev.locks }) := rfl

/-- A config lock of the config-zone device. -/
lemma config_zone_lock (status : Nat → Status) (dev : ConfigDevice) (crc : Nat × Nat) :
    (config_zone_api status).atsha_lock_config dev crc =
      (status dev.calls,
        { zone := dev.zone, calls := dev.calls + 1,
          locks := dev.locks ++ [(crc, dev.zone)] }) := rfl

/-- The word that a read leaves in the buffer. -/
lemma read_word_getD (buf zone : List Nat) (a j : Nat) (hb : 4 ≤ buf.length) (hj : j < 4) :
    (memcpy buf 0 (zone.drop (4 * a)) 4).getD j 0 = zone.getD (4 * a + j) 0 := by
  rw [memcpy_getD]
  have h : 0 ≤ j ∧ j < 0 + 4 ∧ j < buf.length := by omega
  simp only [h, and_self, if_true, Nat.sub_zero]
  simp [List.getD_eq_getElem?_getD, List.getElem?_drop]

/-- The loop that reads the config zone, on the config-zone device: it makes no lock and
leaves the zone alone, and either a read failed or `config` holds the words read. -/
lemma read_config_zone_loop_spec (status : Nat → Status) :
    ∀ (n addr : Nat) (dev : ConfigDevice) (config : List Nat) (record : atsha_big_int),
      addr + n ≤ 22 → 4 ≤ record.data.length →
      (∃ config' dev',
        read_config_zone_loop (config_zone_api status) n addr addr dev config record =
          (false, config', dev') ∧ dev'.locks = dev.locks ∧
        ∃ k, status k ≠ Status.ATSHA_ERR_OK) ∨
      (∃ config' dev',
        read_config_zone_loop (config_zone_api status) n addr addr dev config record =
          (true, config', dev') ∧ dev'.locks = dev.locks ∧ dev'.zone = dev.zone ∧
        config'.length = config.length ∧
        ∀ i, config'.getD i 0 =
          if 4 * addr ≤ i ∧ i < 4 * (addr + n) ∧ i < config.length then dev.zone.getD i 0
          else config.getD i 0) := by
  intro n
  induction n with
  | zero =>
    intro addr dev config record _ _
    refine Or.inr ⟨config, dev, rfl, rfl, rfl, rfl, ?_⟩
    intro i
    have : ¬ (4 * addr ≤ i ∧ i < 4 * (addr + 0) ∧ i < config.length) := by omega
    simp only [this, if_false]
  | succ n ih =>
    intro addr dev config record ha hr
    by_cases hs : status dev.calls = Status.ATSHA_ERR_OK
    · have hmod : addr % 256 = addr := Nat.mod_eq_of_lt (by omega)
      rcases ih (addr + 1) { zone := dev.zone, calls := dev.calls + 1, locks := dev.locks }
          (memcpy config (addr * BYTESIZE_CNF)
            (memcpy record.data 0 (dev.zone.drop (4 * addr)) 4) 4)
          { bytes := 4, data := memcpy record.data 0 (dev.zone.drop (4 * addr)) 4 }
          (by omega) (by simp only [memcpy_length]; exact hr)
        with ⟨config', dev', hrun, hlocks, hbad⟩ | ⟨config', dev', hrun, hlocks, hzone, hlen, hget⟩
      · refine Or.inl ⟨config', dev', ?_, hlocks, hbad⟩
        simp only [read_config_zone_loop, config_zone_read, hs, if_true, ne_eq,
          not_true_eq_false, if_false, hmod]
        exact hrun
      · refine Or.inr ⟨config', dev', ?_, hlocks, hzone, ?_, ?_⟩
        · simp only [read_config_zone_loop, config_zone_read, hs, if_true, ne_eq,
            not_true_eq_false, if_false, hmod]
          exact hrun
        · rw [hlen, memcpy_length]
        · intro i
          rw [hget i, memcpy_length, memcpy_getD]
          simp only [BYTESIZE_CNF]
          by_cases h1 : 4 * (addr + 1) ≤ i ∧ i < 4 * (addr + 1 + n) ∧ i < config.length
          · have h2 : 4 * addr ≤ i ∧ i < 4 * (addr + (n + 1)) ∧ i < config.length := by omega
            simp only [h1, h2, and_self, if_true]
          · simp only [h1, if_false]
            by_cases h3 : addr * 4 ≤ i ∧ i < addr * 4 + 4 ∧ i < config.length
            · have h2 : 4 * addr ≤ i ∧ i < 4 * (addr + (n + 1)) ∧ i < config.length := by omega
              simp only [h3, h2, and_self, if_true]
              rw [read_word_getD _ _ _ _ hr (by omega)]
              congr 1
              omega
            · have h2 : ¬ (4 * addr ≤ i ∧ i < 4 * (addr + (n + 1)) ∧ i < config.length) := by
                omega
              simp only [h3, h2, if_false]
    · refine Or.inl ⟨config, { zone := dev.zone, calls := dev.calls + 1, locks := dev.locks },
        ?_, rfl, ⟨dev.calls, hs⟩⟩
      simp only [read_config_zone_loop, config_zone_read, hs, if_false, ne_eq,
        not_false_eq_true, if_true]

/-- A write of four bytes, as four assignments. -/
lemma memcpy_four (dst src : List Nat) (off : Nat) :
    memcpy dst off src 4 =
      (((dst.set (off + 0) (src.getD 0 0)).set (off + 1) (src.getD 1 0)).set (off + 2)
        (src.getD 2 0)).set (off + 3) (src.getD 3 0) := rfl

/-- The function `set_otp_mode` on the config-zone device, called with `config` equal to the
zone: it makes no lock, and either a call failed or byte 2 of word 0x04 is the read-only
mode in the zone and in `config`, which are still equal. -/
lemma set_otp_mode_spec (status : Nat → Status) (mode : Nat) (dev : ConfigDevice)
    (record : atsha_big_int) (hr : 4 ≤ record.data.length) :
    (∃ config' dev', set_otp_mode (config_zone_api status) mode dev dev.zone record =
        (false, config', dev') ∧ dev'.locks = dev.locks ∧
      ∃ k, status k ≠ Status.ATSHA_ERR_OK) ∨
    (∃ dev', set_otp_mode (config_zone_api status) mode dev dev.zone record =
        (true, dev'.zone, dev') ∧ dev'.locks = dev.locks ∧
      dev'.zone = dev.zone.set 18 (mode % 256)) := by
  by_cases hs : status dev.calls = Status.ATSHA_ERR_OK
  · by_cases hs2 : status (dev.calls + 1) = Status.ATSHA_ERR_OK
    · have hzone : memcpy dev.zone (4 * (4 % 256))
          ((memcpy record.data 0 (dev.zone.drop (4 * (4 % 256))) 4).set 2 (mode % 256)) 4 =
          dev.zone.set 18 (mode % 256) := by
        apply eq_of_getD_eq
        · simp [memcpy_length]
        · intro i _
          rw [memcpy_getD, getD_set_eq, getD_set_eq, memcpy_length]
          by_cases h1 : 4 * (4 % 256) ≤ i ∧ i < 4 * (4 % 256) + 4 ∧ i < dev.zone.length
          · simp only [h1, and_self, if_true]
            by_cases h2 : i = 18
            · subst h2
              have : (2 = 18 - 4 * (4 % 256) ∧ 2 < record.data.length) := by omega
              have h3 : (18 = 18 ∧ 18 < dev.zone.length) := by omega
              simp only [this, h3, and_self, if_true]
            · have : ¬ (2 = i - 4 * (4 % 256) ∧ 2 < record.data.length) := by omega
              have h3 : ¬ (18 = i ∧ 18 < dev.zone.length) := by omega
              simp only [this, h3, if_false]
              rw [read_word_getD _ _ _ _ hr (by omega)]
              congr 1
              omega
          · have h3 : ¬ (18 = i ∧ 18 < dev.zone.length) := by omega
            simp only [h1, h3, if_false]
      refine Or.inr ⟨ConfigDevice.mk (dev.zone.set 18 (mode % 256)) (dev.calls + 1 + 1)
        dev.locks, ?_, rfl, rfl⟩
      simp only [set_otp_mode, config_zone_read, config_zone_write, hs, hs2, if_true, ne_eq,
        not_true_eq_false, if_false, hzone, BYTESIZE_CNF]
    · refine Or.inl ⟨dev.zone, ConfigDevice.mk dev.zone (dev.calls + 1 + 1) dev.locks,
        ?_, rfl, ⟨dev.calls + 1, hs2⟩⟩
      simp only [set_otp_mode, config_zone_read, config_zone_write, hs, hs2, if_true, ne_eq,
        not_true_eq_false, if_false, not_false_eq_true]
  · refine Or.inl ⟨dev.zone, ConfigDevice.mk dev.zone (dev.calls + 1) dev.locks,
      ?_, rfl, ⟨dev.calls, hs⟩⟩
    simp only [set_otp_mode, config_zone_read, hs, if_false, ne_eq, not_false_eq_true, if_true]

/-- A buffer of at least four bytes after the four assignments of `set_slot_config`. -/
lemma slot_config_word (buf : List Nat) (hb : 4 ≤ buf.length) :
    ((((buf.set 0 SLOT_CONFIG_READ).set 1 SLOT_CONFIG_WRITE).set 2 SLOT_CONFIG_READ).set 3
        SLOT_CONFIG_WRITE).getD 0 0 = SLOT_CONFIG_READ ∧
      ((((buf.set 0 SLOT_CONFIG_READ).set 1 SLOT_CONFIG_WRITE).set 2 SLOT_CONFIG_READ).set 3
        SLOT_CONFIG_WRITE).getD 1 0 = SLOT_CONFIG_WRITE ∧
      ((((buf.set 0 SLOT_CONFIG_READ).set 1 SLOT_CONFIG_WRITE).set 2 SLOT_CONFIG_READ).set 3
        SLOT_CONFIG_WRITE).getD 2 0 = SLOT_CONFIG_READ ∧
      ((((buf.set 0 SLOT_CONFIG_READ).set 1 SLOT_CONFIG_WRITE).set 2 SLOT_CONFIG_READ).set 3
        SLOT_CONFIG_WRITE).getD 3 0 = SLOT_CONFIG_WRITE := by
  simp only [getD_set_eq, List.length_set]
  refine ⟨?_, ?_, ?_, ?_⟩
  · have h : (0 = 0 ∧ 0 < buf.length) := by omega
    simp [h]
  · have h : (1 = 1 ∧ 1 < buf.length) := by omega
    simp [h]
  · have h : (2 = 2 ∧ 2 < buf.length) := by omega
    simp [h]
  · have h : (3 = 3 ∧ 3 < buf.length) := by omega
    simp [h]

/-- The loop of `set_slot_config` on the config-zone device, called with `config` equal to
the zone: it makes no lock, and either a call failed or the words of the remaining rounds
are `80 80 80 80` in the zone and in `config`, which are still equal. -/
lemma set_slot_config_loop_spec (status : Nat → Status) :
    ∀ (n addr : Nat) (dev : ConfigDevice) (record : atsha_big_int),
      addr + n ≤ 22 → 4 ≤ record.data.length →
      (∃ config' dev',
        set_slot_config_loop (config_zone_api status) n addr dev dev.zone record =
          (false, config', dev') ∧ dev'.locks = dev.locks ∧
        ∃ k, status k ≠ Status.ATSHA_ERR_OK) ∨
      (∃ dev', set_slot_config_loop (config_zone_api status) n addr dev dev.zone record =
          (true, dev'.zone, dev') ∧ dev'.locks = dev.locks ∧
        dev'.zone.length = dev.zone.length ∧
        ∀ i, dev'.zone.getD i 0 =
          if 4 * addr ≤ i ∧ i < 4 * (addr + n) ∧ i < dev.zone.length then 0x80
          else dev.zone.getD i 0) := by
  intro n
  induction n with
  | zero =>
    intro addr dev record _ _
    refine Or.inr ⟨dev, rfl, rfl, rfl, ?_⟩
    intro i
    have : ¬ (4 * addr ≤ i ∧ i < 4 * (addr + 0) ∧ i < dev.zone.length) := by omega
    simp only [this, if_false]
  | succ n ih =>
    intro addr dev record ha hr
    have hmod : addr % 256 = addr := Nat.mod_eq_of_lt (by omega)
    by_cases hs : status dev.calls = Status.ATSHA_ERR_OK
    · by_cases hs2 : status (dev.calls + 1) = Status.ATSHA_ERR_OK
      · have hbuf : 4 ≤ (memcpy record.data 0 (dev.zone.drop (4 * addr)) 4).length := by
          rw [memcpy_length]; exact hr
        obtain ⟨w0, w1, w2, w3⟩ := slot_config_word _ hbuf
        have hzone : memcpy dev.zone (4 * addr)
            (((((memcpy record.data 0 (dev.zone.drop (4 * addr)) 4).set 0 SLOT_CONFIG_READ).set 1
              SLOT_CONFIG_WRITE).set 2 SLOT_CONFIG_READ).set 3 SLOT_CONFIG_WRITE) 4 =
            (((dev.zone.set (addr * BYTESIZE_CNF + 0) SLOT_CONFIG_READ).set
              (addr * BYTESIZE_CNF + 1) SLOT_CONFIG_WRITE).set (addr * BYTESIZE_CNF + 2)
              SLOT_CONFIG_READ).set (addr * BYTESIZE_CNF + 3) SLOT_CONFIG_WRITE := by
          rw [memcpy_four, w0, w1, w2, w3, Nat.mul_comm 4 addr]
          rfl
        rcases ih (addr + 1)
            { zone := (((dev.zone.set (addr * BYTESIZE_CNF + 0) SLOT_CONFIG_READ).set
                (addr * BYTESIZE_CNF + 1) SLOT_CONFIG_WRITE).set (addr * BYTESIZE_CNF + 2)
                SLOT_CONFIG_READ).set (addr * BYTESIZE_CNF + 3) SLOT_CONFIG_WRITE,
              calls := dev.calls + 1 + 1, locks := dev.locks }
            { bytes := 4,
              data := ((((memcpy record.data 0 (dev.zone.drop (4 * addr)) 4).set 0
                SLOT_CONFIG_READ).set 1 SLOT_CONFIG_WRITE).set 2 SLOT_CONFIG_READ).set 3
                SLOT_CONFIG_WRITE }
            (by omega) (by simp only [List.length_set]; exact hbuf)
          with ⟨config', dev', hrun, hlocks, hbad⟩ | ⟨dev', hrun, hlocks, hlen, hget⟩
        · refine Or.inl ⟨config', dev', ?_, hlocks, hbad⟩
          simp only [set_slot_config_loop, config_zone_read, config_zone_write, hs, hs2,
            if_true, ne_eq, not_true_eq_false, if_false, hmod, hzone]
          exact hrun
        · refine Or.inr ⟨dev', ?_, hlocks, ?_, ?_⟩
          · simp only [set_slot_config_loop, config_zone_read, config_zone_write, hs, hs2,
              if_true, ne_eq, not_true_eq_false, if_false, hmod, hzone]
            exact hrun
          · rw [hlen]
            simp only [List.length_set]
          · intro i
            rw [hget i]
            simp only [List.length_set, getD_set_eq, BYTESIZE_CNF, SLOT_CONFIG_READ,
              SLOT_CONFIG_WRITE]
            by_cases h1 : 4 * (addr + 1) ≤ i ∧ i < 4 * (addr + 1 + n) ∧ i < dev.zone.length
            · have h2 : 4 * addr ≤ i ∧ i < 4 * (addr + (n + 1)) ∧ i < dev.zone.length := by
                omega
              simp only [h1, h2, and_self, if_true]
            · simp only [h1, if_false]
              by_cases h2 : 4 * addr ≤ i ∧ i < 4 * (addr + (n + 1)) ∧ i < dev.zone.length
              · simp only [h2, and_self, if_true]
                have h3 : i = addr * 4 + 0 ∨ i = addr * 4 + 1 ∨ i = addr * 4 + 2 ∨
                    i = addr * 4 + 3 := by omega
                rcases h3 with h3 | h3 | h3 | h3 <;> subst h3 <;> simp <;> omega
              · simp only [h2, if_false]
                have e0 : ¬ (addr * 4 + 0 = i ∧ addr * 4 + 0 < dev.zone.length) := by omega
                have e1 : ¬ (addr * 4 + 1 = i ∧ addr * 4 + 1 < dev.zone.length) := by omega
                have e2 : ¬ (addr * 4 + 2 = i ∧ addr * 4 + 2 < dev.zone.length) := by omega
                have e3 : ¬ (addr * 4 + 3 = i ∧ addr * 4 + 3 < dev.zone.length) := by omega
                simp only [e0, e1, e2, e3, if_false]
      · refine Or.inl ⟨dev.zone, ConfigDevice.mk dev.zone (dev.calls + 1 + 1) dev.locks,
          ?_, rfl, ⟨dev.calls + 1, hs2⟩⟩
        simp only [set_slot_config_loop, config_zone_read, config_zone_write, hs, hs2, if_true,
          ne_eq, not_true_eq_false, if_false, not_false_eq_true]
    · refine Or.inl ⟨dev.zone, ConfigDevice.mk dev.zone (dev.calls + 1) dev.locks,
        ?_, rfl, ⟨dev.calls, hs⟩⟩
      simp only [set_slot_config_loop, config_zone_read, hs, if_false, ne_eq,
        not_false_eq_true, if_true]

/-- The function `create_and_lock_config` on the config-zone device: either a call before
the lock failed and no lock was made, or the lock was called once, with the CRC of the
zone of that moment, which is also the contents of `config`. -/
lemma create_and_lock_config_spec (status : Nat → Status) (mode : Nat) (dev : ConfigDevice)
    (config : List Nat) (record otp_record slot_record : atsha_big_int)
    (hz : dev.zone.length = 88) (hc : config.length = 88) (hr : 4 ≤ record.data.length)
    (ho : 4 ≤ otp_record.data.length) (hs : 4 ≤ slot_record.data.length) :
    (∃ config' dev', create_and_lock_config (config_zone_api status) mode dev config record
        otp_record slot_record = (false, config', dev') ∧ dev'.locks = dev.locks ∧
      ∃ k, status k ≠ Status.ATSHA_ERR_OK) ∨
    (∃ b dev', create_and_lock_config (config_zone_api status) mode dev config record
        otp_record slot_record = (b, dev'.zone, dev') ∧
      dev'.locks = dev.locks ++ [(calculate_crc 88 dev'.zone, dev'.zone)] ∧
      dev'.zone.length = 88 ∧
      (∀ i, i < 88 → dev'.zone.getD i 0 =
        if i = 18 then mode % 256 else if 20 ≤ i ∧ i < 52 then 0x80 else dev.zone.getD i 0) ∧
      ((∀ k, status k = Status.ATSHA_ERR_OK) → b = true)) := by
  rcases read_config_zone_loop_spec status 22 0 dev config
      { bytes := BYTESIZE_CNF, data := record.data } (by omega) hr
    with ⟨config1, dev1, hrun1, hlocks1, hbad1⟩ | ⟨config1, dev1, hrun1, hlocks1, hzone1, hlen1, hget1⟩
  · have hrun1' : read_config_zone_loop (config_zone_api status) CONFIG_CNT 0x00 0 dev config
        { bytes := BYTESIZE_CNF, data := record.data } = (false, config1, dev1) := hrun1
    refine Or.inl ⟨config1, dev1, ?_, hlocks1, hbad1⟩
    simp only [create_and_lock_config, hrun1', if_true]
  · have hrun1' : read_config_zone_loop (config_zone_api status) CONFIG_CNT 0x00 0 dev config
        { bytes := BYTESIZE_CNF, data := record.data } = (true, config1, dev1) := hrun1
    have hconfig1 : config1 = dev1.zone := by
      rw [hzone1]
      apply eq_of_getD_eq
      · rw [hlen1, hc, hz]
      · intro i hi
        rw [hget1 i]
        have : 4 * 0 ≤ i ∧ i < 4 * (0 + 22) ∧ i < config.length := by omega
        simp only [this, and_self, if_true]
    rw [hconfig1] at hrun1'
    rcases set_otp_mode_spec status mode dev1 otp_record ho
      with ⟨config2, dev2, hrun2, hlocks2, hbad2⟩ | ⟨dev2, hrun2, hlocks2, hzone2⟩
    · refine Or.inl ⟨config2, dev2, ?_, by rw [hlocks2, hlocks1], hbad2⟩
      simp only [create_and_lock_config, hrun1', Bool.true_eq_false, if_false, hrun2, if_true]
    · rcases set_slot_config_loop_spec status 8 5 dev2 slot_record (by omega) hs
        with ⟨config3, dev3, hrun3, hlocks3, hbad3⟩ | ⟨dev3, hrun3, hlocks3, hlen3, hget3⟩
      · have hrun3' : set_slot_config (config_zone_api status) dev2 dev2.zone slot_record =
            (false, config3, dev3) := hrun3
        refine Or.inl ⟨config3, dev3, ?_, by rw [hlocks3, hlocks2, hlocks1], hbad3⟩
        simp only [create_and_lock_config, hrun1', Bool.true_eq_false, if_false, hrun2, hrun3',
          if_true]
      · have hrun3' : set_slot_config (config_zone_api status) dev2 dev2.zone slot_record =
            (true, dev3.zone, dev3) := hrun3
        have hlen2 : dev2.zone.length = 88 := by rw [hzone2, List.length_set, hzone1, hz]
        have hcrc : calculate_crc (CONFIG_CNT * BYTESIZE_CNF) dev3.zone =
            calculate_crc 88 dev3.zone := rfl
        refine Or.inr ⟨decide (status dev3.calls = Status.ATSHA_ERR_OK),
          ConfigDevice.mk dev3.zone (dev3.calls + 1)
            (dev3.locks ++ [(calculate_crc 88 dev3.zone, dev3.zone)]), ?_, ?_, ?_, ?_, ?_⟩
        · simp only [create_and_lock_config, hrun1', Bool.true_eq_false, if_false, hrun2,
            hrun3', hcrc, config_zone_lock]
          by_cases hk : status dev3.calls = Status.ATSHA_ERR_OK
          · simp [hk]
          · simp [hk]
        · simp only [hlocks3, hlocks2, hlocks1]
        · simp only [hlen3, hlen2]
        · intro i hi
          simp only
          rw [hget3 i, hlen2, hzone2, getD_set_eq, hzone1]
          by_cases h18 : i = 18
          · subst h18
            have h1 : ¬ (4 * 5 ≤ 18 ∧ 18 < 4 * (5 + 8) ∧ 18 < 88) := by omega
            have h2 : (18 = 18 ∧ 18 < dev.zone.length) := by omega
            simp only [h1, h2, and_self, if_false, if_true]
          · have h2 : ¬ (18 = i ∧ 18 < dev.zone.length) := by omega
            by_cases h3 : 20 ≤ i ∧ i < 52
            · have h1 : (4 * 5 ≤ i ∧ i < 4 * (5 + 8) ∧ i < 88) := by omega
              simp only [h1, h18, h3, and_self, if_false, if_true]
            · have h1 : ¬ (4 * 5 ≤ i ∧ i < 4 * (5 + 8) ∧ i < 88) := by omega
              simp only [h1, h2, h18, h3, if_false]
        · intro hall
          simp [hall dev3.calls]

/-- Claim C19: on a device whose config zone is 22 words of four bytes, where a successful
read returns the stored word and a successful write replaces it, every call of
`atsha_lock_config` that `create_and_lock_config` makes finds the 88 bytes of the local
`config` equal to the config zone of the device at that moment, in which byte 2 of word
0x04 is the read-only OTP mode and the words 0x05..0x0C are `80 80 80 80`; the CRC passed
is the output of `calculate_crc` over these 88 bytes, the register after all of them, low
byte first.  When no call fails the lock is reached, once, and the function returns true. -/
theorem config_lock_crc (status : Nat → Status) (mode : Nat) (dev : ConfigDevice)
    (config : List Nat) (record otp_record slot_record : atsha_big_int)
    (hz : dev.zone.length = 88) (hc : config.length = 88) (hr : 4 ≤ record.data.length)
    (ho : 4 ≤ otp_record.data.length) (hs : 4 ≤ slot_record.data.length)
    (hl : dev.locks = []) :
    (∀ crc zone, (crc, zone) ∈ (create_and_lock_config (config_zone_api status) mode dev config
        record otp_record slot_record).2.2.locks →
      (create_and_lock_config (config_zone_api status) mode dev config record otp_record
        slot_record).2.1 = zone ∧
      (create_and_lock_config (config_zone_api status) mode dev config record otp_record
        slot_record).2.2.zone = zone ∧
      zone.length = 88 ∧
      crc = calculate_crc 88 zone ∧
      crc = (crc_bytes 0 zone % 256, crc_bytes 0 zone / 256) ∧
      ∀ i, i < 88 → zone.getD i 0 =
        if i = 18 then mode % 256 else if 20 ≤ i ∧ i < 52 then 0x80 else dev.zone.getD i 0) ∧
    ((∀ k, status k = Status.ATSHA_ERR_OK) →
      (create_and_lock_config (config_zone_api status) mode dev config record otp_record
        slot_record).1 = true ∧
      (create_and_lock_config (config_zone_api status) mode dev config record otp_record
        slot_record).2.2.locks.length = 1) := by
  rcases create_and_lock_config_spec status mode dev config record otp_record slot_record
      hz hc hr ho hs
    with ⟨config', dev', hrun, hlocks, k, hk⟩ | ⟨b, dev', hrun, hlocks, hlen, hget, hb⟩
  · rw [hrun]
    refine ⟨?_, ?_⟩
    · intro crc zone hmem
      simp only [hlocks, hl, List.not_mem_nil] at hmem
    · intro hall
      exact absurd (hall k) hk
  · rw [hrun]
    refine ⟨?_, ?_⟩
    · intro crc zone hmem
      simp only [hlocks, hl, List.nil_append, List.mem_singleton, Prod.mk.injEq] at hmem
      obtain ⟨hcrc, hzone⟩ := hmem
      subst hzone
      refine ⟨rfl, rfl, hlen, hcrc, ?_, hget⟩
      rw [hcrc]
      have := calculate_crc_register dev'.zone (by omega)
      rw [hlen] at this
      exact this
    · intro hall
      exact ⟨hb hall, by simp [hlocks, hl]⟩

set_option maxRecDepth 100000 in
/-- On a device on which no call fails and whose zone holds the bytes 0..87, the lock is
reached and gets the CRC of the rewritten zone. -/
theorem config_lock_crc_witness :
    (∀ crc zone, (crc, zone) ∈ (create_and_lock_config
        (config_zone_api (fun _ => Status.ATSHA_ERR_OK)) 0xAA
        { zone := example_zone, calls := 0, locks := [] } (List.replicate 88 0)
        { bytes := 0, data := List.replicate 32 0 } { bytes := 0, data := List.replicate 32 0 }
        { bytes := 0, data := List.replicate 32 0 }).2.2.locks →
      (create_and_lock_config (config_zone_api (fun _ => Status.ATSHA_ERR_OK)) 0xAA
        { zone := example_zone, calls := 0, locks := [] } (List.replicate 88 0)
        { bytes := 0, data := List.replicate 32 0 } { bytes := 0, data := List.replicate 32 0 }
        { bytes := 0, data := List.replicate 32 0 }).2.1 = zone ∧
      (create_and_lock_config (config_zone_api (fun _ => Status.ATSHA_ERR_OK)) 0xAA
        { zone := example_zone, calls := 0, locks := [] } (List.replicate 88 0)
        { bytes := 0, data := List.replicate 32 0 } { bytes := 0, data := List.replicate 32 0 }
        { bytes := 0, data := List.replicate 32 0 }).2.2.zone = zone ∧
      zone.length = 88 ∧
      crc = calculate_crc 88 zone ∧
      crc = (crc_bytes 0 zone % 256, crc_bytes 0 zone / 256) ∧
      ∀ i, i < 88 → zone.getD i 0 =
        if i = 18 then 0xAA % 256 else if 20 ≤ i ∧ i < 52 then 0x80
        else example_zone.getD i 0) ∧
    (create_and_lock_config (config_zone_api (fun _ => Status.ATSHA_ERR_OK)) 0xAA
      { zone := example_zone, calls := 0, locks := [] } (List.replicate 88 0)
      { bytes := 0, data := List.replicate 32 0 } { bytes := 0, data := List.replicate 32 0 }
      { bytes := 0, data := List.replicate 32 0 }).1 = true ∧
    (create_and_lock_config (config_zone_api (fun _ => Status.ATSHA_ERR_OK)) 0xAA
      { zone := example_zone, calls := 0, locks := [] } (List.replicate 88 0)
      { bytes := 0, data := List.replicate 32 0 } { bytes := 0, data := List.replicate 32 0 }
      { bytes := 0, data := List.replicate 32 0 }).2.2.locks.length = 1 :=
  ⟨(config_lock_crc (fun _ => Status.ATSHA_ERR_OK) 0xAA
      { zone := example_zone, calls := 0, locks := [] } (List.replicate 88 0)
      { bytes := 0, data := List.replicate 32 0 } { bytes := 0, data := List.replicate 32 0 }
      { bytes := 0, data := List.replicate 32 0 } (by decide) (by decide) (by decide)
      (by decide) (by decide) rfl).1,
    (config_lock_crc (fun _ => Status.ATSHA_ERR_OK) 0xAA
      { zone := example_zone, calls := 0, locks := [] } (List.replicate 88 0)
      { bytes := 0, data := List.replicate 32 0 } { bytes := 0, data := List.replicate 32 0 }
      { bytes := 0, data := List.replicate 32 0 } (by decide) (by decide) (by decide)
      (by decide) (by decide) rfl).2 (fun _ => rfl)⟩

/-! ## Closing a handle -/

/-- Claim C20, counterexample: closing a handle that owns a serial number and a key frees
both buffers with the bytes they held; no byte was set to zero. -/
theorem close_frees_key_bytes :
    atsha_close false (some example_handle) =
      [SysCall.close 5, SysCall.flock_unlock 6, SysCall.close 6,
        SysCall.free (some [0x01, 0x23, 0x45, 0x67, 0x89, 0xAB, 0xCD, 0xEF, 0xEE]),
        SysCall.free (some (List.replicate 32 0xA5)), SysCall.free_handle] := by
  decide

/-- Claim C20, amended: for every handle, when the function does not stop at the assertion,
`atsha_close` ends with `free(handle->sn)`, `free(handle->key)` and `free(handle)`, and the
two buffers hold at that moment the bytes they held at the call: nothing is overwritten.
Before that, and before any other `free`, it has closed the device file of the USB and
native I2C layers, the text file and the libmpsse context where there is one, and it has
released and closed the lock file when the handle has one. -/
theorem close_frees_unchanged (USE_LAYER_I2C : Bool) (handle : atsha_handle)
    (hi : handle.i2c = none ∨ USE_LAYER_I2C = true) :
    ∃ before, atsha_close USE_LAYER_I2C (some handle) =
        before ++ [SysCall.free handle.sn, SysCall.free handle.key, SysCall.free_handle] ∧
      (∀ c ∈ before, c.is_free = false) ∧
      (handle.bottom_layer = BOTTOM_LAYER_USB ∨ handle.bottom_layer = BOTTOM_LAYER_NI2C →
        SysCall.close handle.fd ∈ before) ∧
      (∀ file, handle.file = some file → SysCall.fclose file ∈ before) ∧
      (∀ i2c, handle.i2c = some i2c → SysCall.mpsse_Close i2c ∈ before) ∧
      (handle.lockfile ≠ -1 →
        ∃ first, before = first ++ [SysCall.flock_unlock handle.lockfile,
          SysCall.close handle.lockfile]) := by
  obtain ⟨bottom_layer, is_srv_emulation, fd, file, lockfile, i2c, sn, key, key_origin,
    key_origin_cached, slot_id, nonce⟩ := handle
  simp only at hi ⊢
  have hcalls : ∀ calls : List SysCall, (∀ c ∈ calls, c.is_free = false) →
      ∃ before, (if lockfile ≠ -1 then
            calls ++ atsha_unlock lockfile ++ [SysCall.close lockfile]
          else calls) ++ [SysCall.free sn, SysCall.free key, SysCall.free_handle] =
          before ++ [SysCall.free sn, SysCall.free key, SysCall.free_handle] ∧
        (∀ c ∈ before, c.is_free = false) ∧ (∀ c ∈ calls, c ∈ before) ∧
        (lockfile ≠ -1 →
          ∃ first, before = first ++ [SysCall.flock_unlock lockfile,
            SysCall.close lockfile]) := by
    intro calls hcalls
    by_cases hlock : lockfile = -1
    · refine ⟨calls, by simp [hlock], hcalls, fun c hc => hc, fun h => absurd hlock h⟩
    · refine ⟨calls ++ atsha_unlock lockfile ++ [SysCall.close lockfile], by simp [hlock],
        ?_, ?_, ?_⟩
      · intro c hc
        simp only [atsha_unlock, List.append_assoc, List.mem_append, List.mem_singleton,
          List.mem_cons, List.not_mem_nil, or_false] at hc
        rcases hc with hc | hc | hc
        · exact hcalls c hc
        · subst hc; rfl
        · subst hc; rfl
      · intro c hc
        simp [hc]
      · intro _
        exact ⟨calls, by simp [atsha_unlock]⟩
  cases file with
  | none =>
    cases i2c with
    | none =>
      by_cases hb : bottom_layer = BOTTOM_LAYER_USB ∨ bottom_layer = BOTTOM_LAYER_NI2C
      · obtain ⟨before, h1, h2, h3, h4⟩ := hcalls [SysCall.close fd] (by
          intro c hc; simp only [List.mem_singleton] at hc; subst hc; rfl)
        refine ⟨before, ?_, h2, fun _ => h3 _ (by simp), by simp, by simp, h4⟩
        simp only [atsha_close, hb, if_true]
        exact h1
      · obtain ⟨before, h1, h2, h3, h4⟩ := hcalls [] (by simp)
        refine ⟨before, ?_, h2, fun h => absurd h hb, by simp, by simp, h4⟩
        simp only [atsha_close, hb, if_false]
        exact h1
    | some p =>
      have hu : USE_LAYER_I2C = true := by
        rcases hi with h | h
        · simp at h
        · exact h
      subst hu
      by_cases hb : bottom_layer = BOTTOM_LAYER_USB ∨ bottom_layer = BOTTOM_LAYER_NI2C
      · obtain ⟨before, h1, h2, h3, h4⟩ := hcalls ([SysCall.close fd] ++ [SysCall.mpsse_Close p])
          (by
            intro c hc
            simp only [List.mem_append, List.mem_singleton] at hc
            rcases hc with hc | hc <;> subst hc <;> rfl)
        refine ⟨before, ?_, h2, fun _ => h3 _ (by simp), by simp, ?_, h4⟩
        · simp only [atsha_close, hb, if_true]
          exact h1
        · intro q hq
          simp only [Option.some.injEq] at hq
          subst hq
          exact h3 _ (by simp)
      · obtain ⟨before, h1, h2, h3, h4⟩ := hcalls ([] ++ [SysCall.mpsse_Close p])
          (by
            intro c hc
            simp only [List.nil_append, List.mem_singleton] at hc
            subst hc; rfl)
        refine ⟨before, ?_, h2, fun h => absurd h hb, by simp, ?_, h4⟩
        · simp only [atsha_close, hb, if_false, if_true]
          exact h1
        · intro q hq
          simp only [Option.some.injEq] at hq
          subst hq
          exact h3 _ (by simp)
  | some f =>
    cases i2c with
    | none =>
      by_cases hb : bottom_layer = BOTTOM_LAYER_USB ∨ bottom_layer = BOTTOM_LAYER_NI2C
      · obtain ⟨before, h1, h2, h3, h4⟩ := hcalls ([SysCall.close fd] ++ [SysCall.fclose f])
          (by
            intro c hc
            simp only [List.mem_append, List.mem_singleton] at hc
            rcases hc with hc | hc <;> subst hc <;> rfl)
        refine ⟨before, ?_, h2, fun _ => h3 _ (by simp), ?_, by simp, h4⟩
        · simp only [atsha_close, hb, if_true]
          exact h1
        · intro g hg
          simp only [Option.some.injEq] at hg
          subst hg
          exact h3 _ (by simp)
      · obtain ⟨before, h1, h2, h3, h4⟩ := hcalls ([] ++ [SysCall.fclose f])
          (by
            intro c hc
            simp only [List.nil_append, List.mem_singleton] at hc
            subst hc; rfl)
        refine ⟨before, ?_, h2, fun h => absurd h hb, ?_, by simp, h4⟩
        · simp only [atsha_close, hb, if_false]
          exact h1
        · intro g hg
          simp only [Option.some.injEq] at hg
          subst hg
          exact h3 _ (by simp)
    | some p =>
      have hu : USE_LAYER_I2C = true := by
        rcases hi with h | h
        · simp at h
        · exact h
      subst hu
      by_cases hb : bottom_layer = BOTTOM_LAYER_USB ∨ bottom_layer = BOTTOM_LAYER_NI2C
      · obtain ⟨before, h1, h2, h3, h4⟩ :=
          hcalls ([SysCall.close fd] ++ [SysCall.fclose f] ++ [SysCall.mpsse_Close p])
          (by
            intro c hc
            simp only [List.mem_append, List.mem_singleton] at hc
            rcases hc with (hc | hc) | hc <;> subst hc <;> rfl)
        refine ⟨before, ?_, h2, fun _ => h3 _ (by simp), ?_, ?_, h4⟩
        · simp only [atsha_close, hb, if_true]
          exact h1
        · intro g hg
          simp only [Option.some.injEq] at hg
          subst hg
          exact h3 _ (by simp)
        · intro q hq
          simp only [Option.some.injEq] at hq
          subst hq
          exact h3 _ (by simp)
      · obtain ⟨before, h1, h2, h3, h4⟩ :=
          hcalls ([] ++ [SysCall.fclose f] ++ [SysCall.mpsse_Close p])
          (by
            intro c hc
            simp only [List.nil_append, List.mem_append, List.mem_singleton] at hc
            rcases hc with hc | hc <;> subst hc <;> rfl)
        refine ⟨before, ?_, h2, fun h => absurd h hb, ?_, ?_, h4⟩
        · simp only [atsha_close, hb, if_false, if_true]
          exact h1
        · intro g hg
          simp only [Option.some.injEq] at hg
          subst hg
          exact h3 _ (by simp)
        · intro q hq
          simp only [Option.some.injEq] at hq
          subst hq
          exact h3 _ (by simp)

/-- The example handle: the buffers are freed as they are, after the device file was
closed and the lock released. -/
theorem close_frees_unchanged_witness :
    ∃ before, atsha_close false (some example_handle) =
        before ++ [SysCall.free example_handle.sn, SysCall.free example_handle.key,
          SysCall.free_handle] ∧
      (∀ c ∈ before, c.is_free = false) ∧
      (example_handle.bottom_layer = BOTTOM_LAYER_USB ∨
          example_handle.bottom_layer = BOTTOM_LAYER_NI2C →
        SysCall.close example_handle.fd ∈ before) ∧
      (∀ file, example_handle.file = some file → SysCall.fclose file ∈ before) ∧
      (∀ i2c, example_handle.i2c = some i2c → SysCall.mpsse_Close i2c ∈ before) ∧
      (example_handle.lockfile ≠ -1 →
        ∃ first, before = first ++ [SysCall.flock_unlock example_handle.lockfile,
          SysCall.close example_handle.lockfile]) :=
  close_frees_unchanged false example_handle (Or.inl rfl)

/-! # Properties of the open functions, the error names and the two tool copies -/

/-- The calls of an `atsha_lock` that returns true: attempts of `flock` only, the last of
which succeeds, so that the lock is held after them. -/
theorem atsha_lock_true (lockfile : Int) :
    ∀ (attempts : List (Int × Bool)) (calls : List SysCall),
      atsha_lock lockfile attempts = (some true, calls) →
      (∀ held, calls.foldl (lock_step lockfile) held = true) ∧
      (∀ c ∈ calls, c.is_release = false ∧ c.is_open_device = false) := by
  intro attempts
  induction attempts with
  | nil => intro calls h; simp [atsha_lock] at h
  | cons a attempts ih =>
    intro calls h
    obtain ⟨lock, expired⟩ := a
    by_cases hl : lock = -1
    · by_cases he : expired = true
      · simp [atsha_lock, hl, he] at h
      · simp only [atsha_lock, hl, he, if_true, if_false, Prod.mk.injEq, Bool.false_eq_true] at h
        obtain ⟨h1, h2⟩ := h
        obtain ⟨ih1, ih2⟩ := ih (atsha_lock lockfile attempts).2 (Prod.ext h1 rfl)
        subst h2
        refine ⟨?_, ?_⟩
        · intro held
          simp only [List.foldl_cons]
          exact ih1 _
        · intro c hc
          simp only [List.mem_cons] at hc
          rcases hc with hc | hc
          · subst hc; exact ⟨rfl, rfl⟩
          · exact ih2 c hc
    · simp only [atsha_lock, hl, if_false, Prod.mk.injEq, true_and] at h
      subst h
      refine ⟨?_, ?_⟩
      · intro held
        simp [lock_step, hl]
      · intro c hc
        simp only [List.mem_singleton] at hc
        subst hc; exact ⟨rfl, rfl⟩

/-- Claim C21: in `atsha_open_usb_dev` and `atsha_open_ni2c_dev`, once the lock file is
opened and `atsha_lock` has returned true, the lock is held when the device is opened, and
a handle that is returned is closed by `atsha_close` in the order device, unlock, lock
file.  But on every path that returns `NULL` after that (the `open` of the device fails,
the `ioctl` fails, `calloc` fails) the function makes no `flock` with `LOCK_UN` and no
`close` at all: the lock is still held and the descriptors are still open at the return. -/
theorem open_error_paths_keep_lock (sys : SystemAnswers) (path : Nat) (locked : List SysCall)
    (hfile : sys.open_lock_file ≠ -1)
    (hlock : atsha_lock sys.open_lock_file sys.flock = (some true, locked)) :
    (∃ rest, (atsha_open_usb_dev sys (some path)).2 =
        SysCall.open_lock_file sys.open_lock_file :: locked ++
          SysCall.open_device (some path) sys.open_device :: rest ∧
      lock_held sys.open_lock_file (SysCall.open_lock_file sys.open_lock_file :: locked) =
        true) ∧
    (∃ rest, (atsha_open_ni2c_dev sys (some path)).2 =
        SysCall.open_lock_file sys.open_lock_file :: locked ++
          SysCall.open_device (some path) sys.open_device :: rest ∧
      lock_held sys.open_lock_file (SysCall.open_lock_file sys.open_lock_file :: locked) =
        true) ∧
    (sys.open_device = -1 ∨ sys.calloc = false →
      (atsha_open_usb_dev sys (some path)).1 = some none ∧
      lock_held sys.open_lock_file (atsha_open_usb_dev sys (some path)).2 = true ∧
      ∀ c ∈ (atsha_open_usb_dev sys (some path)).2, c.is_release = false) ∧
    (sys.open_device = -1 ∨ sys.ioctl < 0 ∨ sys.calloc = false →
      (atsha_open_ni2c_dev sys (some path)).1 = some none ∧
      lock_held sys.open_lock_file (atsha_open_ni2c_dev sys (some path)).2 = true ∧
      ∀ c ∈ (atsha_open_ni2c_dev sys (some path)).2, c.is_release = false) ∧
    (sys.open_device ≠ -1 → sys.calloc = true →
      ∃ handle, (atsha_open_usb_dev sys (some path)).1 = some (some handle) ∧
        ∀ use_i2c, atsha_close use_i2c (some handle) =
          [SysCall.close sys.open_device, SysCall.flock_unlock sys.open_lock_file,
            SysCall.close sys.open_lock_file, SysCall.free none, SysCall.free none,
            SysCall.free_handle]) ∧
    (sys.open_device ≠ -1 → ¬ sys.ioctl < 0 → sys.calloc = true →
      ∃ handle, (atsha_open_ni2c_dev sys (some path)).1 = some (some handle) ∧
        ∀ use_i2c, atsha_close use_i2c (some handle) =
          [SysCall.close sys.open_device, SysCall.flock_unlock sys.open_lock_file,
            SysCall.close sys.open_lock_file, SysCall.free none, SysCall.free none,
            SysCall.free_handle]) := by
  obtain ⟨hheld, hcalls⟩ := atsha_lock_true sys.open_lock_file sys.flock locked hlock
  have hl1 : (atsha_lock sys.open_lock_file sys.flock).1 = some true := by rw [hlock]
  have hl2 : (atsha_lock sys.open_lock_file sys.flock).2 = locked := by rw [hlock]
  have hheld1 : lock_held sys.open_lock_file
      (SysCall.open_lock_file sys.open_lock_file :: locked) = true := by
    simp only [lock_held, List.foldl_cons]
    exact hheld _
  have hheld2 : ∀ rest : List SysCall, (∀ c ∈ rest, c.is_release = false) →
      lock_held sys.open_lock_file
        (SysCall.open_lock_file sys.open_lock_file :: locked ++ rest) = true := by
    intro rest hrest
    simp only [lock_held, List.foldl_cons, List.foldl_append]
    rw [hheld _]
    clear hheld1
    induction rest with
    | nil => rfl
    | cons c rest ih =>
      have hc := hrest c (by simp)
      have hr : ∀ d ∈ rest, d.is_release = false := fun d hd => hrest d (by simp [hd])
      have hstep : lock_step sys.open_lock_file true c = true := by
        cases c <;> simp [lock_step, SysCall.is_release] at hc ⊢
      simp only [List.foldl_cons, hstep]
      exact ih hr
  have hrel : ∀ rest : List SysCall, (∀ c ∈ rest, c.is_release = false) →
      ∀ c ∈ SysCall.open_lock_file sys.open_lock_file :: locked ++ rest,
        c.is_release = false := by
    intro rest hrest c hc
    simp only [List.cons_append, List.mem_cons, List.mem_append] at hc
    rcases hc with hc | hc | hc
    · subst hc; rfl
    · exact (hcalls c hc).1
    · exact hrest c hc
  refine ⟨?_, ?_, ?_, ?_, ?_, ?_⟩
  · by_cases hd : sys.open_device = -1
    · exact ⟨[], by simp [atsha_open_usb_dev, atsha_try_lock_file, hfile, hl1, hl2, hd], hheld1⟩
    · by_cases hc : sys.calloc = false
      · exact ⟨[SysCall.calloc_handle sys.calloc],
          by simp [atsha_open_usb_dev, atsha_try_lock_file, hfile, hl1, hl2, hd, hc], hheld1⟩
      · exact ⟨[SysCall.calloc_handle sys.calloc],
          by simp [atsha_open_usb_dev, atsha_try_lock_file, hfile, hl1, hl2, hd, hc], hheld1⟩
  · by_cases hd : sys.open_device = -1
    · exact ⟨[], by simp [atsha_open_ni2c_dev, atsha_try_lock_file, hfile, hl1, hl2, hd], hheld1⟩
    · by_cases hi : sys.ioctl < 0
      · exact ⟨[SysCall.ioctl_slave sys.open_device sys.ioctl],
          by simp [atsha_open_ni2c_dev, atsha_try_lock_file, hfile, hl1, hl2, hd, hi], hheld1⟩
      · by_cases hc : sys.calloc = false
        · exact ⟨[SysCall.ioctl_slave sys.open_device sys.ioctl,
              SysCall.calloc_handle sys.calloc],
            by simp [atsha_open_ni2c_dev, atsha_try_lock_file, hfile, hl1, hl2, hd, hi, hc],
            hheld1⟩
        · exact ⟨[SysCall.ioctl_slave sys.open_device sys.ioctl,
              SysCall.calloc_handle sys.calloc],
            by simp [atsha_open_ni2c_dev, atsha_try_lock_file, hfile, hl1, hl2, hd, hi, hc],
            hheld1⟩
  · intro hfail
    by_cases hd : sys.open_device = -1
    · have hrun : atsha_open_usb_dev sys (some path) = (some none,
          SysCall.open_lock_file sys.open_lock_file :: locked ++
            [SysCall.open_device (some path) sys.open_device]) := by
        simp [atsha_open_usb_dev, atsha_try_lock_file, hfile, hl1, hl2, hd]
      rw [hrun]
      have hrest : ∀ c ∈ [SysCall.open_device (some path) sys.open_device],
          c.is_release = false := by
        intro c hc; simp only [List.mem_singleton] at hc; subst hc; rfl
      exact ⟨rfl, hheld2 _ hrest, hrel _ hrest⟩
    · have hc : sys.calloc = false := by
        rcases hfail with h | h
        · exact absurd h hd
        · exact h
      have hrun : atsha_open_usb_dev sys (some path) = (some none,
          SysCall.open_lock_file sys.open_lock_file :: locked ++
            [SysCall.open_device (some path) sys.open_device,
              SysCall.calloc_handle sys.calloc]) := by
        simp [atsha_open_usb_dev, atsha_try_lock_file, hfile, hl1, hl2, hd, hc]
      rw [hrun]
      have hrest : ∀ c ∈ [SysCall.open_device (some path) sys.open_device,
          SysCall.calloc_handle sys.calloc], c.is_release = false := by
        intro c hc
        simp only [List.mem_cons, List.mem_singleton, List.not_mem_nil, or_false] at hc
        rcases hc with hc | hc <;> subst hc <;> rfl
      exact ⟨rfl, hheld2 _ hrest, hrel _ hrest⟩
  · intro hfail
    by_cases hd : sys.open_device = -1
    · have hrun : atsha_open_ni2c_dev sys (some path) = (some none,
          SysCall.open_lock_file sys.open_lock_file :: locked ++
            [SysCall.open_device (some path) sys.open_device]) := by
        simp [atsha_open_ni2c_dev, atsha_try_lock_file, hfile, hl1, hl2, hd]
      rw [hrun]
      have hrest : ∀ c ∈ [SysCall.open_device (some path) sys.open_device],
          c.is_release = false := by
        intro c hc; simp only [List.mem_singleton] at hc; subst hc; rfl
      exact ⟨rfl, hheld2 _ hrest, hrel _ hrest⟩
    · by_cases hi : sys.ioctl < 0
      · have hrun : atsha_open_ni2c_dev sys (some path) = (some none,
            SysCall.open_lock_file sys.open_lock_file :: locked ++
              [SysCall.open_device (some path) sys.open_device,
                SysCall.ioctl_slave sys.open_device sys.ioctl]) := by
          simp [atsha_open_ni2c_dev, atsha_try_lock_file, hfile, hl1, hl2, hd, hi]
        rw [hrun]
        have hrest : ∀ c ∈ [SysCall.open_device (some path) sys.open_device,
            SysCall.ioctl_slave sys.open_device sys.ioctl], c.is_release = false := by
          intro c hc
          simp only [List.mem_cons, List.mem_singleton, List.not_mem_nil, or_false] at hc
          rcases hc with hc | hc <;> subst hc <;> rfl
        exact ⟨rfl, hheld2 _ hrest, hrel _ hrest⟩
      · have hc : sys.calloc = false := by
          rcases hfail with h | h | h
          · exact absurd h hd
          · exact absurd h hi
          · exact h
        have hrun : atsha_open_ni2c_dev sys (some path) = (some none,
            SysCall.open_lock_file sys.open_lock_file :: locked ++
              [SysCall.open_device (some path) sys.open_device,
                SysCall.ioctl_slave sys.open_device sys.ioctl,
                SysCall.calloc_handle sys.calloc]) := by
          simp [atsha_open_ni2c_dev, atsha_try_lock_file, hfile, hl1, hl2, hd, hi, hc]
        rw [hrun]
        have hrest : ∀ c ∈ [SysCall.open_device (some path) sys.open_device,
            SysCall.ioctl_slave sys.open_device sys.ioctl,
            SysCall.calloc_handle sys.calloc], c.is_release = false := by
          intro c hc
          simp only [List.mem_cons, List.mem_singleton, List.not_mem_nil, or_false] at hc
          rcases hc with hc | hc | hc <;> subst hc <;> rfl
        exact ⟨rfl, hheld2 _ hrest, hrel _ hrest⟩
  · intro hd hc
    refine ⟨_, by simp [atsha_open_usb_dev, atsha_try_lock_file, hfile, hl1, hd, hc]; rfl, ?_⟩
    intro use_i2c
    simp [atsha_close, atsha_unlock, BOTTOM_LAYER_USB, hfile]
  · intro hd hi hc
    refine ⟨_, by simp [atsha_open_ni2c_dev, atsha_try_lock_file, hfile, hl1, hd, hi, hc]; rfl,
      ?_⟩
    intro use_i2c
    simp [atsha_close, atsha_unlock, BOTTOM_LAYER_NI2C, BOTTOM_LAYER_USB, hfile]


/-- When the device cannot be opened, `atsha_open_usb_dev` returns `NULL` with the lock
held and without any release. -/
theorem open_error_paths_keep_lock_witness :
    (atsha_open_usb_dev no_device_answers (some 1)).1 = some none ∧
      lock_held no_device_answers.open_lock_file
        (atsha_open_usb_dev no_device_answers (some 1)).2 = true ∧
      ∀ c ∈ (atsha_open_usb_dev no_device_answers (some 1)).2, c.is_release = false :=
  (open_error_paths_keep_lock no_device_answers 1 [SysCall.flock_exclusive 6 0] (by decide)
    rfl).2.2.1 (Or.inl rfl)

/-- The calls of the open functions on three systems: the device cannot be opened, the
address cannot be bound, and all goes well after a first failed attempt to lock.  In the
first two the last call before the return of `NULL` is the one that failed. -/
theorem open_calls_examples :
    atsha_open_usb_dev no_device_answers (some 1) =
      (some none, [SysCall.open_lock_file 6, SysCall.flock_exclusive 6 0,
        SysCall.open_device (some 1) (-1)]) ∧
    atsha_open_ni2c_dev no_binding_answers (some 1) =
      (some none, [SysCall.open_lock_file 6, SysCall.flock_exclusive 6 0,
        SysCall.open_device (some 1) 7, SysCall.ioctl_slave 7 (-1)]) ∧
    (atsha_open_usb_dev device_answers (some 1)).2 =
      [SysCall.open_lock_file 6, SysCall.flock_exclusive 6 (-1), SysCall.flock_exclusive 6 0,
        SysCall.open_device (some 1) 7, SysCall.calloc_handle true] ∧
    (∃ handle, (atsha_open_usb_dev device_answers (some 1)).1 = some (some handle) ∧
      atsha_close false (some handle) =
        [SysCall.close 7, SysCall.flock_unlock 6, SysCall.close 6, SysCall.free none,
          SysCall.free none, SysCall.free_handle]) :=
  ⟨rfl, rfl, rfl, _, rfl, rfl⟩

/-- Claim C22: the status `ATSHA_ERR_DNS_GET_KEY` has no description.  The functions
`atsha_slot_read`, `atsha_slot_write`, `atsha_challenge_response` and
`atsha_challenge_response_mac` return it when no slot number is found, and
`atsha_error_name` answers it with the fallback text `Error code is not in the list`.  It
is the only status in this case: the other seven have texts of their own, different from
each other and from the fallback. -/
theorem dns_get_key_has_no_description :
    atsha_error_name Status.ATSHA_ERR_DNS_GET_KEY = "Error code is not in the list" ∧
    (∀ err, atsha_error_name err = "Error code is not in the list" ↔
      err = Status.ATSHA_ERR_DNS_GET_KEY) ∧
    (∀ err1 err2, atsha_error_name err1 = atsha_error_name err2 → err1 = err2) ∧
    (∀ ops t trace number,
      (atsha_slot_read ops t trace DNS_ERR_CONST number).1 = Status.ATSHA_ERR_DNS_GET_KEY) ∧
    (∀ ops t trace number,
      (atsha_slot_write ops t trace DNS_ERR_CONST number).1 = Status.ATSHA_ERR_DNS_GET_KEY) ∧
    (∀ use_sn ops t trace challenge response,
      (atsha_challenge_response use_sn ops t trace DNS_ERR_CONST challenge response).1 =
        Status.ATSHA_ERR_DNS_GET_KEY) ∧
    (∀ use_sn ops t trace challenge response,
      (atsha_challenge_response_mac use_sn ops t trace DNS_ERR_CONST challenge response).1 =
        Status.ATSHA_ERR_DNS_GET_KEY) := by
  refine ⟨by decide, ?_, ?_, ?_, ?_, ?_, ?_⟩
  · intro err
    cases err <;> decide
  · intro err1 err2
    cases err1 <;> cases err2 <;> decide
  · intro ops t trace number
    rfl
  · intro ops t trace number
    rfl
  · intro use_sn ops t trace challenge response
    rfl
  · intro use_sn ops t trace challenge response
    rfl

/-- The copy of src/tools.c runs the loops of the library copy, for the length reduced to
8 bits. -/
theorem src_tools_calculate_crc_eq (length : Nat) (data : List Nat) :
    SrcTools.calculate_crc length data = calculate_crc (length % 256) data := by
  have h : length % 256 % 65536 = length % 256 := Nat.mod_eq_of_lt (by omega)
  simp only [SrcTools.calculate_crc, calculate_crc, h]
  rfl

/-- Claim C23: for every length of at most 255 and every buffer, and so for every byte
sequence of at most 255 bytes with its own length, `calculate_crc` of src/tools.c and
`calculate_crc` of src/libatsha204/tools.c give the same two CRC bytes. -/
theorem crc_copies_agree (length : Nat) (data : List Nat) (hlen : length ≤ 255) :
    SrcTools.calculate_crc length data = calculate_crc length data := by
  rw [src_tools_calculate_crc_eq, Nat.mod_eq_of_lt (by omega)]

set_option maxRecDepth 100000 in
/-- The two copies give the same CRC for the 255 bytes 0, 1, .., 254. -/
theorem crc_copies_agree_witness :
    (List.range 255).length ≤ 255 ∧
      SrcTools.calculate_crc (List.range 255).length (List.range 255) =
        calculate_crc (List.range 255).length (List.range 255) :=
  ⟨by decide, crc_copies_agree (List.range 255).length (List.range 255) (by decide)⟩

/-- Zero bytes leave a zero register. -/
theorem crc_bytes_zeros (n : Nat) : crc_bytes 0 (List.replicate n 0) = 0 := by
  induction n with
  | zero => rfl
  | succ n ih =>
    rw [List.replicate_succ', crc_bytes, List.foldl_append]
    have := ih
    rw [crc_bytes] at this
    rw [this]
    decide

/-- The bound is sharp: for the length 256 the copy of src/tools.c reads no byte at all,
while the library copy reads the last of 256 bytes. -/
theorem crc_copies_differ_at_256 :
    (∀ data, SrcTools.calculate_crc 256 data = (0, 0)) ∧
      calculate_crc 256 (List.replicate 255 0 ++ [1]) ≠ (0, 0) := by
  constructor
  · intro data
    rw [src_tools_calculate_crc_eq]
    have h0 : 256 % 256 = 0 := rfl
    rw [h0]
    simp [calculate_crc, crc_loop]
  · have hl : (List.replicate 255 0 ++ [1]).length = 256 := by
      rw [List.length_append, List.length_replicate]; rfl
    have h := calculate_crc_register (List.replicate 255 0 ++ [1]) (by rw [hl]; omega)
    rw [hl] at h
    rw [h]
    have hb : crc_bytes 0 (List.replicate 255 0 ++ [1]) = crc_byte 0 1 := by
      have hz := crc_bytes_zeros 255
      rw [crc_bytes] at hz
      rw [crc_bytes, List.foldl_append, hz]
      rfl
    rw [hb]
    decide

/-- The word that `uint32_from_4_bytes` returns: each shift is applied to what the shifts
before have left, so the first byte is shifted out of the 32 bits and the others land at
bits 24, 8 and 0. -/
theorem uint32_from_4_bytes_value (d0 d1 d2 d3 : Nat) (h0 : d0 < 256) (h1 : d1 < 256)
    (h2 : d2 < 256) (h3 : d3 < 256) :
    uint32_from_4_bytes [d0, d1, d2, d3] = d1 * 2 ^ 24 + d2 * 2 ^ 8 + d3 := by
  have e1 : (d0 <<< (3 * 8)) % 4294967296 = 2 ^ 24 * d0 := by
    rw [Nat.shiftLeft_eq]; omega
  have e2 : 2 ^ 24 * d0 ||| d1 = 2 ^ 24 * d0 + d1 :=
    (Nat.mul_add_lt_is_or (by omega) d0).symm
  have e3 : ((2 ^ 24 * d0 + d1) <<< (2 * 8)) % 4294967296 = 2 ^ 16 * d1 := by
    rw [Nat.shiftLeft_eq]; omega
  have e4 : 2 ^ 16 * d1 ||| d2 = 2 ^ 16 * d1 + d2 :=
    (Nat.mul_add_lt_is_or (by omega) d1).symm
  have e5 : ((2 ^ 16 * d1 + d2) <<< (1 * 8)) % 4294967296 = 2 ^ 8 * (2 ^ 16 * d1 + d2) := by
    rw [Nat.shiftLeft_eq]; omega
  have e6 : 2 ^ 8 * (2 ^ 16 * d1 + d2) ||| d3 = 2 ^ 8 * (2 ^ 16 * d1 + d2) + d3 :=
    (Nat.mul_add_lt_is_or (by omega) (2 ^ 16 * d1 + d2)).symm
  simp only [uint32_from_4_bytes, List.getD_cons_zero, List.getD_cons_succ, Nat.zero_or, e1, e2,
    e3, e4, e5, e6]
  omega

/-- Claim C24: `uint32_from_4_bytes` does not assemble the big-endian word.  For all bytes
it returns `d1 * 2^24 + d2 * 2^8 + d3`; this is the big-endian word
`d0 * 2^24 + d1 * 2^16 + d2 * 2^8 + d3` only when `d0` and `d1` are zero, the result does
not depend on `d0`, and the bytes `01 00 00 00` give 0. -/
theorem uint32_from_4_bytes_drops_first_byte :
    (∀ d0 d1 d2 d3, d0 < 256 → d1 < 256 → d2 < 256 → d3 < 256 →
      uint32_from_4_bytes [d0, d1, d2, d3] = d1 * 2 ^ 24 + d2 * 2 ^ 8 + d3 ∧
      (uint32_from_4_bytes [d0, d1, d2, d3] = d0 * 2 ^ 24 + d1 * 2 ^ 16 + d2 * 2 ^ 8 + d3 ↔
        d0 = 0 ∧ d1 = 0) ∧
      uint32_from_4_bytes [d0, d1, d2, d3] = uint32_from_4_bytes [0, d1, d2, d3]) ∧
    uint32_from_4_bytes [1, 0, 0, 0] = 0 ∧
    uint32_from_4_bytes [1, 2, 3, 4] = uint32_from_4_bytes [9, 2, 3, 4] := by
  refine ⟨?_, by decide, by decide⟩
  intro d0 d1 d2 d3 h0 h1 h2 h3
  have hv := uint32_from_4_bytes_value d0 d1 d2 d3 h0 h1 h2 h3
  have hz := uint32_from_4_bytes_value 0 d1 d2 d3 (by omega) h1 h2 h3
  refine ⟨hv, ?_, by rw [hv, hz]⟩
  rw [hv]
  constructor
  · intro h; omega
  · rintro ⟨ha, hb⟩; subst ha; subst hb; omega

end Atsha204
